import Mathlib

/-!
Caregiver shift tracker: the visit lifecycle.

A shallow embedding of the Go backend (`backend/internal`): the record types of
`models/models.go`, the SQL-backed repositories of `repositories/` acting on an in-memory
image of the tables, and the services of `services/`.

Conventions of the embedding.

* A `time.Time` is an integer count of nanoseconds, so `Before`, `After` and `Add` are `<`,
  `>` and `+`. Every operation takes the reading of `time.Now()` as its argument `now`; the
  readings taken inside one call are the same instant.
* A `float64` coordinate is a rational number; coordinates are stored, copied and compared
  with the bounds -90, 90, -180 and 180, and on every `float64` other than NaN these
  comparisons are the comparisons of the numbers.
* A Go `string` is a `String`; where the code takes `len` of a string or slices it, the
  string is the list of its characters.
* A Go `error` is its message (`err.Error()`); `fmt.Errorf("ctx: %w", err)` is string
  concatenation. A function returning `error` returns `Except String Unit`, one returning
  `(*T, error)` returns `Except String (Option T)`.
* The database is the `World`: the rows of the tables `schedules`, `visits`, `tasks` and
  `clients`, a script of driver outcomes
  for the SQL statements still to come (`none`: the statement executes, `some e`: the driver
  reports `e`, an empty script: every statement executes), the trace of repository
  methods called so far, and the durations handed to `time.Sleep` so far. A function
  touching the database maps a `World` to its result and the next `World`, also when it
  fails. The `CHECK` and `FOREIGN KEY` constraints of the schema are not enforced by the
  statements of the embedding.
* A query read with `for rows.Next()` can stop before its last row: a second script says, for
  each such loop still to come, whether `rows.Next()` meets an error and after how many rows
  (an empty script: every loop reaches its last row). The repositories never consult
  `rows.Err()`, so the rows read until then are what the method returns, with a `nil` error.
* The column `schedules.start_time` is text. `insertSampleData` writes it with SQL
  `datetime(...)`, a text SQL `DATE` reads. `scheduleRepository.Update` binds a `time.Time`,
  which the driver `modernc.org/sqlite`, opened without `_time_format`, stores as the text of
  `time.Time.String()`; `Scan` reads the same instant back from it, `DATE` gives `NULL` on
  it. The row keeps the instant, and the `World` the ids of the rows so rewritten.
  `ORDER BY start_time` is taken on the instants, and all instants in one time zone.
* The client record joined to a schedule and the logger are not part of the embedding.
* A handler of `handlers/` takes what `parseIntParam` and `c.ShouldBindJSON` make of the
  request (the value read, or the error) and gives the response it writes with `c.JSON`:
  the status code and the keys of the JSON object.
-/

namespace Caregiver

/-- Instants of `time.Time`, counted in nanoseconds. -/
abbrev Time := Int

/-- Go constant `time.Minute`, a `time.Duration` in nanoseconds. -/
def Minute : Int := 60 * 1000000000

/-- Go constant `time.Millisecond`. -/
def Millisecond : Int := 1000000

/-- Go constant `time.Hour`. -/
def Hour : Int := 60 * Minute

/-- Length of a calendar day, used by the SQL function `DATE`. -/
def Day : Int := 24 * Hour

/-- SQL `DATE(t)`: the calendar day an instant falls on. -/
def DATE (t : Time) : Int := t / Day

/-- Record `models.Visit`; a row of table `visits` has exactly these columns. -/
structure Visit where
  ID : Int := 0
  ScheduleID : Int := 0
  StartTime : Option Time := none
  EndTime : Option Time := none
  StartLatitude : Option Rat := none
  StartLongitude : Option Rat := none
  EndLatitude : Option Rat := none
  EndLongitude : Option Rat := none
  Status : String := ""
  Notes : String := ""
  CreatedAt : Time := 0
  UpdatedAt : Time := 0
  deriving DecidableEq, Repr

/-- Record `models.Task`; a row of table `tasks` has exactly these columns. -/
structure Task where
  ID : Int := 0
  ScheduleID : Int := 0
  Title : String := ""
  Description : String := ""
  Status : String := ""
  Reason : String := ""
  CompletedAt : Option Time := none
  CreatedAt : Time := 0
  UpdatedAt : Time := 0
  deriving DecidableEq, Repr

/-- Record `models.Schedule` with its related data (`Visit`, `Tasks`), which no column holds. -/
structure Schedule where
  ID : Int := 0
  ClientID : Int := 0
  ServiceName : String := ""
  CaregiverID : Int := 0
  StartTime : Time := 0
  EndTime : Time := 0
  Status : String := ""
  Notes : String := ""
  CreatedAt : Time := 0
  UpdatedAt : Time := 0
  Visit : Option Visit := none
  Tasks : List Task := []
  deriving DecidableEq, Repr

/-- A row of table `schedules` (`createSchedulesTable` in `database/database.go`). -/
structure ScheduleRow where
  ID : Int := 0
  ClientID : Int := 0
  ServiceName : String := ""
  CaregiverID : Int := 0
  StartTime : Time := 0
  EndTime : Time := 0
  Status : String := ""
  Notes : String := ""
  CreatedAt : Time := 0
  UpdatedAt : Time := 0
  deriving DecidableEq, Repr

/-- Record `models.VisitStartRequest`. -/
structure VisitStartRequest where
  Latitude : Rat
  Longitude : Rat
  deriving DecidableEq, Repr

/-- Record `models.VisitEndRequest`. -/
structure VisitEndRequest where
  Latitude : Rat
  Longitude : Rat
  Notes : String := ""
  deriving DecidableEq, Repr

/-- Record `models.TaskUpdateRequest`. -/
structure TaskUpdateRequest where
  Status : String
  Reason : String := ""
  deriving DecidableEq, Repr

/-- Record `models.Client`; a row of table `clients` has exactly these columns. -/
structure Client where
  ID : Int := 0
  Name : String := ""
  Email : String := ""
  Phone : String := ""
  Address : String := ""
  City : String := ""
  State : String := ""
  ZipCode : String := ""
  Latitude : Rat := 0
  Longitude : Rat := 0
  Notes : String := ""
  IsActive : Bool := true
  CreatedAt : Time := 0
  UpdatedAt : Time := 0
  deriving DecidableEq, Repr

/-- Record `models.ScheduleStats`. -/
structure ScheduleStats where
  Total : Int := 0
  Missed : Int := 0
  Upcoming : Int := 0
  Completed : Int := 0
  deriving DecidableEq, Repr

/-- A response written with `c.JSON(code, gin.H{...})`: the status code and the keys
`success`, `message`, `error` and `details` of the JSON object, where present. -/
structure Response where
  Code : Nat
  Success : Option Bool := none
  Message : Option String := none
  Error : Option String := none
  Details : Option String := none
  deriving DecidableEq, Repr

/-- Record `models.ScheduleFilter`. -/
structure ScheduleFilter where
  CaregiverID : Option Int := none
  Date : Option Time := none
  Status : Option String := none
  Limit : Option Int := none
  Offset : Option Int := none
  deriving DecidableEq, Repr

/-- A call of a repository method (interfaces `ScheduleRepository`, `VisitRepository`,
`TaskRepository` of `repositories/interfaces.go`) with its arguments. -/
inductive Call where
  | scheduleGetAll (filter : Option ScheduleFilter)
  | scheduleGetByID (id : Int)
  | scheduleGetToday (caregiverID : Int)
  | scheduleUpdate (schedule : Schedule)
  | visitGetByScheduleID (scheduleID : Int)
  | visitCreate (visit : Visit)
  | visitUpdate (visit : Visit)
  | visitStartVisit (scheduleID : Int) (latitude longitude : Rat)
  | visitEndVisit (scheduleID : Int) (latitude longitude : Rat) (notes : String)
  | visitCancelVisit (scheduleID : Int)
  | taskGetByScheduleID (scheduleID : Int)
  | taskGetByID (id : Int)
  | taskUpdateStatus (id : Int) (status reason : String)
  | taskDelete (id : Int)
  | scheduleGetStats (caregiverID : Int)
  | taskCreate (task : Task)
  | taskUpdate (task : Task)
  | clientGetByID (id : Int)
  | clientDelete (id : Int)
  deriving DecidableEq, Repr

/-- Whether a call writes a table (`Update`, `Create` and the three visit transitions). -/
def Call.isWrite : Call → Bool
  | .scheduleUpdate _ => true
  | .visitCreate _ => true
  | .visitUpdate _ => true
  | .visitStartVisit _ _ _ => true
  | .visitEndVisit _ _ _ _ => true
  | .visitCancelVisit _ => true
  | .taskUpdateStatus _ _ _ => true
  | .taskDelete _ => true
  | .taskCreate _ => true
  | .taskUpdate _ => true
  | .clientDelete _ => true
  | _ => false

/-- Whether a call goes to the visit repository. -/
def Call.onVisit : Call → Bool
  | .visitGetByScheduleID _ => true
  | .visitCreate _ => true
  | .visitUpdate _ => true
  | .visitStartVisit _ _ _ => true
  | .visitEndVisit _ _ _ _ => true
  | .visitCancelVisit _ => true
  | _ => false

/-- The database behind `*sql.DB` together with what has been observed of its use: the rows
of the four tables, the outcomes `faults` of the statements to come, the `trace` of repository
calls, the `sleeps` made, the ids `rewritten` of the `schedules` rows whose `start_time` an
`Update` has rewritten, and the outcomes `breaks` of the row loops to come. -/
structure World where
  schedules : List ScheduleRow := []
  visits : List Visit := []
  tasks : List Task := []
  faults : List (Option String) := []
  trace : List Call := []
  sleeps : List Int := []
  clients : List Client := []
  rewritten : List Int := []
  breaks : List (Option Nat) := []
  deriving DecidableEq, Repr

/-- Record a repository call in the trace. -/
def World.log (w : World) (c : Call) : World :=
  { w with trace := w.trace ++ [c] }

/-- Outcome the driver gives the next SQL statement, and the world with that outcome used up. -/
def World.nextFault (w : World) : Option String × World :=
  match w.faults with
  | [] => (none, w)
  | f :: fs => (f, { w with faults := fs })

/-- Outcome of the next loop `for rows.Next()`, and the world with that outcome used up:
`some k` when `rows.Next()` meets an error after `k` rows, `none` when the loop reaches the
last row. -/
def World.nextBreak (w : World) : Option Nat × World :=
  match w.breaks with
  | [] => (none, w)
  | b :: bs => (b, { w with breaks := bs })

/-- The rows a loop `for rows.Next() { ...; xs = append(xs, x) }` has appended when it ends:
all the rows of the result, or the first `k` of them when `rows.Next()` met an error after
`k` rows. -/
def collected {α : Type} (rows : List α) : Option Nat → List α
  | none => rows
  | some k => rows.take k

/-- SQL `DATE(start_time)` of a `schedules` row: `NULL` (here `none`) on a row `Update` has
rewritten, whose text is not one `DATE` reads. -/
def World.startDate (w : World) (r : ScheduleRow) : Option Int :=
  if r.ID ∈ w.rewritten then none else some (DATE r.StartTime)

/-! ## repositories/schedule_repository.go -/

/-- The `Scan` of a `schedules` row into a `models.Schedule`. -/
def scanSchedule (r : ScheduleRow) : Schedule :=
  { ID := r.ID, ClientID := r.ClientID, ServiceName := r.ServiceName,
    CaregiverID := r.CaregiverID, StartTime := r.StartTime, EndTime := r.EndTime,
    Status := r.Status, Notes := r.Notes, CreatedAt := r.CreatedAt, UpdatedAt := r.UpdatedAt,
    Visit := none, Tasks := [] }

/-- The `WHERE` clause `scheduleRepository.GetAll` builds from its filter:
`s.caregiver_id = ?`, `DATE(s.start_time) = DATE(?)` with the argument
`filter.Date.Format("2006-01-02")`, and `s.status = ?`. A comparison with `NULL` selects no
row. -/
def scheduleRepository.matchesFilter (w : World) (filter : Option ScheduleFilter)
    (r : ScheduleRow) : Bool :=
  match filter with
  | none => true
  | some f =>
    (match f.CaregiverID with
      | some c => r.CaregiverID == c
      | none => true) &&
    (match f.Date with
      | some d => w.startDate r == some (DATE d)
      | none => true) &&
    (match f.Status with
      | some s => r.Status == s
      | none => true)

/-- The `LIMIT ? OFFSET ?` tail of the query of `GetAll`: `none` when the tail is `OFFSET`
alone, which SQLite does not parse. A negative limit means no limit. -/
def scheduleRepository.page (filter : Option ScheduleFilter) (rows : List ScheduleRow) :
    Option (List ScheduleRow) :=
  match filter with
  | none => some rows
  | some f =>
    match f.Limit, f.Offset with
    | none, none => some rows
    | none, some _ => none
    | some l, none => some (if l < 0 then rows else rows.take l.toNat)
    | some l, some o =>
      some (if l < 0 then rows.drop o.toNat else (rows.drop o.toNat).take l.toNat)

/-- Method `scheduleRepository.GetAll`: the rows matching the filter, `ORDER BY start_time ASC`,
as far as the loop `for rows.Next()` reads them; the method returns `schedules, nil` after the
loop without a look at `rows.Err()`. -/
def scheduleRepository.GetAll (filter : Option ScheduleFilter) (w : World) :
    Except String (List Schedule) × World :=
  match (w.log (.scheduleGetAll filter)).nextFault with
  | (some e, w1) => (.error ("failed to query schedules: " ++ e), w1)
  | (none, w1) =>
    match scheduleRepository.page filter
        ((w1.schedules.filter (scheduleRepository.matchesFilter w1 filter)).mergeSort
          (fun a b => decide (a.StartTime ≤ b.StartTime))) with
    | none => (.error "failed to query schedules: near \"OFFSET\": syntax error", w1)
    | some rows =>
      match w1.nextBreak with
      | (b, w2) => (.ok ((collected rows b).map scanSchedule), w2)

/-- Method `scheduleRepository.GetByID`: `nil, nil` (here `none`) when no row has the id. -/
def scheduleRepository.GetByID (id : Int) (w : World) : Except String (Option Schedule) × World :=
  match (w.log (.scheduleGetByID id)).nextFault with
  | (some e, w1) => (.error ("failed to get schedule: " ++ e), w1)
  | (none, w1) => (.ok ((w1.schedules.find? (fun r => r.ID == id)).map scanSchedule), w1)

/-- Method `scheduleRepository.GetToday`: `GetAll` filtered on the caregiver and today's date. -/
def scheduleRepository.GetToday (now : Time) (caregiverID : Int) (w : World) :
    Except String (List Schedule) × World :=
  scheduleRepository.GetAll (some { CaregiverID := some caregiverID, Date := some now })
    (w.log (.scheduleGetToday caregiverID))

/-- What `UPDATE schedules SET client_id = ?, ..., status = ?, notes = ?,
updated_at = CURRENT_TIMESTAMP WHERE id = ?` does to one row. -/
def scheduleRepository.updateRow (now : Time) (schedule : Schedule) (r : ScheduleRow) :
    ScheduleRow :=
  if r.ID == schedule.ID then
    { r with ClientID := schedule.ClientID, ServiceName := schedule.ServiceName,
             CaregiverID := schedule.CaregiverID, StartTime := schedule.StartTime,
             EndTime := schedule.EndTime, Status := schedule.Status,
             Notes := schedule.Notes, UpdatedAt := now }
  else r

/-- Method `scheduleRepository.Update`: the `UPDATE` statement run on every row. Its
arguments `schedule.StartTime` and `schedule.EndTime` are `time.Time` values, so the rows
with the id of the schedule hold from then on a text of the instant that `DATE` does not
read. -/
def scheduleRepository.Update (now : Time) (schedule : Schedule) (w : World) :
    Except String Unit × World :=
  match (w.log (.scheduleUpdate schedule)).nextFault with
  | (some e, w1) => (.error ("failed to update schedule: " ++ e), w1)
  | (none, w1) =>
    (.ok (), { w1 with schedules := w1.schedules.map (scheduleRepository.updateRow now schedule),
                       rewritten := schedule.ID :: w1.rewritten })

/-- Method `scheduleRepository.GetStats`: one row of aggregates over the schedules of the
caregiver, `DATE('now')` being the date of `now`. Over no row at all `COUNT(*)` is 0 and each
`SUM` is `NULL`, which `Scan` does not convert to `int`. -/
def scheduleRepository.GetStats (now : Time) (caregiverID : Int) (w : World) :
    Except String (Option ScheduleStats) × World :=
  match (w.log (.scheduleGetStats caregiverID)).nextFault with
  | (some e, w1) => (.error ("failed to get schedule stats: " ++ e), w1)
  | (none, w1) =>
    let rows := w1.schedules.filter (fun r => r.CaregiverID == caregiverID)
    if rows.length = 0 then
      (.error ("failed to get schedule stats: sql: Scan error on column index 1, " ++
        "name \"missed\": converting NULL to int is unsupported"), w1)
    else
      (.ok (some
        { Total := rows.length,
          Missed := (rows.filter (fun r => r.Status == "missed")).length,
          Upcoming := (rows.filter
            (fun r => r.Status == "scheduled" && w1.startDate r == some (DATE now))).length,
          Completed := (rows.filter
            (fun r => r.Status == "completed" && w1.startDate r == some (DATE now))).length }),
        w1)

/-! ## repositories/visit_repository.go -/

/-- Method `visitRepository.GetByScheduleID`: `nil, nil` when the schedule has no visit row. -/
def visitRepository.GetByScheduleID (scheduleID : Int) (w : World) :
    Except String (Option Visit) × World :=
  match (w.log (.visitGetByScheduleID scheduleID)).nextFault with
  | (some e, w1) => (.error ("failed to get visit: " ++ e), w1)
  | (none, w1) => (.ok (w1.visits.find? (fun v => v.ScheduleID == scheduleID)), w1)

/-- Columns named by the `INSERT INTO visits (...)` statement of `visitRepository.Create`. -/
def visitRepository.createColumns : List String :=
  ["schedule_id", "start_time", "end_time", "start_latitude", "start_longitude",
   "end_latitude", "end_longitude", "status", "notes"]

/-- Number of `?` in the `VALUES (?, ?, ?, ?, ?, ?, ?, ?)` list of that statement. -/
def visitRepository.createPlaceholders : Nat := 8

/-- Number of arguments `visitRepository.Create` passes to `r.db.Exec` after the query:
`visit.ScheduleID, visit.StartTime, visit.EndTime, visit.StartLatitude, visit.StartLongitude,
visit.EndLatitude, visit.EndLongitude, visit.Status, visit.Notes`. -/
def visitRepository.createArgs : Nat := 9

/-- Method `visitRepository.Create`. The statement is compiled before it is run: SQLite
refuses an `INSERT` whose `VALUES` list and column list differ in length, and `database/sql`
one whose arguments and placeholders differ in number. An accepted statement adds a row with
the next id; `schedule_id` is `UNIQUE`. The visit comes back with its `ID` set. -/
def visitRepository.Create (now : Time) (visit : Visit) (w : World) :
    Except String Visit × World :=
  let w0 := w.log (.visitCreate visit)
  if visitRepository.createColumns.length ≠ visitRepository.createPlaceholders then
    (.error ("failed to create visit: " ++ toString visitRepository.createPlaceholders ++
      " values for " ++ toString visitRepository.createColumns.length ++ " columns"), w0)
  else if visitRepository.createArgs ≠ visitRepository.createPlaceholders then
    (.error ("failed to create visit: sql: expected " ++
      toString visitRepository.createPlaceholders ++ " arguments, got " ++
      toString visitRepository.createArgs), w0)
  else
    match w0.nextFault with
    | (some e, w1) => (.error ("failed to create visit: " ++ e), w1)
    | (none, w1) =>
      if w1.visits.any (fun v => v.ScheduleID == visit.ScheduleID) then
        (.error "failed to create visit: UNIQUE constraint failed: visits.schedule_id", w1)
      else
        let id := (w1.visits.map (fun v => v.ID)).foldl max 0 + 1
        (.ok { visit with ID := id },
          { w1 with visits := w1.visits ++
              [{ visit with ID := id, CreatedAt := now, UpdatedAt := now }] })

/-- What `UPDATE visits SET start_time = ?, end_time = ?, start_latitude = ?,
start_longitude = ?, end_latitude = ?, end_longitude = ?, status = ?, notes = ?,
updated_at = CURRENT_TIMESTAMP WHERE id = ?` does to one row. -/
def visitRepository.updateRow (now : Time) (visit : Visit) (r : Visit) : Visit :=
  if r.ID == visit.ID then
    { r with StartTime := visit.StartTime, EndTime := visit.EndTime,
             StartLatitude := visit.StartLatitude, StartLongitude := visit.StartLongitude,
             EndLatitude := visit.EndLatitude, EndLongitude := visit.EndLongitude,
             Status := visit.Status, Notes := visit.Notes, UpdatedAt := now }
  else r

/-- Method `visitRepository.Update`: the `UPDATE` statement run on every row. -/
def visitRepository.Update (now : Time) (visit : Visit) (w : World) : Except String Unit × World :=
  match (w.log (.visitUpdate visit)).nextFault with
  | (some e, w1) => (.error ("failed to update visit: " ++ e), w1)
  | (none, w1) =>
    (.ok (), { w1 with visits := w1.visits.map (visitRepository.updateRow now visit) })

/-- The visit `StartVisit` writes over an existing one: `visit.StartTime = &now`,
`visit.StartLatitude = &latitude`, `visit.StartLongitude = &longitude`,
`visit.Status = "in_progress"`. -/
def Visit.started (now : Time) (latitude longitude : Rat) (visit : Visit) : Visit :=
  { visit with StartTime := some now, StartLatitude := some latitude,
               StartLongitude := some longitude, Status := "in_progress" }

/-- The visit `EndVisit` writes: `visit.EndTime = &now`, `visit.EndLatitude = &latitude`,
`visit.EndLongitude = &longitude`, `visit.Status = "completed"`, and
`if notes != "" { visit.Notes = notes }`. -/
def Visit.ended (now : Time) (latitude longitude : Rat) (notes : String) (visit : Visit) : Visit :=
  { visit with EndTime := some now, EndLatitude := some latitude,
               EndLongitude := some longitude, Status := "completed",
               Notes := if notes ≠ "" then notes else visit.Notes }

/-- The visit `CancelVisit` writes: times and coordinates `nil`, `Status = "not_started"`,
`Notes = ""`. -/
def Visit.cancelled (visit : Visit) : Visit :=
  { visit with StartTime := none, EndTime := none, StartLatitude := none,
               StartLongitude := none, EndLatitude := none, EndLongitude := none,
               Status := "not_started", Notes := "" }

/-- Method `visitRepository.StartVisit`. -/
def visitRepository.StartVisit (now : Time) (scheduleID : Int) (latitude longitude : Rat)
    (w : World) : Except String Unit × World :=
  match visitRepository.GetByScheduleID scheduleID
      (w.log (.visitStartVisit scheduleID latitude longitude)) with
  | (.error err, w1) => (.error ("failed to check existing visit: " ++ err), w1)
  | (.ok none, w1) =>
    match visitRepository.Create now
        { ScheduleID := scheduleID, StartTime := some now, StartLatitude := some latitude,
          StartLongitude := some longitude, Status := "in_progress" } w1 with
    | (.error err, w2) => (.error err, w2)
    | (.ok _, w2) => (.ok (), w2)
  | (.ok (some visit), w1) =>
    visitRepository.Update now (visit.started now latitude longitude) w1

/-- Method `visitRepository.EndVisit`. -/
def visitRepository.EndVisit (now : Time) (scheduleID : Int) (latitude longitude : Rat)
    (notes : String) (w : World) : Except String Unit × World :=
  match visitRepository.GetByScheduleID scheduleID
      (w.log (.visitEndVisit scheduleID latitude longitude notes)) with
  | (.error err, w1) => (.error ("failed to get visit: " ++ err), w1)
  | (.ok none, w1) => (.error ("visit not found for schedule " ++ toString scheduleID), w1)
  | (.ok (some visit), w1) =>
    if visit.StartTime = none then
      (.error "cannot end visit that hasn't been started", w1)
    else
      visitRepository.Update now (visit.ended now latitude longitude notes) w1

/-- Method `visitRepository.CancelVisit`. -/
def visitRepository.CancelVisit (now : Time) (scheduleID : Int) (w : World) :
    Except String Unit × World :=
  match visitRepository.GetByScheduleID scheduleID (w.log (.visitCancelVisit scheduleID)) with
  | (.error err, w1) => (.error ("failed to get visit: " ++ err), w1)
  | (.ok none, w1) => (.error ("visit not found for schedule " ++ toString scheduleID), w1)
  | (.ok (some visit), w1) =>
    if visit.Status ≠ "in_progress" then
      (.error "visit is not in progress", w1)
    else
      visitRepository.Update now visit.cancelled w1

/-! ## repositories/task_repository.go -/

/-- Method `taskRepository.GetByScheduleID`: the tasks of a schedule, `ORDER BY created_at ASC`,
as far as the loop `for rows.Next()` reads them; the method returns `tasks, nil` after the
loop without a look at `rows.Err()`. -/
def taskRepository.GetByScheduleID (scheduleID : Int) (w : World) :
    Except String (List Task) × World :=
  match (w.log (.taskGetByScheduleID scheduleID)).nextFault with
  | (some e, w1) => (.error ("failed to query tasks: " ++ e), w1)
  | (none, w1) =>
    match w1.nextBreak with
    | (b, w2) =>
      (.ok (collected ((w1.tasks.filter (fun t => t.ScheduleID == scheduleID)).mergeSort
        (fun a b => decide (a.CreatedAt ≤ b.CreatedAt))) b), w2)

/-- Method `taskRepository.GetByID`: `nil, nil` when no row has the id. -/
def taskRepository.GetByID (id : Int) (w : World) : Except String (Option Task) × World :=
  match (w.log (.taskGetByID id)).nextFault with
  | (some e, w1) => (.error ("failed to get task: " ++ e), w1)
  | (none, w1) => (.ok (w1.tasks.find? (fun t => t.ID == id)), w1)

/-- Function `containsSubstring`: the loop over `i` from 0 to `len(s)-len(substr)` that
compares `s[i:i+len(substr)]` with `substr`. -/
def containsSubstring {α : Type} [DecidableEq α] (s substr : List α) : Bool :=
  if substr.length = 0 then true
  else if substr.length > s.length then false
  else (List.range (s.length - substr.length + 1)).any
    (fun i => decide ((s.drop i).take substr.length = substr))

/-- Function `containsErrorSubstring`. -/
def containsErrorSubstring {α : Type} [DecidableEq α] (errStr substr : List α) : Bool :=
  decide (errStr.length ≥ substr.length) &&
    (decide (errStr = substr) ||
      (decide (errStr.length > substr.length) &&
        (decide (errStr.take substr.length = substr) ||
          decide (errStr.drop (errStr.length - substr.length) = substr) ||
          containsSubstring errStr substr)))

/-- The slice expression `s[lo:hi]` of Go: the elements from index `lo` up to `hi`, and a
run-time panic, here `none`, unless `0 ≤ lo ≤ hi ≤ len(s)`. -/
def goSlice {α : Type} (s : List α) (lo hi : Int) : Option (List α) :=
  if 0 ≤ lo ∧ lo ≤ hi ∧ hi ≤ (s.length : Int) then
    some ((s.drop lo.toNat).take (hi - lo).toNat)
  else none

/-- The body of the loop of `containsSubstring` run over the indices given, each slice
expression `s[i:i+len(substr)]` checked: `none` when one of them panics. -/
def containsSubstring.scan {α : Type} [DecidableEq α] (s substr : List α) :
    List Nat → Option Bool
  | [] => some false
  | i :: rest =>
    match goSlice s i ((i : Int) + substr.length) with
    | none => none
    | some x => if x = substr then some true else containsSubstring.scan s substr rest

/-- Function `containsSubstring` with its slice expressions checked: the loop runs `i` from 0
while `i <= len(s)-len(substr)`. -/
def containsSubstring.checked {α : Type} [DecidableEq α] (s substr : List α) : Option Bool :=
  if substr.length = 0 then some true
  else if substr.length > s.length then some false
  else containsSubstring.scan s substr
    (List.range ((s.length : Int) - substr.length + 1).toNat)

/-- Function `containsErrorSubstring` with its slice expressions checked and its `&&` and
`||` evaluated from left to right, the right operand only when the left one does not decide
the result. -/
def containsErrorSubstring.checked {α : Type} [DecidableEq α] (errStr substr : List α) :
    Option Bool :=
  if ¬ errStr.length ≥ substr.length then some false
  else if errStr = substr then some true
  else if ¬ errStr.length > substr.length then some false
  else
    match goSlice errStr 0 substr.length with
    | none => none
    | some p =>
      if p = substr then some true
      else
        match goSlice errStr ((errStr.length : Int) - substr.length) errStr.length with
        | none => none
        | some q =>
          if q = substr then some true else containsSubstring.checked errStr substr

/-- Function `isDatabaseLockedError`; `none` is the `nil` error. -/
def isDatabaseLockedError (err : Option String) : Bool :=
  match err with
  | none => false
  | some errStr =>
    containsErrorSubstring errStr.data "database is locked".data ||
    containsErrorSubstring errStr.data "SQLITE_BUSY".data ||
    containsErrorSubstring errStr.data "busy".data

/-- What `UPDATE tasks SET status = ?, reason = ?, completed_at = ?,
updated_at = CURRENT_TIMESTAMP WHERE id = ?` does to one row. -/
def taskRepository.updateStatusRow (now : Time) (id : Int) (status reason : String)
    (completedAt : Option Time) (r : Task) : Task :=
  if r.ID == id then
    { r with Status := status, Reason := reason, CompletedAt := completedAt, UpdatedAt := now }
  else r

/-- One `r.db.Exec(query, status, reason, completedAt, id)` of `taskRepository.UpdateStatus`:
the error the driver reports, if any, else the statement run on every row. -/
def taskRepository.execUpdateStatus (now : Time) (id : Int) (status reason : String)
    (completedAt : Option Time) (w : World) : Option String × World :=
  match w.nextFault with
  | (some e, w1) => (some e, w1)
  | (none, w1) =>
    let exec := taskRepository.updateStatusRow now id status reason completedAt
    (none, { w1 with tasks := w1.tasks.map exec })

/-- The retry loop `for i := 0; i < maxRetries; i++` of `taskRepository.UpdateStatus`; the
first argument counts the iterations left, `err` is the variable the loop assigns. The loop
ends on a success, on an error that is not a locked error, or after the last iteration; after
a locked error it sleeps `time.Millisecond * time.Duration(100*(i+1))`. -/
def taskRepository.retryUpdateStatus (now : Time) (id : Int) (status reason : String)
    (completedAt : Option Time) : Nat → Nat → Option String → World → Option String × World
  | 0, _, err, w => (err, w)
  | left + 1, i, _, w =>
    match taskRepository.execUpdateStatus now id status reason completedAt w with
    | (none, w1) => (none, w1)
    | (some e, w1) =>
      if isDatabaseLockedError (some e) then
        taskRepository.retryUpdateStatus now id status reason completedAt left (i + 1) (some e)
          { w1 with sleeps := w1.sleeps ++ [Millisecond * (100 * ((i : Int) + 1))] }
      else (some e, w1)

/-- Method `taskRepository.UpdateStatus`, with `maxRetries := 3`. -/
def taskRepository.UpdateStatus (now : Time) (id : Int) (status reason : String) (w : World) :
    Except String Unit × World :=
  match taskRepository.retryUpdateStatus now id status reason
      (if status = "completed" then some now else none) 3 0 none
      (w.log (.taskUpdateStatus id status reason)) with
  | (some e, w1) => (.error ("failed to update task status: " ++ e), w1)
  | (none, w1) => (.ok (), w1)

/-- Method `taskRepository.Delete`. -/
def taskRepository.Delete (id : Int) (w : World) : Except String Unit × World :=
  match (w.log (.taskDelete id)).nextFault with
  | (some e, w1) => (.error ("failed to delete task: " ++ e), w1)
  | (none, w1) => (.ok (), { w1 with tasks := w1.tasks.filter (fun t => !(t.ID == id)) })

/-- Method `taskRepository.Create`: `INSERT INTO tasks (schedule_id, title, description,
status, reason, completed_at) VALUES (?, ?, ?, ?, ?, ?)` with its six arguments; the row gets
the next id and the task comes back with its `ID` set. -/
def taskRepository.Create (now : Time) (task : Task) (w : World) :
    Except String Task × World :=
  match (w.log (.taskCreate task)).nextFault with
  | (some e, w1) => (.error ("failed to create task: " ++ e), w1)
  | (none, w1) =>
    let id := (w1.tasks.map (fun t => t.ID)).foldl max 0 + 1
    (.ok { task with ID := id },
      { w1 with tasks := w1.tasks ++ [{ task with ID := id, CreatedAt := now, UpdatedAt := now }] })

/-- What `UPDATE tasks SET title = ?, description = ?, status = ?, reason = ?,
completed_at = ?, updated_at = CURRENT_TIMESTAMP WHERE id = ?` does to one row. -/
def taskRepository.updateRow (now : Time) (task : Task) (r : Task) : Task :=
  if r.ID == task.ID then
    { r with Title := task.Title, Description := task.Description, Status := task.Status,
             Reason := task.Reason, CompletedAt := task.CompletedAt, UpdatedAt := now }
  else r

/-- Method `taskRepository.Update`. -/
def taskRepository.Update (now : Time) (task : Task) (w : World) : Except String Unit × World :=
  match (w.log (.taskUpdate task)).nextFault with
  | (some e, w1) => (.error ("failed to update task: " ++ e), w1)
  | (none, w1) => (.ok (), { w1 with tasks := w1.tasks.map (taskRepository.updateRow now task) })

/-! ## repositories/client_repository.go -/

/-- Method `clientRepository.GetByID`: `nil, nil` when no row has the id. -/
def clientRepository.GetByID (id : Int) (w : World) : Except String (Option Client) × World :=
  match (w.log (.clientGetByID id)).nextFault with
  | (some e, w1) => (.error ("failed to get client: " ++ e), w1)
  | (none, w1) => (.ok (w1.clients.find? (fun c => c.ID == id)), w1)

/-- Method `clientRepository.Delete`: `SELECT COUNT(*) FROM schedules WHERE client_id = ?`,
then, when the count is 0, `DELETE FROM clients WHERE id = ?`. -/
def clientRepository.Delete (id : Int) (w : World) : Except String Unit × World :=
  match (w.log (.clientDelete id)).nextFault with
  | (some e, w1) => (.error ("failed to check client schedules: " ++ e), w1)
  | (none, w1) =>
    let count := (w1.schedules.filter (fun r => r.ClientID == id)).length
    if count > 0 then
      (.error ("cannot delete client: client has " ++ toString count ++
        " associated schedules"), w1)
    else
      match w1.nextFault with
      | (some e, w2) => (.error ("failed to delete client: " ++ e), w2)
      | (none, w2) =>
        (.ok (), { w2 with clients := w2.clients.filter (fun c => !(c.ID == id)) })

/-! ## services/schedule_service.go -/

/-- Method `ScheduleService.enrichSchedule`: attaches the visit and the tasks to the schedule.
The schedule is passed by pointer, so what was attached before an error stays attached. -/
def ScheduleService.enrichSchedule (schedule : Schedule) (w : World) :
    Except String Unit × Schedule × World :=
  match visitRepository.GetByScheduleID schedule.ID w with
  | (.error err, w1) => (.error ("failed to get visit: " ++ err), schedule, w1)
  | (.ok visit, w1) =>
    match taskRepository.GetByScheduleID schedule.ID w1 with
    | (.error err, w2) =>
      (.error ("failed to get tasks: " ++ err), { schedule with Visit := visit }, w2)
    | (.ok tasks, w2) => (.ok (), { schedule with Visit := visit, Tasks := tasks }, w2)

/-- The loop `for i := range schedules` around `enrichSchedule` in `GetAllSchedules` and
`GetTodaySchedules`: an error of `enrichSchedule` is logged and the loop goes on. -/
def ScheduleService.enrichAll : List Schedule → World → List Schedule × World
  | [], w => ([], w)
  | schedule :: rest, w =>
    match ScheduleService.enrichSchedule schedule w with
    | (_, schedule1, w1) =>
      match ScheduleService.enrichAll rest w1 with
      | (rest1, w2) => (schedule1 :: rest1, w2)

/-- Method `ScheduleService.updateScheduleStatus`. -/
def ScheduleService.updateScheduleStatus (now : Time) (schedule : Schedule) : Schedule :=
  if schedule.Visit ≠ none ∧ schedule.Visit.map (fun v => v.Status) = some "completed" then
    { schedule with Status := "completed" }
  else if schedule.Visit ≠ none ∧
      schedule.Visit.map (fun v => v.Status) = some "in_progress" then
    { schedule with Status := "in_progress" }
  else if now > schedule.EndTime ∧
      (schedule.Visit = none ∨ schedule.Visit.bind (fun v => v.StartTime) = none) then
    { schedule with Status := "missed" }
  else
    { schedule with Status := "scheduled" }

/-- Method `ScheduleService.GetAllSchedules`. -/
def ScheduleService.GetAllSchedules (filter : Option ScheduleFilter) (w : World) :
    Except String (List Schedule) × World :=
  match scheduleRepository.GetAll filter w with
  | (.error err, w1) => (.error ("failed to get schedules: " ++ err), w1)
  | (.ok schedules, w1) =>
    match ScheduleService.enrichAll schedules w1 with
    | (schedules1, w2) => (.ok schedules1, w2)

/-- Method `ScheduleService.GetScheduleByID`. -/
def ScheduleService.GetScheduleByID (id : Int) (w : World) :
    Except String (Option Schedule) × World :=
  match scheduleRepository.GetByID id w with
  | (.error err, w1) => (.error ("failed to get schedule: " ++ err), w1)
  | (.ok none, w1) => (.ok none, w1)
  | (.ok (some schedule), w1) =>
    match ScheduleService.enrichSchedule schedule w1 with
    | (_, schedule1, w2) => (.ok (some schedule1), w2)

/-- Method `ScheduleService.GetTodaySchedules`. -/
def ScheduleService.GetTodaySchedules (now : Time) (caregiverID : Int) (w : World) :
    Except String (List Schedule) × World :=
  match scheduleRepository.GetToday now caregiverID w with
  | (.error err, w1) => (.error ("failed to get today's schedules: " ++ err), w1)
  | (.ok schedules, w1) =>
    match ScheduleService.enrichAll schedules w1 with
    | (schedules1, w2) => (.ok (schedules1.map (ScheduleService.updateScheduleStatus now)), w2)

/-- Method `ScheduleService.GetScheduleStats`. -/
def ScheduleService.GetScheduleStats (now : Time) (caregiverID : Int) (w : World) :
    Except String (Option ScheduleStats) × World :=
  match scheduleRepository.GetStats now caregiverID w with
  | (.error err, w1) => (.error ("failed to get schedule stats: " ++ err), w1)
  | (.ok stats, w1) => (.ok stats, w1)

/-- Method `ScheduleService.StartVisit`. -/
def ScheduleService.StartVisit (now : Time) (scheduleID : Int) (req : VisitStartRequest)
    (w : World) : Except String Unit × World :=
  match scheduleRepository.GetByID scheduleID w with
  | (.error err, w1) => (.error ("failed to get schedule: " ++ err), w1)
  | (.ok none, w1) => (.error "schedule not found", w1)
  | (.ok (some schedule), w1) =>
    if now < schedule.StartTime + (-30) * Minute then
      (.error "cannot start visit more than 30 minutes before scheduled time", w1)
    else
      match visitRepository.StartVisit now scheduleID req.Latitude req.Longitude w1 with
      | (.error err, w2) => (.error ("failed to start visit: " ++ err), w2)
      | (.ok _, w2) =>
        match scheduleRepository.Update now { schedule with Status := "in_progress" } w2 with
        | (.error err, w3) => (.error ("failed to update schedule status: " ++ err), w3)
        | (.ok _, w3) => (.ok (), w3)

/-- Method `ScheduleService.EndVisit`. -/
def ScheduleService.EndVisit (now : Time) (scheduleID : Int) (req : VisitEndRequest)
    (w : World) : Except String Unit × World :=
  match scheduleRepository.GetByID scheduleID w with
  | (.error err, w1) => (.error ("failed to get schedule: " ++ err), w1)
  | (.ok none, w1) => (.error "schedule not found", w1)
  | (.ok (some schedule), w1) =>
    match visitRepository.EndVisit now scheduleID req.Latitude req.Longitude req.Notes w1 with
    | (.error err, w2) => (.error ("failed to end visit: " ++ err), w2)
    | (.ok _, w2) =>
      match scheduleRepository.Update now { schedule with Status := "completed" } w2 with
      | (.error err, w3) => (.error ("failed to update schedule status: " ++ err), w3)
      | (.ok _, w3) => (.ok (), w3)

/-- Method `ScheduleService.CancelVisit`. -/
def ScheduleService.CancelVisit (now : Time) (scheduleID : Int) (w : World) :
    Except String Unit × World :=
  match scheduleRepository.GetByID scheduleID w with
  | (.error err, w1) => (.error ("failed to get schedule: " ++ err), w1)
  | (.ok none, w1) => (.error "schedule not found", w1)
  | (.ok (some schedule), w1) =>
    if schedule.Status ≠ "scheduled" ∧ schedule.Status ≠ "in_progress" then
      (.error ("visit cannot be cancelled in status: " ++ schedule.Status), w1)
    else
      match (if schedule.Status = "in_progress" then
              visitRepository.CancelVisit now scheduleID w1
            else (.ok (), w1)) with
      | (.error err, w2) => (.error ("failed to cancel visit: " ++ err), w2)
      | (.ok _, w2) =>
        match scheduleRepository.Update now { schedule with Status := "scheduled" } w2 with
        | (.error err, w3) => (.error ("failed to update schedule status: " ++ err), w3)
        | (.ok _, w3) => (.ok (), w3)

/-! ## services/visit_service.go -/

/-- Method `VisitService.EndVisit`. -/
def VisitService.EndVisit (now : Time) (scheduleID : Int) (latitude longitude : Rat)
    (notes : String) (w : World) : Except String Unit × World :=
  match visitRepository.GetByScheduleID scheduleID w with
  | (.error err, w1) => (.error ("failed to get visit: " ++ err), w1)
  | (.ok none, w1) => (.error ("visit not found for schedule " ++ toString scheduleID), w1)
  | (.ok (some visit), w1) =>
    if visit.StartTime = none then
      (.error "cannot end visit that hasn't been started", w1)
    else
      match visitRepository.Update now (visit.ended now latitude longitude notes) w1 with
      | (.error err, w2) => (.error ("failed to update visit: " ++ err), w2)
      | (.ok _, w2) => (.ok (), w2)

/-- Method `VisitService.GetVisitByScheduleID`. -/
def VisitService.GetVisitByScheduleID (scheduleID : Int) (w : World) :
    Except String (Option Visit) × World :=
  match visitRepository.GetByScheduleID scheduleID w with
  | (.error err, w1) => (.error ("failed to get visit: " ++ err), w1)
  | (.ok none, w1) => (.ok none, w1)
  | (.ok (some visit), w1) => (.ok (some visit), w1)

/-- Method `VisitService.validateVisit`. -/
def VisitService.validateVisit (visit : Visit) : Except String Unit :=
  if visit.ScheduleID ≤ 0 then .error "schedule_id is required"
  else if visit.Status = "" then .error "status is required"
  else if ¬ (visit.Status = "not_started" ∨ visit.Status = "in_progress" ∨
      visit.Status = "completed") then .error ("invalid status: " ++ visit.Status)
  else if visit.Status = "in_progress" ∧ visit.StartTime = none then
    .error "start_time is required when status is in_progress"
  else if visit.Status = "in_progress" ∧
      (visit.StartLatitude = none ∨ visit.StartLongitude = none) then
    .error "start location is required when status is in_progress"
  else if visit.Status = "completed" ∧ visit.StartTime = none then
    .error "start_time is required when status is completed"
  else if visit.Status = "completed" ∧ visit.EndTime = none then
    .error "end_time is required when status is completed"
  else if visit.Status = "completed" ∧
      (visit.StartLatitude = none ∨ visit.StartLongitude = none) then
    .error "start location is required when status is completed"
  else if visit.Status = "completed" ∧
      (visit.EndLatitude = none ∨ visit.EndLongitude = none) then
    .error "end location is required when status is completed"
  else if visit.Status = "completed" ∧
      (∃ e ∈ visit.EndTime, ∃ b ∈ visit.StartTime, e < b) then
    .error "end_time cannot be before start_time"
  else if ∃ x ∈ visit.StartLatitude, x < -90 ∨ x > 90 then
    .error "start_latitude must be between -90 and 90"
  else if ∃ x ∈ visit.StartLongitude, x < -180 ∨ x > 180 then
    .error "start_longitude must be between -180 and 180"
  else if ∃ x ∈ visit.EndLatitude, x < -90 ∨ x > 90 then
    .error "end_latitude must be between -90 and 90"
  else if ∃ x ∈ visit.EndLongitude, x < -180 ∨ x > 180 then
    .error "end_longitude must be between -180 and 180"
  else .ok ()

/-- Method `VisitService.CreateVisit`. -/
def VisitService.CreateVisit (now : Time) (visit : Visit) (w : World) :
    Except String Unit × World :=
  match VisitService.validateVisit visit with
  | .error err => (.error ("visit validation failed: " ++ err), w)
  | .ok _ =>
    match visitRepository.Create now visit w with
    | (.error err, w1) => (.error ("failed to create visit: " ++ err), w1)
    | (.ok _, w1) => (.ok (), w1)

/-- Method `VisitService.UpdateVisit`. -/
def VisitService.UpdateVisit (now : Time) (visit : Visit) (w : World) :
    Except String Unit × World :=
  match VisitService.validateVisit visit with
  | .error err => (.error ("visit validation failed: " ++ err), w)
  | .ok _ =>
    match visitRepository.Update now visit w with
    | (.error err, w1) => (.error ("failed to update visit: " ++ err), w1)
    | (.ok _, w1) => (.ok (), w1)

/-! ## services/task_service.go -/

/-- Method `TaskService.validateTaskUpdateRequest`. -/
def TaskService.validateTaskUpdateRequest (req : TaskUpdateRequest) : Except String Unit :=
  if req.Status = "" then .error "status is required"
  else if ¬ (req.Status = "completed" ∨ req.Status = "not_completed") then
    .error ("invalid status: " ++ req.Status)
  else if req.Status = "not_completed" ∧ req.Reason = "" then
    .error "reason is required when status is not_completed"
  else .ok ()

/-- Method `TaskService.UpdateTaskStatus`. -/
def TaskService.UpdateTaskStatus (now : Time) (id : Int) (req : TaskUpdateRequest)
    (w : World) : Except String Unit × World :=
  match TaskService.validateTaskUpdateRequest req with
  | .error err => (.error ("task update validation failed: " ++ err), w)
  | .ok _ =>
    match taskRepository.GetByID id w with
    | (.error err, w1) => (.error ("failed to get task: " ++ err), w1)
    | (.ok none, w1) => (.error "task not found", w1)
    | (.ok (some _), w1) =>
      match taskRepository.UpdateStatus now id req.Status req.Reason w1 with
      | (.error err, w2) => (.error ("failed to update task status: " ++ err), w2)
      | (.ok _, w2) => (.ok (), w2)

/-- Method `TaskService.DeleteTask`. -/
def TaskService.DeleteTask (id : Int) (w : World) : Except String Unit × World :=
  match taskRepository.GetByID id w with
  | (.error err, w1) => (.error ("failed to get task: " ++ err), w1)
  | (.ok none, w1) => (.error "task not found", w1)
  | (.ok (some _), w1) =>
    match taskRepository.Delete id w1 with
    | (.error err, w2) => (.error ("failed to delete task: " ++ err), w2)
    | (.ok _, w2) => (.ok (), w2)

/-- Method `TaskService.GetTasksByScheduleID`. -/
def TaskService.GetTasksByScheduleID (scheduleID : Int) (w : World) :
    Except String (List Task) × World :=
  match taskRepository.GetByScheduleID scheduleID w with
  | (.error err, w1) => (.error ("failed to get tasks: " ++ err), w1)
  | (.ok tasks, w1) => (.ok tasks, w1)

/-- Method `TaskService.GetTaskByID`. -/
def TaskService.GetTaskByID (id : Int) (w : World) : Except String (Option Task) × World :=
  match taskRepository.GetByID id w with
  | (.error err, w1) => (.error ("failed to get task: " ++ err), w1)
  | (.ok none, w1) => (.ok none, w1)
  | (.ok (some task), w1) => (.ok (some task), w1)

/-- Method `TaskService.validateTask`. -/
def TaskService.validateTask (task : Task) : Except String Unit :=
  if task.ScheduleID ≤ 0 then .error "schedule_id is required"
  else if task.Title = "" then .error "title is required"
  else if task.Status = "" then .error "status is required"
  else if ¬ (task.Status = "pending" ∨ task.Status = "completed" ∨
      task.Status = "not_completed") then .error ("invalid status: " ++ task.Status)
  else if task.Status = "not_completed" ∧ task.Reason = "" then
    .error "reason is required when status is not_completed"
  else .ok ()

/-- Method `TaskService.CreateTask`. -/
def TaskService.CreateTask (now : Time) (task : Task) (w : World) :
    Except String Unit × World :=
  match TaskService.validateTask task with
  | .error err => (.error ("task validation failed: " ++ err), w)
  | .ok _ =>
    match taskRepository.Create now task w with
    | (.error err, w1) => (.error ("failed to create task: " ++ err), w1)
    | (.ok _, w1) => (.ok (), w1)

/-- Method `TaskService.UpdateTask`. -/
def TaskService.UpdateTask (now : Time) (task : Task) (w : World) :
    Except String Unit × World :=
  match TaskService.validateTask task with
  | .error err => (.error ("task validation failed: " ++ err), w)
  | .ok _ =>
    match taskRepository.Update now task w with
    | (.error err, w1) => (.error ("failed to update task: " ++ err), w1)
    | (.ok _, w1) => (.ok (), w1)

/-! ## services/client_service.go -/

/-- Method `ClientService.DeleteClient`. -/
def ClientService.DeleteClient (id : Int) (w : World) : Except String Unit × World :=
  if id ≤ 0 then (.error ("invalid client ID: " ++ toString id), w)
  else
    match clientRepository.GetByID id w with
    | (.error err, w1) => (.error ("failed to get client: " ++ err), w1)
    | (.ok none, w1) => (.error "client not found", w1)
    | (.ok (some _), w1) =>
      match clientRepository.Delete id w1 with
      | (.error err, w2) => (.error ("failed to delete client: " ++ err), w2)
      | (.ok _, w2) => (.ok (), w2)

/-! ## handlers/handler.go, handlers/schedule_handlers.go, handlers/client_handlers.go -/

/-- Method `Handler.errorResponse`. -/
def Handler.errorResponse (statusCode : Nat) (message : String) (err : String) : Response :=
  { Code := statusCode, Error := some message, Details := some err }

/-- Method `Handler.startVisit`; `id` is the outcome of `h.parseIntParam(c, "id")` and `body`
that of `c.ShouldBindJSON(&req)`. -/
def Handler.startVisit (now : Time) (id : Except String Int)
    (body : Except String VisitStartRequest) (w : World) : Response × World :=
  match id with
  | .error err => (Handler.errorResponse 400 "Invalid schedule ID" err, w)
  | .ok id =>
    match body with
    | .error err => (Handler.errorResponse 400 "Invalid request body" err, w)
    | .ok req =>
      match ScheduleService.StartVisit now id req w with
      | (.error err, w1) =>
        if err = "schedule not found" then
          ({ Code := 404, Error := some "Schedule not found" }, w1)
        else (Handler.errorResponse 500 "Failed to start visit" err, w1)
      | (.ok _, w1) =>
        ({ Code := 200, Success := some true, Message := some "Visit started successfully" },
          w1)

/-- Method `Handler.endVisit`. -/
def Handler.endVisit (now : Time) (id : Except String Int)
    (body : Except String VisitEndRequest) (w : World) : Response × World :=
  match id with
  | .error err => (Handler.errorResponse 400 "Invalid schedule ID" err, w)
  | .ok id =>
    match body with
    | .error err => (Handler.errorResponse 400 "Invalid request body" err, w)
    | .ok req =>
      match ScheduleService.EndVisit now id req w with
      | (.error err, w1) =>
        if err = "schedule not found" then
          ({ Code := 404, Error := some "Schedule not found" }, w1)
        else (Handler.errorResponse 500 "Failed to end visit" err, w1)
      | (.ok _, w1) =>
        ({ Code := 200, Success := some true, Message := some "Visit ended successfully" }, w1)

/-- Method `Handler.cancelVisit`. -/
def Handler.cancelVisit (now : Time) (id : Except String Int) (w : World) : Response × World :=
  match id with
  | .error err => (Handler.errorResponse 400 "Invalid schedule ID" err, w)
  | .ok id =>
    match ScheduleService.CancelVisit now id w with
    | (.error err, w1) =>
      if err = "schedule not found" then
        ({ Code := 404, Error := some "Schedule not found" }, w1)
      else if err = "visit not in progress" then
        ({ Code := 400, Error := some "Visit is not in progress" }, w1)
      else (Handler.errorResponse 500 "Failed to cancel visit" err, w1)
    | (.ok _, w1) =>
      ({ Code := 200, Success := some true, Message := some "Visit cancelled successfully" },
        w1)

/-- Method `Handler.deleteClient`. -/
def Handler.deleteClient (id : Except String Int) (w : World) : Response × World :=
  match id with
  | .error err => (Handler.errorResponse 400 "Invalid client ID" err, w)
  | .ok id =>
    match ClientService.DeleteClient id w with
    | (.error err, w1) =>
      if err = "client not found" then
        (Handler.errorResponse 404 "Client not found" err, w1)
      else if err = "cannot delete client: client has associated schedules" then
        (Handler.errorResponse 409 "Cannot delete client with associated schedules" err, w1)
      else (Handler.errorResponse 500 "Failed to delete client" err, w1)
    | (.ok _, w1) =>
      ({ Code := 200, Success := some true, Message := some "Client deleted successfully" },
        w1)

/-! ## Reading the tables, and sequences of lifecycle calls -/

deriving instance DecidableEq for Except

/-- The visit row `GetByScheduleID` finds for a schedule. -/
def World.visitOf (w : World) (scheduleID : Int) : Option Visit :=
  w.visits.find? (fun v => v.ScheduleID == scheduleID)

/-- The schedule row `GetByID` finds for an id. -/
def World.scheduleOf (w : World) (id : Int) : Option ScheduleRow :=
  w.schedules.find? (fun r => r.ID == id)

/-- The calls a trace gained between an earlier world and a later one. -/
def World.callsSince (later earlier : World) : List Call :=
  later.trace.drop earlier.trace.length

/-- A lifecycle call on a schedule, with the instant at which it is made. -/
inductive Op where
  | Start (now : Time) (req : VisitStartRequest)
  | End (now : Time) (req : VisitEndRequest)
  | Cancel (now : Time)
  deriving DecidableEq, Repr

/-- Whether the call is a Start. -/
def Op.isStart : Op → Bool
  | .Start _ _ => true
  | _ => false

/-- Whether the call is an End. -/
def Op.isEnd : Op → Bool
  | .End _ _ => true
  | _ => false

/-- Whether the call is a Cancel. -/
def Op.isCancel : Op → Bool
  | .Cancel _ => true
  | _ => false

/-- One lifecycle call of `ScheduleService` on the schedule. -/
def ScheduleService.call (scheduleID : Int) (op : Op) (w : World) : Except String Unit × World :=
  match op with
  | .Start now req => ScheduleService.StartVisit now scheduleID req w
  | .End now req => ScheduleService.EndVisit now scheduleID req w
  | .Cancel now => ScheduleService.CancelVisit now scheduleID w

/-- A sequence of lifecycle calls on one schedule: each call with whether it succeeded, and
the world the sequence ends in. -/
def ScheduleService.run (scheduleID : Int) : List Op → World → List (Op × Bool) × World
  | [], w => ([], w)
  | op :: ops, w =>
    match ScheduleService.call scheduleID op w with
    | (r, w1) =>
      match ScheduleService.run scheduleID ops w1 with
      | (outs, w2) => ((op, r.toBool) :: outs, w2)

/-- The display status as the specification derives it (section 4.3): `completed` when the
visit is completed; else `in_progress` when the visit is in progress; else `missed` when the
current time is past the end time and the visit is absent or has no start time; else
`scheduled`. -/
def derivedStatus (now endTime : Time) (visit : Option Visit) : String :=
  match visit with
  | some v =>
    if v.Status = "completed" then "completed"
    else if v.Status = "in_progress" then "in_progress"
    else if endTime < now ∧ v.StartTime = none then "missed"
    else "scheduled"
  | none => if endTime < now then "missed" else "scheduled"

/-- A schedule without its related data: the columns of its row. -/
def Schedule.columns (s : Schedule) : Schedule :=
  { s with Visit := none, Tasks := [] }

/-- Whether the visit of the schedule has a recorded start time. -/
def World.started (w : World) (scheduleID : Int) : Bool :=
  ((w.visitOf scheduleID).bind (fun v => v.StartTime)).isSome

/-- The persisted status of the schedule, when the schedule exists. -/
def World.statusOf (w : World) (scheduleID : Int) : Option String :=
  (w.scheduleOf scheduleID).map (fun r => r.Status)

/-- A record of calls contains a successful Start with no successful Cancel after it. -/
def StartedIn (outs : List (Op × Bool)) : Prop :=
  ∃ before s after, outs = before ++ (s, true) :: after ∧ s.isStart = true ∧
    ∀ x ∈ after, ¬ (x.1.isCancel = true ∧ x.2 = true)

/-- In a record of calls, every End that succeeded is preceded by a successful Start with
no successful Cancel between the two. -/
def EndsFollowStarts (outs : List (Op × Bool)) : Prop :=
  ∀ before e after, outs = before ++ (e, true) :: after → e.isEnd = true → StartedIn before

/-- What End records on a visit: `v` has end time `now`, the given end coordinates, status
`completed`, the given notes when these are not empty and the notes of `old` otherwise, and
the start time and start coordinates of `old`. -/
def Visit.EndedFrom (old : Visit) (now : Time) (latitude longitude : Rat) (notes : String)
    (v : Visit) : Prop :=
  v.EndTime = some now ∧ v.EndLatitude = some latitude ∧ v.EndLongitude = some longitude ∧
  v.Status = "completed" ∧ (notes ≠ "" → v.Notes = notes) ∧ (notes = "" → v.Notes = old.Notes) ∧
  v.StartTime = old.StartTime ∧ v.StartLatitude = old.StartLatitude ∧
  v.StartLongitude = old.StartLongitude

/-- A schedule like schedule 1 of `insertSampleData` (`database/database.go`), of caregiver 1
for client 101, here running from minute 600 to minute 720. -/
def sampleSchedule : ScheduleRow :=
  { ID := 1, ClientID := 101, ServiceName := "Personal Care Service", CaregiverID := 1,
    StartTime := 600 * Minute, EndTime := 720 * Minute, Status := "scheduled",
    Notes := "Regular morning visit" }

/-- The visit row `(1, 1, 'not_started')` that `insertSampleData` gives schedule 1. -/
def sampleVisit : Visit :=
  { ID := 1, ScheduleID := 1, Status := "not_started" }

/-- A database holding the sample schedule and its visit row. -/
def sampleWorld : World :=
  { schedules := [sampleSchedule], visits := [sampleVisit] }

/-- The sample database in front of a driver that executes three statements and reports
`database is locked` on the fourth. -/
def lockedWorld : World :=
  { sampleWorld with faults := [none, none, none, some "database is locked"] }

/-- The sample database with the schedule persisted as `in_progress`, as an `Update` wrote
it, while its visit row is still `not_started`. -/
def stuckWorld : World :=
  { schedules := [{ sampleSchedule with Status := "in_progress" }], visits := [sampleVisit],
    rewritten := [1] }

/-- The sample database in front of a driver that executes seven statements and reports
`database is locked` on the eighth. -/
def lateLockedWorld : World :=
  { sampleWorld with
      faults := [none, none, none, none, none, none, none, some "database is locked"] }

/-- The sample database after the visit was started at minute 590. -/
def startedWorld : World :=
  { schedules := [{ sampleSchedule with Status := "in_progress" }]
    visits := [{ sampleVisit with StartTime := some (590 * Minute), StartLatitude := some 40,
                                  StartLongitude := some (-74), Status := "in_progress",
                                  Notes := "arrived" }]
    rewritten := [1] }

/-! ## Reading the task table -/

/-- The stored task with the given id, the row `taskRepository.GetByID` selects. -/
def World.taskOf (w : World) (id : Int) : Option Task :=
  w.tasks.find? (fun t => t.ID == id)

/-- A task like task 1 of `insertSampleData`, completed at minute 610. -/
def sampleTask : Task :=
  { ID := 1, ScheduleID := 1, Title := "Give medication",
    Description := "Administer morning medication", Status := "completed",
    CompletedAt := some (610 * Minute), UpdatedAt := 610 * Minute }

/-- A database holding the sample task. -/
def taskWorld : World :=
  { tasks := [sampleTask] }

/-- Outcome the driver gives the `k`-th SQL statement still to come (counted from 0): `none`
when the statement executes, which is also what happens once the script is used up. -/
def World.outcome (w : World) (k : Nat) : Option String :=
  (w.faults.get? k).join

/-- The sample task in front of a driver that reports `database is locked` three times and
would execute the fourth statement. -/
def busyTaskWorld : World :=
  { taskWorld with
      faults := [some "database is locked", some "database is locked",
                 some "database is locked", none] }

/-! ## The conditions on a visit named by the specification -/

/-- The Visit invariant of the specification: status `in_progress` implies start time and
start location set; status `completed` implies start and end time and both locations set,
with the end time not before the start time. -/
def Visit.Invariant (v : Visit) : Prop :=
  (v.Status = "in_progress" →
    v.StartTime ≠ none ∧ v.StartLatitude ≠ none ∧ v.StartLongitude ≠ none) ∧
  (v.Status = "completed" →
    v.StartTime ≠ none ∧ v.EndTime ≠ none ∧
    v.StartLatitude ≠ none ∧ v.StartLongitude ≠ none ∧
    v.EndLatitude ≠ none ∧ v.EndLongitude ≠ none ∧
    ∀ s ∈ v.StartTime, ∀ e ∈ v.EndTime, s ≤ e)

/-- Every coordinate that is present lies in its closed range: a latitude in [-90, 90], a
longitude in [-180, 180]. -/
def Visit.InRange (v : Visit) : Prop :=
  (∀ x ∈ v.StartLatitude, -90 ≤ x ∧ x ≤ 90) ∧
  (∀ x ∈ v.StartLongitude, -180 ≤ x ∧ x ≤ 180) ∧
  (∀ x ∈ v.EndLatitude, -90 ≤ x ∧ x ≤ 90) ∧
  (∀ x ∈ v.EndLongitude, -180 ≤ x ∧ x ≤ 180)

/-- The conditions of the specification on a visit handed to `CreateVisit` or `UpdateVisit`,
the coordinate ranges apart: a positive schedule id, one of the three statuses, and the
Visit invariant. -/
def Visit.Structured (v : Visit) : Prop :=
  0 < v.ScheduleID ∧
  (v.Status = "not_started" ∨ v.Status = "in_progress" ∨ v.Status = "completed") ∧
  v.Invariant

/-- A visit whose start location is set whenever its start time is. -/
def Visit.StartLocated (v : Visit) : Prop :=
  v.StartTime ≠ none → v.StartLatitude ≠ none ∧ v.StartLongitude ≠ none

/-- The messages of the four range checks of `validateVisit`. -/
def rangeMessages : List String :=
  ["start_latitude must be between -90 and 90",
   "start_longitude must be between -180 and 180",
   "end_latitude must be between -90 and 90",
   "end_longitude must be between -180 and 180"]

/-- A completed visit of schedule 1 with every coordinate on the boundary of its range. -/
def boundaryVisit : Visit :=
  { ID := 1, ScheduleID := 1, StartTime := some (590 * Minute), EndTime := some (660 * Minute),
    StartLatitude := some 90, StartLongitude := some (-180),
    EndLatitude := some (-90), EndLongitude := some 180, Status := "completed" }

/-- The sample database with the visit of schedule 1 still `not_started` but holding a start
time and no start location, a visit that `validateVisit` accepts. -/
def unlocatedWorld : World :=
  { schedules := [sampleSchedule],
    visits := [{ sampleVisit with StartTime := some (590 * Minute) }] }

/-- Between the worlds `w` and `w1` every statement sent to the driver executed: `w1` has
used up the first `k` outcomes of the script of `w`, and none of them is an error. -/
def World.AllExecuted (w w1 : World) : Prop :=
  ∃ k, w1.faults = w.faults.drop k ∧ ∀ j < k, w.outcome j = none

/-- A call from world `w` with outcome `r` that slept at no point and that, when it
succeeded, had every statement it sent executed. -/
def World.Direct {α : Type} (w : World) (r : Except String α × World) : Prop :=
  r.2.sleeps = w.sleeps ∧ ((∃ x, r.1 = .ok x) → w.AllExecuted r.2)

/-- The sample database in front of a driver that reports `database is locked` on the next
statement and would execute the one after it. -/
def busyWorld : World :=
  { sampleWorld with faults := [some "database is locked", none] }

/-- The sample database in front of a driver that executes the next statement and reports
`disk I/O error` on the one after it. -/
def ioFaultWorld : World :=
  { sampleWorld with faults := [none, some "disk I/O error"] }

/-- The sample database after the visit was started at minute 590 and ended at minute 660. -/
def completedWorld : World :=
  { schedules := [{ sampleSchedule with Status := "completed" }]
    visits := [{ sampleVisit with StartTime := some (590 * Minute),
                                  EndTime := some (660 * Minute),
                                  StartLatitude := some 40, StartLongitude := some (-74),
                                  EndLatitude := some 40, EndLongitude := some (-74),
                                  Status := "completed", Notes := "done" }]
    rewritten := [1] }

/-- The sample database with schedule 1 and no visit row. -/
def bareWorld : World :=
  { schedules := [sampleSchedule] }

/-- The client row `clientRepository.GetByID` finds for an id. -/
def World.clientOf (w : World) (id : Int) : Option Client :=
  w.clients.find? (fun c => c.ID == id)

/-- Client 101 of `insertSampleData`. -/
def sampleClient : Client :=
  { ID := 101, Name := "John Smith", Email := "john.smith@email.com",
    Phone := "+44 1232 212 3233", Address := "123 Main St", City := "Springfield",
    State := "IL", ZipCode := "62701",
    Notes := "Regular client, prefers morning visits" }

/-- The sample database with client 101, whom schedule 1 is for. -/
def clientWorld : World :=
  { sampleWorld with clients := [sampleClient] }

/-- Sample database after the Start of minute 590 whose visit write was executed and whose
schedule update was refused: the visit row is `in_progress`, the schedule row as seeded. -/
def halfStartedWorld : World :=
  { schedules := [sampleSchedule],
    visits := [{ sampleVisit with StartTime := some (590 * Minute), StartLatitude := some 40,
                                  StartLongitude := some (-74), Status := "in_progress",
                                  UpdatedAt := 590 * Minute }] }

/-! ## The repositories, statement by statement -/

theorem nextFault_nil (w : World) (h : w.faults = []) : w.nextFault = (none, w) := by
  unfold World.nextFault
  simp [h]

theorem nextFault_outcome (w : World) :
    w.nextFault = (w.outcome 0, { w with faults := w.faults.drop 1 }) := by
  unfold World.nextFault World.outcome
  cases hf : w.faults with
  | nil => simp; cases w; simp_all
  | cons f fs => simp

theorem scheduleGetByID_spec (id : Int) (w : World) :
    (scheduleRepository.GetByID id w).2.schedules = w.schedules ∧
    (scheduleRepository.GetByID id w).2.visits = w.visits ∧
    (scheduleRepository.GetByID id w).2.tasks = w.tasks ∧
    (scheduleRepository.GetByID id w).2.trace = w.trace ++ [Call.scheduleGetByID id] ∧
    (∀ res, (scheduleRepository.GetByID id w).1 = .ok res →
      res = (w.scheduleOf id).map scanSchedule) ∧
    (w.faults = [] →
      scheduleRepository.GetByID id w =
        (.ok ((w.scheduleOf id).map scanSchedule), w.log (Call.scheduleGetByID id))) := by
  unfold scheduleRepository.GetByID World.nextFault World.log World.scheduleOf
  cases hf : w.faults with
  | nil => simp
  | cons f fs => cases f <;> simp

theorem scheduleUpdate_spec (now : Time) (schedule : Schedule) (w : World) :
    (scheduleRepository.Update now schedule w).2.visits = w.visits ∧
    (scheduleRepository.Update now schedule w).2.tasks = w.tasks ∧
    (scheduleRepository.Update now schedule w).2.trace =
      w.trace ++ [Call.scheduleUpdate schedule] ∧
    ((scheduleRepository.Update now schedule w).1 = .ok () →
      (scheduleRepository.Update now schedule w).2.schedules =
        w.schedules.map (scheduleRepository.updateRow now schedule)) ∧
    ((∃ e, (scheduleRepository.Update now schedule w).1 = .error e) →
      (scheduleRepository.Update now schedule w).2.schedules = w.schedules) ∧
    (w.faults = [] →
      scheduleRepository.Update now schedule w =
        (.ok (), { w with
          schedules := w.schedules.map (scheduleRepository.updateRow now schedule),
          trace := w.trace ++ [Call.scheduleUpdate schedule],
          rewritten := schedule.ID :: w.rewritten })) := by
  unfold scheduleRepository.Update World.nextFault World.log
  cases hf : w.faults with
  | nil => simp
  | cons f fs => cases f <;> simp

theorem visitGet_spec (scheduleID : Int) (w : World) :
    (visitRepository.GetByScheduleID scheduleID w).2.schedules = w.schedules ∧
    (visitRepository.GetByScheduleID scheduleID w).2.visits = w.visits ∧
    (visitRepository.GetByScheduleID scheduleID w).2.tasks = w.tasks ∧
    (visitRepository.GetByScheduleID scheduleID w).2.trace =
      w.trace ++ [Call.visitGetByScheduleID scheduleID] ∧
    (∀ res, (visitRepository.GetByScheduleID scheduleID w).1 = .ok res →
      res = w.visitOf scheduleID) ∧
    (w.faults = [] →
      visitRepository.GetByScheduleID scheduleID w =
        (.ok (w.visitOf scheduleID), w.log (Call.visitGetByScheduleID scheduleID))) := by
  unfold visitRepository.GetByScheduleID World.nextFault World.log World.visitOf
  cases hf : w.faults with
  | nil => simp
  | cons f fs => cases f <;> simp

theorem visitUpdate_spec (now : Time) (visit : Visit) (w : World) :
    (visitRepository.Update now visit w).2.schedules = w.schedules ∧
    (visitRepository.Update now visit w).2.tasks = w.tasks ∧
    (visitRepository.Update now visit w).2.trace = w.trace ++ [Call.visitUpdate visit] ∧
    ((visitRepository.Update now visit w).1 = .ok () →
      (visitRepository.Update now visit w).2.visits =
        w.visits.map (visitRepository.updateRow now visit)) ∧
    ((∃ e, (visitRepository.Update now visit w).1 = .error e) →
      (visitRepository.Update now visit w).2.visits = w.visits) ∧
    (w.faults = [] →
      visitRepository.Update now visit w =
        (.ok (), { w with
          visits := w.visits.map (visitRepository.updateRow now visit),
          trace := w.trace ++ [Call.visitUpdate visit] })) := by
  unfold visitRepository.Update World.nextFault World.log
  cases hf : w.faults with
  | nil => simp
  | cons f fs => cases f <;> simp

theorem visitCreate_spec (now : Time) (visit : Visit) (w : World) :
    visitRepository.Create now visit w =
      (.error "failed to create visit: 8 values for 9 columns", w.log (Call.visitCreate visit)) := by
  simp [visitRepository.Create, visitRepository.createColumns,
    visitRepository.createPlaceholders]
  decide

theorem taskGet_spec (scheduleID : Int) (w : World) :
    (taskRepository.GetByScheduleID scheduleID w).2.schedules = w.schedules ∧
    (taskRepository.GetByScheduleID scheduleID w).2.visits = w.visits ∧
    (taskRepository.GetByScheduleID scheduleID w).2.tasks = w.tasks ∧
    (taskRepository.GetByScheduleID scheduleID w).2.trace =
      w.trace ++ [Call.taskGetByScheduleID scheduleID] ∧
    (w.faults = [] → (taskRepository.GetByScheduleID scheduleID w).2.faults = []) := by
  unfold taskRepository.GetByScheduleID World.nextFault World.nextBreak World.log
  cases hf : w.faults with
  | nil => cases hb : w.breaks <;> simp
  | cons f fs => cases f <;> cases hb : w.breaks <;> simp

theorem visitStartVisit_spec (now : Time) (scheduleID : Int) (latitude longitude : Rat)
    (w : World) :
    (visitRepository.StartVisit now scheduleID latitude longitude w).2.schedules = w.schedules ∧
    (visitRepository.StartVisit now scheduleID latitude longitude w).2.tasks = w.tasks ∧
    ((visitRepository.StartVisit now scheduleID latitude longitude w).1 = .ok () →
      ∃ visit, w.visitOf scheduleID = some visit ∧
        (visitRepository.StartVisit now scheduleID latitude longitude w).2.visits =
          w.visits.map (visitRepository.updateRow now (visit.started now latitude longitude))) ∧
    ((∃ e, (visitRepository.StartVisit now scheduleID latitude longitude w).1 = .error e) →
      (visitRepository.StartVisit now scheduleID latitude longitude w).2.visits = w.visits) := by
  unfold visitRepository.StartVisit
  have hg := visitGet_spec scheduleID (w.log (Call.visitStartVisit scheduleID latitude longitude))
  rcases h : visitRepository.GetByScheduleID scheduleID
      (w.log (Call.visitStartVisit scheduleID latitude longitude)) with ⟨r, w1⟩
  rw [h] at hg
  obtain ⟨h1, h2, h3, h4, h5, -⟩ := hg
  simp only [World.log] at h1 h2 h3 h4 h5
  rcases r with e | (_ | visit)
  · simp [h1, h2, h3]
  · simp [visitCreate_spec, World.log, h1, h2, h3]
  · have hu := visitUpdate_spec now (visit.started now latitude longitude) w1
    obtain ⟨u1, u2, u3, u4, u5, -⟩ := hu
    have hv := h5 _ rfl
    simp only [World.visitOf] at hv
    simp only [u1, u2, h1, h3, true_and]
    constructor
    · intro hok
      exact ⟨visit, by simp [World.visitOf, ← hv], by rw [u4 hok, h2]⟩
    · intro he
      rw [u5 he, h2]

theorem visitOf_log (w : World) (c : Call) (scheduleID : Int) :
    (w.log c).visitOf scheduleID = w.visitOf scheduleID := rfl

theorem scheduleOf_log (w : World) (c : Call) (id : Int) :
    (w.log c).scheduleOf id = w.scheduleOf id := rfl

theorem faults_log (w : World) (c : Call) : (w.log c).faults = w.faults := rfl

theorem visitStartVisit_quiet (now : Time) (scheduleID : Int) (latitude longitude : Rat)
    (w : World) (hq : w.faults = []) :
    visitRepository.StartVisit now scheduleID latitude longitude w =
      match w.visitOf scheduleID with
      | none =>
        (.error "failed to create visit: 8 values for 9 columns",
          { w with trace := w.trace ++
              [Call.visitStartVisit scheduleID latitude longitude,
               Call.visitGetByScheduleID scheduleID,
               Call.visitCreate
                 { ScheduleID := scheduleID, StartTime := some now,
                   StartLatitude := some latitude, StartLongitude := some longitude,
                   Status := "in_progress" }] })
      | some visit =>
        (.ok (), { w with
          visits := w.visits.map
            (visitRepository.updateRow now (visit.started now latitude longitude)),
          trace := w.trace ++
            [Call.visitStartVisit scheduleID latitude longitude,
             Call.visitGetByScheduleID scheduleID,
             Call.visitUpdate (visit.started now latitude longitude)] }) := by
  unfold visitRepository.StartVisit
  rw [(visitGet_spec scheduleID _).2.2.2.2.2 (by rw [faults_log]; exact hq), visitOf_log]
  cases hv : w.visitOf scheduleID with
  | none => simp [visitCreate_spec, World.log]
  | some visit =>
    simp only []
    rw [(visitUpdate_spec _ _ _).2.2.2.2.2 (by simpa [World.log] using hq)]
    simp [World.log]

theorem visitEndVisit_spec (now : Time) (scheduleID : Int) (latitude longitude : Rat)
    (notes : String) (w : World) :
    (visitRepository.EndVisit now scheduleID latitude longitude notes w).2.schedules =
      w.schedules ∧
    (visitRepository.EndVisit now scheduleID latitude longitude notes w).2.tasks = w.tasks ∧
    ((visitRepository.EndVisit now scheduleID latitude longitude notes w).1 = .ok () →
      ∃ visit, w.visitOf scheduleID = some visit ∧ visit.StartTime ≠ none ∧
        (visitRepository.EndVisit now scheduleID latitude longitude notes w).2.visits =
          w.visits.map
            (visitRepository.updateRow now (visit.ended now latitude longitude notes))) ∧
    ((∃ e, (visitRepository.EndVisit now scheduleID latitude longitude notes w).1 = .error e) →
      (visitRepository.EndVisit now scheduleID latitude longitude notes w).2.visits =
        w.visits) := by
  unfold visitRepository.EndVisit
  have hg := visitGet_spec scheduleID
    (w.log (Call.visitEndVisit scheduleID latitude longitude notes))
  rcases h : visitRepository.GetByScheduleID scheduleID
      (w.log (Call.visitEndVisit scheduleID latitude longitude notes)) with ⟨r, w1⟩
  rw [h] at hg
  obtain ⟨h1, h2, h3, h4, h5, -⟩ := hg
  simp only [World.log] at h1 h2 h3 h4 h5
  rcases r with e | (_ | visit)
  · simp [h1, h2, h3]
  · simp [h1, h2, h3]
  · have hv := h5 _ rfl
    by_cases hs : visit.StartTime = none
    · simp [hs, h1, h2, h3]
    · obtain ⟨u1, u2, u3, u4, u5, -⟩ :=
        visitUpdate_spec now (visit.ended now latitude longitude notes) w1
      simp only [hs, if_false, u1, u2, h1, h3, true_and]
      constructor
      · intro hok
        exact ⟨visit, hv.symm, hs, by rw [u4 hok, h2]⟩
      · intro he
        rw [u5 he, h2]

theorem visitEndVisit_quiet (now : Time) (scheduleID : Int) (latitude longitude : Rat)
    (notes : String) (w : World) (hq : w.faults = []) :
    visitRepository.EndVisit now scheduleID latitude longitude notes w =
      match w.visitOf scheduleID with
      | none =>
        (.error ("visit not found for schedule " ++ toString scheduleID),
          { w with trace := w.trace ++
              [Call.visitEndVisit scheduleID latitude longitude notes,
               Call.visitGetByScheduleID scheduleID] })
      | some visit =>
        if visit.StartTime = none then
          (.error "cannot end visit that hasn't been started",
            { w with trace := w.trace ++
                [Call.visitEndVisit scheduleID latitude longitude notes,
                 Call.visitGetByScheduleID scheduleID] })
        else
          (.ok (), { w with
            visits := w.visits.map
              (visitRepository.updateRow now (visit.ended now latitude longitude notes)),
            trace := w.trace ++
              [Call.visitEndVisit scheduleID latitude longitude notes,
               Call.visitGetByScheduleID scheduleID,
               Call.visitUpdate (visit.ended now latitude longitude notes)] }) := by
  unfold visitRepository.EndVisit
  rw [(visitGet_spec scheduleID _).2.2.2.2.2 (by rw [faults_log]; exact hq), visitOf_log]
  cases hv : w.visitOf scheduleID with
  | none => simp [World.log]
  | some visit =>
    by_cases hs : visit.StartTime = none
    · simp [hs, World.log]
    · simp only [hs, if_false]
      rw [(visitUpdate_spec _ _ _).2.2.2.2.2 (by simpa [World.log] using hq)]
      simp [World.log]

theorem visitCancelVisit_spec (now : Time) (scheduleID : Int) (w : World) :
    (visitRepository.CancelVisit now scheduleID w).2.schedules = w.schedules ∧
    (visitRepository.CancelVisit now scheduleID w).2.tasks = w.tasks ∧
    ((visitRepository.CancelVisit now scheduleID w).1 = .ok () →
      ∃ visit, w.visitOf scheduleID = some visit ∧ visit.Status = "in_progress" ∧
        (visitRepository.CancelVisit now scheduleID w).2.visits =
          w.visits.map (visitRepository.updateRow now visit.cancelled)) ∧
    ((∃ e, (visitRepository.CancelVisit now scheduleID w).1 = .error e) →
      (visitRepository.CancelVisit now scheduleID w).2.visits = w.visits) := by
  unfold visitRepository.CancelVisit
  have hg := visitGet_spec scheduleID (w.log (Call.visitCancelVisit scheduleID))
  rcases h : visitRepository.GetByScheduleID scheduleID
      (w.log (Call.visitCancelVisit scheduleID)) with ⟨r, w1⟩
  rw [h] at hg
  obtain ⟨h1, h2, h3, h4, h5, -⟩ := hg
  simp only [World.log] at h1 h2 h3 h4 h5
  rcases r with e | (_ | visit)
  · simp [h1, h2, h3]
  · simp [h1, h2, h3]
  · have hv := h5 _ rfl
    by_cases hs : visit.Status = "in_progress"
    · obtain ⟨u1, u2, u3, u4, u5, -⟩ := visitUpdate_spec now visit.cancelled w1
      simp only [hs, ne_eq, not_true_eq_false, if_false, u1, u2, h1, h3, true_and]
      constructor
      · intro hok
        exact ⟨visit, hv.symm, hs, by rw [u4 hok, h2]⟩
      · intro he
        rw [u5 he, h2]
    · simp [hs, h1, h2, h3]

theorem visitCancelVisit_quiet (now : Time) (scheduleID : Int) (w : World)
    (hq : w.faults = []) :
    visitRepository.CancelVisit now scheduleID w =
      match w.visitOf scheduleID with
      | none =>
        (.error ("visit not found for schedule " ++ toString scheduleID),
          { w with trace := w.trace ++
              [Call.visitCancelVisit scheduleID, Call.visitGetByScheduleID scheduleID] })
      | some visit =>
        if visit.Status ≠ "in_progress" then
          (.error "visit is not in progress",
            { w with trace := w.trace ++
                [Call.visitCancelVisit scheduleID, Call.visitGetByScheduleID scheduleID] })
        else
          (.ok (), { w with
            visits := w.visits.map (visitRepository.updateRow now visit.cancelled),
            trace := w.trace ++
              [Call.visitCancelVisit scheduleID, Call.visitGetByScheduleID scheduleID,
               Call.visitUpdate visit.cancelled] }) := by
  unfold visitRepository.CancelVisit
  rw [(visitGet_spec scheduleID _).2.2.2.2.2 (by rw [faults_log]; exact hq), visitOf_log]
  cases hv : w.visitOf scheduleID with
  | none => simp [World.log]
  | some visit =>
    by_cases hs : visit.Status = "in_progress"
    · simp only [hs, ne_eq, not_true_eq_false, if_false]
      rw [(visitUpdate_spec _ _ _).2.2.2.2.2 (by simpa [World.log] using hq)]
      simp [World.log]
    · simp [hs, World.log]

theorem visitServiceEndVisit_spec (now : Time) (scheduleID : Int) (latitude longitude : Rat)
    (notes : String) (w : World) :
    (VisitService.EndVisit now scheduleID latitude longitude notes w).2.schedules =
      w.schedules ∧
    (VisitService.EndVisit now scheduleID latitude longitude notes w).2.tasks = w.tasks ∧
    ((VisitService.EndVisit now scheduleID latitude longitude notes w).1 = .ok () →
      ∃ visit, w.visitOf scheduleID = some visit ∧ visit.StartTime ≠ none ∧
        (VisitService.EndVisit now scheduleID latitude longitude notes w).2.visits =
          w.visits.map
            (visitRepository.updateRow now (visit.ended now latitude longitude notes))) ∧
    ((∃ e, (VisitService.EndVisit now scheduleID latitude longitude notes w).1 = .error e) →
      (VisitService.EndVisit now scheduleID latitude longitude notes w).2.visits =
        w.visits) := by
  unfold VisitService.EndVisit
  have hg := visitGet_spec scheduleID w
  rcases h : visitRepository.GetByScheduleID scheduleID w with ⟨r, w1⟩
  rw [h] at hg
  obtain ⟨h1, h2, h3, h4, h5, -⟩ := hg
  simp only at h1 h2 h3 h4 h5
  rcases r with e | (_ | visit)
  · simp [h1, h2, h3]
  · simp [h1, h2, h3]
  · have hv := h5 _ rfl
    by_cases hs : visit.StartTime = none
    · simp [hs, h1, h2, h3]
    · obtain ⟨u1, u2, u3, u4, u5, -⟩ :=
        visitUpdate_spec now (visit.ended now latitude longitude notes) w1
      simp only [hs, if_false]
      rcases hu : visitRepository.Update now (visit.ended now latitude longitude notes) w1
        with ⟨ru, w2⟩
      rw [hu] at u1 u2 u4 u5
      simp only at u1 u2 u4 u5
      rcases ru with e | u
      · simp [u1, u2, h1, h3, u5, h2]
      · simp only [u1, u2, h1, h3, true_and]
        constructor
        · intro _
          exact ⟨visit, hv.symm, hs, by rw [u4 rfl, h2]⟩
        · rintro ⟨e, he⟩
          cases he

theorem visitServiceEndVisit_quiet (now : Time) (scheduleID : Int) (latitude longitude : Rat)
    (notes : String) (w : World) (hq : w.faults = []) :
    VisitService.EndVisit now scheduleID latitude longitude notes w =
      match w.visitOf scheduleID with
      | none =>
        (.error ("visit not found for schedule " ++ toString scheduleID),
          { w with trace := w.trace ++ [Call.visitGetByScheduleID scheduleID] })
      | some visit =>
        if visit.StartTime = none then
          (.error "cannot end visit that hasn't been started",
            { w with trace := w.trace ++ [Call.visitGetByScheduleID scheduleID] })
        else
          (.ok (), { w with
            visits := w.visits.map
              (visitRepository.updateRow now (visit.ended now latitude longitude notes)),
            trace := w.trace ++
              [Call.visitGetByScheduleID scheduleID,
               Call.visitUpdate (visit.ended now latitude longitude notes)] }) := by
  unfold VisitService.EndVisit
  rw [(visitGet_spec scheduleID _).2.2.2.2.2 hq]
  cases hv : w.visitOf scheduleID with
  | none => simp [World.log]
  | some visit =>
    by_cases hs : visit.StartTime = none
    · simp [hs, World.log]
    · simp only [hs, if_false]
      rw [(visitUpdate_spec _ _ _).2.2.2.2.2 (by simpa [World.log] using hq)]
      simp [World.log]

/-! ## The lifecycle operations of `ScheduleService` -/

theorem result_cases (r : Except String Unit) : r = .ok () ∨ ∃ e, r = .error e := by
  cases r with
  | error e => exact Or.inr ⟨e, rfl⟩
  | ok u => exact Or.inl rfl

theorem startVisit_quiet (now : Time) (scheduleID : Int) (req : VisitStartRequest) (w : World)
    (hq : w.faults = []) :
    ScheduleService.StartVisit now scheduleID req w =
      match w.scheduleOf scheduleID with
      | none => (.error "schedule not found", w.log (Call.scheduleGetByID scheduleID))
      | some row =>
        if now < row.StartTime + (-30) * Minute then
          (.error "cannot start visit more than 30 minutes before scheduled time",
            w.log (Call.scheduleGetByID scheduleID))
        else
          match w.visitOf scheduleID with
          | none =>
            (.error "failed to start visit: failed to create visit: 8 values for 9 columns",
              { w with trace := w.trace ++
                  [Call.scheduleGetByID scheduleID,
                   Call.visitStartVisit scheduleID req.Latitude req.Longitude,
                   Call.visitGetByScheduleID scheduleID,
                   Call.visitCreate
                     { ScheduleID := scheduleID, StartTime := some now,
                       StartLatitude := some req.Latitude,
                       StartLongitude := some req.Longitude, Status := "in_progress" }] })
          | some visit =>
            (.ok (), { w with
              schedules := w.schedules.map
                (scheduleRepository.updateRow now
                  { scanSchedule row with Status := "in_progress" }),
              visits := w.visits.map
                (visitRepository.updateRow now
                  (visit.started now req.Latitude req.Longitude)),
              trace := w.trace ++
                [Call.scheduleGetByID scheduleID,
                 Call.visitStartVisit scheduleID req.Latitude req.Longitude,
                 Call.visitGetByScheduleID scheduleID,
                 Call.visitUpdate (visit.started now req.Latitude req.Longitude),
                 Call.scheduleUpdate { scanSchedule row with Status := "in_progress" }],
              rewritten := row.ID :: w.rewritten }) := by
  unfold ScheduleService.StartVisit
  rw [(scheduleGetByID_spec scheduleID w).2.2.2.2.2 hq]
  cases hs : w.scheduleOf scheduleID with
  | none => simp
  | some row =>
    by_cases ht : now < row.StartTime + (-30) * Minute
    · have ht2 : now < (scanSchedule row).StartTime + (-30) * Minute := ht
      simp only [Option.map_some', if_pos ht, if_pos ht2]
    · have ht2 : ¬ now < (scanSchedule row).StartTime + (-30) * Minute := ht
      simp only [Option.map_some', ht, ht2, if_false]
      rw [visitStartVisit_quiet _ _ _ _ _ (by rw [faults_log]; exact hq), visitOf_log]
      cases hv : w.visitOf scheduleID with
      | none => simp [World.log]
      | some visit =>
        simp only []
        rw [(scheduleUpdate_spec _ _ _).2.2.2.2.2 (by simpa [World.log] using hq)]
        simp [World.log, scanSchedule]

theorem endVisit_quiet (now : Time) (scheduleID : Int) (req : VisitEndRequest) (w : World)
    (hq : w.faults = []) :
    ScheduleService.EndVisit now scheduleID req w =
      match w.scheduleOf scheduleID with
      | none => (.error "schedule not found", w.log (Call.scheduleGetByID scheduleID))
      | some row =>
        match w.visitOf scheduleID with
        | none =>
          (.error ("failed to end visit: " ++
              ("visit not found for schedule " ++ toString scheduleID)),
            { w with trace := w.trace ++
                [Call.scheduleGetByID scheduleID,
                 Call.visitEndVisit scheduleID req.Latitude req.Longitude req.Notes,
                 Call.visitGetByScheduleID scheduleID] })
        | some visit =>
          if visit.StartTime = none then
            (.error "failed to end visit: cannot end visit that hasn't been started",
              { w with trace := w.trace ++
                  [Call.scheduleGetByID scheduleID,
                   Call.visitEndVisit scheduleID req.Latitude req.Longitude req.Notes,
                   Call.visitGetByScheduleID scheduleID] })
          else
            (.ok (), { w with
              schedules := w.schedules.map
                (scheduleRepository.updateRow now
                  { scanSchedule row with Status := "completed" }),
              visits := w.visits.map
                (visitRepository.updateRow now
                  (visit.ended now req.Latitude req.Longitude req.Notes)),
              trace := w.trace ++
                [Call.scheduleGetByID scheduleID,
                 Call.visitEndVisit scheduleID req.Latitude req.Longitude req.Notes,
                 Call.visitGetByScheduleID scheduleID,
                 Call.visitUpdate (visit.ended now req.Latitude req.Longitude req.Notes),
                 Call.scheduleUpdate { scanSchedule row with Status := "completed" }],
              rewritten := row.ID :: w.rewritten }) := by
  unfold ScheduleService.EndVisit
  rw [(scheduleGetByID_spec scheduleID w).2.2.2.2.2 hq]
  cases hs : w.scheduleOf scheduleID with
  | none => simp
  | some row =>
    simp only [Option.map_some']
    rw [visitEndVisit_quiet _ _ _ _ _ _ (by rw [faults_log]; exact hq), visitOf_log]
    cases hv : w.visitOf scheduleID with
    | none => simp [World.log]
    | some visit =>
      by_cases hst : visit.StartTime = none
      · simp [hst, World.log]
      · simp only [hst, if_false]
        rw [(scheduleUpdate_spec _ _ _).2.2.2.2.2 (by simpa [World.log] using hq)]
        simp [World.log, scanSchedule]

theorem cancelVisit_quiet (now : Time) (scheduleID : Int) (w : World) (hq : w.faults = []) :
    ScheduleService.CancelVisit now scheduleID w =
      match w.scheduleOf scheduleID with
      | none => (.error "schedule not found", w.log (Call.scheduleGetByID scheduleID))
      | some row =>
        if row.Status ≠ "scheduled" ∧ row.Status ≠ "in_progress" then
          (.error ("visit cannot be cancelled in status: " ++ row.Status),
            w.log (Call.scheduleGetByID scheduleID))
        else if row.Status = "in_progress" then
          match w.visitOf scheduleID with
          | none =>
            (.error ("failed to cancel visit: " ++
                ("visit not found for schedule " ++ toString scheduleID)),
              { w with trace := w.trace ++
                  [Call.scheduleGetByID scheduleID, Call.visitCancelVisit scheduleID,
                   Call.visitGetByScheduleID scheduleID] })
          | some visit =>
            if visit.Status ≠ "in_progress" then
              (.error "failed to cancel visit: visit is not in progress",
                { w with trace := w.trace ++
                    [Call.scheduleGetByID scheduleID, Call.visitCancelVisit scheduleID,
                     Call.visitGetByScheduleID scheduleID] })
            else
              (.ok (), { w with
                schedules := w.schedules.map
                  (scheduleRepository.updateRow now
                    { scanSchedule row with Status := "scheduled" }),
                visits := w.visits.map (visitRepository.updateRow now visit.cancelled),
                trace := w.trace ++
                  [Call.scheduleGetByID scheduleID, Call.visitCancelVisit scheduleID,
                   Call.visitGetByScheduleID scheduleID,
                   Call.visitUpdate visit.cancelled,
                   Call.scheduleUpdate { scanSchedule row with Status := "scheduled" }],
                rewritten := row.ID :: w.rewritten })
        else
          (.ok (), { w with
            schedules := w.schedules.map
              (scheduleRepository.updateRow now
                { scanSchedule row with Status := "scheduled" }),
            trace := w.trace ++
              [Call.scheduleGetByID scheduleID,
               Call.scheduleUpdate { scanSchedule row with Status := "scheduled" }],
            rewritten := row.ID :: w.rewritten }) := by
  unfold ScheduleService.CancelVisit
  rw [(scheduleGetByID_spec scheduleID w).2.2.2.2.2 hq]
  cases hs : w.scheduleOf scheduleID with
  | none => simp
  | some row =>
    have hst : (scanSchedule row).Status = row.Status := rfl
    simp only [Option.map_some', hst]
    by_cases hbad : row.Status ≠ "scheduled" ∧ row.Status ≠ "in_progress"
    · rw [if_pos hbad, if_pos hbad]
    · simp only [hbad, if_false]
      by_cases hin : row.Status = "in_progress"
      · simp only [hin, if_true]
        rw [visitCancelVisit_quiet _ _ _ (by rw [faults_log]; exact hq), visitOf_log]
        cases hv : w.visitOf scheduleID with
        | none => simp [World.log]
        | some visit =>
          by_cases hvs : visit.Status = "in_progress"
          · simp only [hvs, ne_eq, not_true_eq_false, if_false]
            rw [(scheduleUpdate_spec _ _ _).2.2.2.2.2 (by simpa [World.log] using hq)]
            simp [World.log, scanSchedule]
          · simp [hvs, World.log]
      · simp only [hin, if_false]
        rw [(scheduleUpdate_spec _ _ _).2.2.2.2.2 (by simpa [World.log] using hq)]
        simp [World.log, scanSchedule]

theorem updateRow_scheduleID (now : Time) (visit r : Visit) :
    (visitRepository.updateRow now visit r).ScheduleID = r.ScheduleID := by
  unfold visitRepository.updateRow
  split <;> rfl

theorem updateRow_same (now : Time) (visit r : Visit) (h : r.ID = visit.ID) :
    visitRepository.updateRow now visit r =
      { r with StartTime := visit.StartTime, EndTime := visit.EndTime,
               StartLatitude := visit.StartLatitude, StartLongitude := visit.StartLongitude,
               EndLatitude := visit.EndLatitude, EndLongitude := visit.EndLongitude,
               Status := visit.Status, Notes := visit.Notes, UpdatedAt := now } := by
  unfold visitRepository.updateRow
  simp [h]

theorem find_map_updateRow (now : Time) (visit : Visit) (scheduleID : Int) (l : List Visit) :
    (l.map (visitRepository.updateRow now visit)).find? (fun v => v.ScheduleID == scheduleID) =
      (l.find? (fun v => v.ScheduleID == scheduleID)).map
        (visitRepository.updateRow now visit) := by
  rw [List.find?_map]
  congr 2
  funext r
  simp [updateRow_scheduleID]

theorem filter_map_updateRow (now : Time) (visit : Visit) (scheduleID : Int) (l : List Visit) :
    (l.map (visitRepository.updateRow now visit)).filter (fun v => v.ScheduleID == scheduleID) =
      (l.filter (fun v => v.ScheduleID == scheduleID)).map
        (visitRepository.updateRow now visit) := by
  rw [List.filter_map]
  congr 2
  funext r
  simp [updateRow_scheduleID]

theorem filter_of_find {α : Type} (p : α → Bool) (l : List α) (a : α)
    (hf : l.find? p = some a) (hu : (l.filter p).length ≤ 1) : l.filter p = [a] := by
  have hh : (l.filter p).head? = some a := by rw [List.filter_head?]; exact hf
  match hl : l.filter p, hh, hu with
  | [], hh, _ => simp at hh
  | [b], hh, _ => simp at hh; rw [hh]
  | b :: c :: t, _, hu => simp at hu

theorem scheduleUpdateRow_id (now : Time) (schedule : Schedule) (r : ScheduleRow) :
    (scheduleRepository.updateRow now schedule r).ID = r.ID := by
  unfold scheduleRepository.updateRow
  split <;> rfl

theorem find_map_scheduleUpdateRow (now : Time) (schedule : Schedule) (id : Int)
    (l : List ScheduleRow) :
    (l.map (scheduleRepository.updateRow now schedule)).find? (fun r => r.ID == id) =
      (l.find? (fun r => r.ID == id)).map (scheduleRepository.updateRow now schedule) := by
  rw [List.find?_map]
  congr 2
  funext r
  simp [scheduleUpdateRow_id]

theorem scheduleOf_id (w : World) (id : Int) (row : ScheduleRow)
    (h : w.scheduleOf id = some row) : row.ID = id := by
  have := List.find?_some h
  simpa using this

theorem visitOf_scheduleID (w : World) (scheduleID : Int) (visit : Visit)
    (h : w.visitOf scheduleID = some visit) : visit.ScheduleID = scheduleID := by
  have := List.find?_some h
  simpa using this

theorem startVisit_spec (now : Time) (scheduleID : Int) (req : VisitStartRequest)
    (w : World) :
    (ScheduleService.StartVisit now scheduleID req w).2.tasks = w.tasks ∧
    ((ScheduleService.StartVisit now scheduleID req w).1 = .ok () →
      ∃ row visit, w.scheduleOf scheduleID = some row ∧
        ¬ now < row.StartTime + (-30) * Minute ∧
        w.visitOf scheduleID = some visit ∧
        (ScheduleService.StartVisit now scheduleID req w).2.visits =
          w.visits.map (visitRepository.updateRow now
            (visit.started now req.Latitude req.Longitude)) ∧
        (ScheduleService.StartVisit now scheduleID req w).2.schedules =
          w.schedules.map (scheduleRepository.updateRow now
            { scanSchedule row with Status := "in_progress" })) ∧
    ((ScheduleService.StartVisit now scheduleID req w).2.visits = w.visits ∨
      ∃ visit, w.visitOf scheduleID = some visit ∧
        (ScheduleService.StartVisit now scheduleID req w).2.visits =
          w.visits.map (visitRepository.updateRow now
            (visit.started now req.Latitude req.Longitude))) ∧
    ((∃ e, (ScheduleService.StartVisit now scheduleID req w).1 = .error e) →
      (ScheduleService.StartVisit now scheduleID req w).2.schedules = w.schedules) := by
  unfold ScheduleService.StartVisit
  obtain ⟨g1, g2, g3, -, g5, -⟩ := scheduleGetByID_spec scheduleID w
  rcases hg : scheduleRepository.GetByID scheduleID w with ⟨r, w1⟩
  rw [hg] at g1 g2 g3 g5
  simp only at g1 g2 g3 g5
  rcases r with e | (_ | schedule)
  · simp [g1, g2, g3]
  · simp [g1, g2, g3]
  · have hrow := g5 _ rfl
    cases hs : w.scheduleOf scheduleID with
    | none => rw [hs] at hrow; simp at hrow
    | some row =>
      rw [hs] at hrow
      simp only [Option.map_some', Option.some.injEq] at hrow
      subst hrow
      by_cases ht : now < (scanSchedule row).StartTime + (-30) * Minute
      · simp only [if_pos ht]
        simp [g1, g2, g3]
      · simp only [if_neg ht]
        obtain ⟨v1, v2, v3, v4⟩ :=
          visitStartVisit_spec now scheduleID req.Latitude req.Longitude w1
        rcases hv : visitRepository.StartVisit now scheduleID req.Latitude req.Longitude w1
          with ⟨rv, w2⟩
        rw [hv] at v1 v2 v3 v4
        simp only at v1 v2 v3 v4
        have hvo : w1.visitOf scheduleID = w.visitOf scheduleID := by
          simp only [World.visitOf, g2]
        rcases rv with e | u
        · have := v4 ⟨e, rfl⟩
          simp [v1, v2, g1, g3, this, g2]
        · obtain ⟨visit, hvis, hmap⟩ := v3 rfl
          rw [hvo] at hvis
          rw [g2] at hmap
          simp only []
          obtain ⟨u1, u2, -, u4, u5, -⟩ :=
            scheduleUpdate_spec now { scanSchedule row with Status := "in_progress" } w2
          rcases hu : scheduleRepository.Update now
            { scanSchedule row with Status := "in_progress" } w2 with ⟨ru, w3⟩
          rw [hu] at u1 u2 u4 u5
          simp only at u1 u2 u4 u5
          have ht3 : w3.tasks = w.tasks := by rw [u2, v2, g3]
          have hv3 : w3.visits = w.visits.map (visitRepository.updateRow now
              (visit.started now req.Latitude req.Longitude)) := by rw [u1, hmap]
          rcases ru with e | u
          · exact ⟨ht3, fun h => by simp at h, Or.inr ⟨visit, hvis, hv3⟩, fun _ => by
              show w3.schedules = _
              rw [u5 ⟨e, rfl⟩, v1, g1]⟩
          · exact ⟨ht3, fun _ => ⟨row, visit, rfl, ht, hvis, hv3, by
              show w3.schedules = _
              rw [u4 rfl, v1, g1]⟩, Or.inr ⟨visit, hvis, hv3⟩, fun h => by simp at h⟩

theorem endVisit_spec (now : Time) (scheduleID : Int) (req : VisitEndRequest) (w : World) :
    (ScheduleService.EndVisit now scheduleID req w).2.tasks = w.tasks ∧
    ((ScheduleService.EndVisit now scheduleID req w).1 = .ok () →
      ∃ row visit, w.scheduleOf scheduleID = some row ∧
        w.visitOf scheduleID = some visit ∧ visit.StartTime ≠ none ∧
        (ScheduleService.EndVisit now scheduleID req w).2.visits =
          w.visits.map (visitRepository.updateRow now
            (visit.ended now req.Latitude req.Longitude req.Notes)) ∧
        (ScheduleService.EndVisit now scheduleID req w).2.schedules =
          w.schedules.map (scheduleRepository.updateRow now
            { scanSchedule row with Status := "completed" })) ∧
    ((ScheduleService.EndVisit now scheduleID req w).2.visits = w.visits ∨
      ∃ visit, w.visitOf scheduleID = some visit ∧ visit.StartTime ≠ none ∧
        (ScheduleService.EndVisit now scheduleID req w).2.visits =
          w.visits.map (visitRepository.updateRow now
            (visit.ended now req.Latitude req.Longitude req.Notes))) ∧
    ((∃ e, (ScheduleService.EndVisit now scheduleID req w).1 = .error e) →
      (ScheduleService.EndVisit now scheduleID req w).2.schedules = w.schedules) := by
  unfold ScheduleService.EndVisit
  obtain ⟨g1, g2, g3, -, g5, -⟩ := scheduleGetByID_spec scheduleID w
  rcases hg : scheduleRepository.GetByID scheduleID w with ⟨r, w1⟩
  rw [hg] at g1 g2 g3 g5
  simp only at g1 g2 g3 g5
  rcases r with e | (_ | schedule)
  · simp [g1, g2, g3]
  · simp [g1, g2, g3]
  · have hrow := g5 _ rfl
    cases hs : w.scheduleOf scheduleID with
    | none => rw [hs] at hrow; simp at hrow
    | some row =>
      rw [hs] at hrow
      simp only [Option.map_some', Option.some.injEq] at hrow
      subst hrow
      simp only []
      obtain ⟨v1, v2, v3, v4⟩ :=
        visitEndVisit_spec now scheduleID req.Latitude req.Longitude req.Notes w1
      rcases hv : visitRepository.EndVisit now scheduleID req.Latitude req.Longitude
        req.Notes w1 with ⟨rv, w2⟩
      rw [hv] at v1 v2 v3 v4
      simp only at v1 v2 v3 v4
      have hvo : w1.visitOf scheduleID = w.visitOf scheduleID := by
        simp only [World.visitOf, g2]
      rcases rv with e | u
      · have := v4 ⟨e, rfl⟩
        simp [v1, v2, g1, g3, this, g2]
      · obtain ⟨visit, hvis, hst, hmap⟩ := v3 rfl
        rw [hvo] at hvis
        rw [g2] at hmap
        simp only []
        obtain ⟨u1, u2, -, u4, u5, -⟩ :=
          scheduleUpdate_spec now { scanSchedule row with Status := "completed" } w2
        rcases hu : scheduleRepository.Update now
          { scanSchedule row with Status := "completed" } w2 with ⟨ru, w3⟩
        rw [hu] at u1 u2 u4 u5
        simp only at u1 u2 u4 u5
        have ht3 : w3.tasks = w.tasks := by rw [u2, v2, g3]
        have hv3 : w3.visits = w.visits.map (visitRepository.updateRow now
            (visit.ended now req.Latitude req.Longitude req.Notes)) := by rw [u1, hmap]
        rcases ru with e | u
        · exact ⟨ht3, fun h => by simp at h, Or.inr ⟨visit, hvis, hst, hv3⟩, fun _ => by
            show w3.schedules = _
            rw [u5 ⟨e, rfl⟩, v1, g1]⟩
        · exact ⟨ht3, fun _ => ⟨row, visit, rfl, hvis, hst, hv3, by
            show w3.schedules = _
            rw [u4 rfl, v1, g1]⟩, Or.inr ⟨visit, hvis, hst, hv3⟩, fun h => by simp at h⟩

theorem cancelVisit_spec (now : Time) (scheduleID : Int) (w : World) :
    (ScheduleService.CancelVisit now scheduleID w).2.tasks = w.tasks ∧
    ((ScheduleService.CancelVisit now scheduleID w).1 = .ok () →
      ∃ row, w.scheduleOf scheduleID = some row ∧
        ((row.Status = "in_progress" ∧ ∃ visit, w.visitOf scheduleID = some visit ∧
            visit.Status = "in_progress" ∧
            (ScheduleService.CancelVisit now scheduleID w).2.visits =
              w.visits.map (visitRepository.updateRow now visit.cancelled)) ∨
          (row.Status = "scheduled" ∧
            (ScheduleService.CancelVisit now scheduleID w).2.visits = w.visits)) ∧
        (ScheduleService.CancelVisit now scheduleID w).2.schedules =
          w.schedules.map (scheduleRepository.updateRow now
            { scanSchedule row with Status := "scheduled" })) ∧
    ((ScheduleService.CancelVisit now scheduleID w).2.visits = w.visits ∨
      ∃ visit, w.visitOf scheduleID = some visit ∧
        (ScheduleService.CancelVisit now scheduleID w).2.visits =
          w.visits.map (visitRepository.updateRow now visit.cancelled)) ∧
    ((∃ e, (ScheduleService.CancelVisit now scheduleID w).1 = .error e) →
      (ScheduleService.CancelVisit now scheduleID w).2.schedules = w.schedules) := by
  unfold ScheduleService.CancelVisit
  obtain ⟨g1, g2, g3, -, g5, -⟩ := scheduleGetByID_spec scheduleID w
  rcases hg : scheduleRepository.GetByID scheduleID w with ⟨r, w1⟩
  rw [hg] at g1 g2 g3 g5
  simp only at g1 g2 g3 g5
  rcases r with e | (_ | schedule)
  · simp [g1, g2, g3]
  · simp [g1, g2, g3]
  · have hrow := g5 _ rfl
    cases hs : w.scheduleOf scheduleID with
    | none => rw [hs] at hrow; simp at hrow
    | some row =>
      rw [hs] at hrow
      simp only [Option.map_some', Option.some.injEq] at hrow
      subst hrow
      have hst : (scanSchedule row).Status = row.Status := rfl
      simp only [hst]
      by_cases hbad : row.Status ≠ "scheduled" ∧ row.Status ≠ "in_progress"
      · rw [if_pos hbad]
        simp [g1, g2, g3]
      · rw [if_neg hbad]
        by_cases hin : row.Status = "in_progress"
        · rw [if_pos hin]
          obtain ⟨v1, v2, v3, v4⟩ := visitCancelVisit_spec now scheduleID w1
          rcases hv : visitRepository.CancelVisit now scheduleID w1 with ⟨rv, w2⟩
          rw [hv] at v1 v2 v3 v4
          simp only at v1 v2 v3 v4
          have hvo : w1.visitOf scheduleID = w.visitOf scheduleID := by
            simp only [World.visitOf, g2]
          rcases rv with e | u
          · have := v4 ⟨e, rfl⟩
            simp [v1, v2, g1, g3, this, g2]
          · obtain ⟨visit, hvis, hvst, hmap⟩ := v3 rfl
            rw [hvo] at hvis
            rw [g2] at hmap
            simp only []
            obtain ⟨u1, u2, -, u4, u5, -⟩ :=
              scheduleUpdate_spec now { scanSchedule row with Status := "scheduled" } w2
            rcases hu : scheduleRepository.Update now
              { scanSchedule row with Status := "scheduled" } w2 with ⟨ru, w3⟩
            rw [hu] at u1 u2 u4 u5
            simp only at u1 u2 u4 u5
            have ht3 : w3.tasks = w.tasks := by rw [u2, v2, g3]
            have hv3 : w3.visits =
                w.visits.map (visitRepository.updateRow now visit.cancelled) := by
              rw [u1, hmap]
            rcases ru with e | u
            · exact ⟨ht3, fun h => by simp at h, Or.inr ⟨visit, hvis, hv3⟩, fun _ => by
              show w3.schedules = _
              rw [u5 ⟨e, rfl⟩, v1, g1]⟩
            · exact ⟨ht3, fun _ => ⟨row, rfl, Or.inl ⟨hin, visit, hvis, hvst, hv3⟩, by
                show w3.schedules = _
                rw [u4 rfl, v1, g1]⟩, Or.inr ⟨visit, hvis, hv3⟩, fun h => by simp at h⟩
        · rw [if_neg hin]
          have hsch : row.Status = "scheduled" := by
            by_contra hne
            exact hbad ⟨hne, hin⟩
          simp only []
          obtain ⟨u1, u2, -, u4, u5, -⟩ :=
            scheduleUpdate_spec now { scanSchedule row with Status := "scheduled" } w1
          rcases hu : scheduleRepository.Update now
            { scanSchedule row with Status := "scheduled" } w1 with ⟨ru, w3⟩
          rw [hu] at u1 u2 u4 u5
          simp only at u1 u2 u4 u5
          have ht3 : w3.tasks = w.tasks := by rw [u2, g3]
          have hv3 : w3.visits = w.visits := by rw [u1, g2]
          rcases ru with e | u
          · exact ⟨ht3, fun h => by simp at h, Or.inl hv3, fun _ => by
              show w3.schedules = _
              rw [u5 ⟨e, rfl⟩, g1]⟩
          · exact ⟨ht3, fun _ => ⟨row, rfl, Or.inr ⟨hsch, hv3⟩, by
              show w3.schedules = _
              rw [u4 rfl, g1]⟩, Or.inl hv3, fun h => by simp at h⟩

/-! ## Start -/

/-- C1: with the driver reporting no error and the schedule present, `StartVisit` fails with
the too-early error exactly when `now` is before the start time minus 30 minutes; at exactly
30 minutes before the start it succeeds (the visit row being there to update); and when it
fails as too early the only repository call made is the schedule lookup, so neither
`visitRepo.StartVisit` nor `scheduleRepo.Update` is called and no table changes. -/
theorem C1_startVisit_tooEarly_iff (w : World) (now : Time) (scheduleID : Int)
    (req : VisitStartRequest) (row : ScheduleRow)
    (hq : w.faults = []) (hs : w.scheduleOf scheduleID = some row) :
    ((ScheduleService.StartVisit now scheduleID req w).1 =
        .error "cannot start visit more than 30 minutes before scheduled time" ↔
      now < row.StartTime - 30 * Minute) ∧
    (now = row.StartTime - 30 * Minute → w.visitOf scheduleID ≠ none →
      (ScheduleService.StartVisit now scheduleID req w).1 = .ok ()) ∧
    (now < row.StartTime - 30 * Minute →
      (ScheduleService.StartVisit now scheduleID req w).2 =
          w.log (Call.scheduleGetByID scheduleID) ∧
        (ScheduleService.StartVisit now scheduleID req w).2.callsSince w =
          [Call.scheduleGetByID scheduleID]) := by
  have hsub : row.StartTime + (-30) * Minute = row.StartTime - 30 * Minute := by ring
  rw [startVisit_quiet now scheduleID req w hq, hs]
  simp only [hsub]
  by_cases ht : now < row.StartTime - 30 * Minute
  · rw [if_pos ht]
    exact ⟨⟨fun _ => ht, fun _ => rfl⟩,
      fun heq => absurd ht (by rw [heq]; exact lt_irrefl _),
      fun _ => ⟨rfl, by simp [World.callsSince, World.log]⟩⟩
  · rw [if_neg ht]
    refine ⟨⟨fun h => ?_, fun h => absurd h ht⟩, fun _ hv => ?_, fun h => absurd h ht⟩
    · cases hv : w.visitOf scheduleID with
      | none => rw [hv] at h; simp at h
      | some visit => rw [hv] at h; simp at h
    · cases hv2 : w.visitOf scheduleID with
      | none => exact absurd hv2 hv
      | some visit => rfl

/-- C1, at the sample schedule starting at minute 600: a Start at minute 570 sharp is
admitted. -/
theorem C1_startVisit_tooEarly_iff_witness :
    sampleWorld.faults = [] ∧ sampleWorld.scheduleOf 1 = some sampleSchedule ∧
    ((ScheduleService.StartVisit (570 * Minute) 1 ⟨40, -74⟩ sampleWorld).1 =
        .error "cannot start visit more than 30 minutes before scheduled time" ↔
      570 * Minute < sampleSchedule.StartTime - 30 * Minute) ∧
    (ScheduleService.StartVisit (570 * Minute) 1 ⟨40, -74⟩ sampleWorld).1 = .ok () :=
  ⟨rfl, by decide,
    (C1_startVisit_tooEarly_iff sampleWorld (570 * Minute) 1 ⟨40, -74⟩ sampleSchedule rfl
      (by decide)).1,
    (C1_startVisit_tooEarly_iff sampleWorld (570 * Minute) 1 ⟨40, -74⟩ sampleSchedule rfl
      (by decide)).2.1 (by decide) (by decide)⟩

/-- C2, what the code does. A successful `StartVisit` leaves exactly one visit row for the
schedule (the `UNIQUE` constraint on `visits.schedule_id` holding before the call); that row
has start time `now`, the given start coordinates and status `in_progress`; it is the row
that was there before, updated in place (same id, same end fields and notes, no row added);
and the persisted schedule status is `in_progress`. A Start on a schedule without a visit
row is never a successful one: whatever the driver does it returns an error, no visit row
is created and the schedule rows stay as they were, because the `INSERT` of
`visitRepository.Create` is refused. With the driver reporting no error, that Start asks
`Create` for a visit with the fields claimed and returns the error of `Create`. -/
theorem C2_startVisit_effect (w : World) (now : Time) (scheduleID : Int)
    (req : VisitStartRequest)
    (huniq : (w.visits.filter (fun v => v.ScheduleID == scheduleID)).length ≤ 1) :
    ((ScheduleService.StartVisit now scheduleID req w).1 = .ok () →
      ∃ old v, w.visitOf scheduleID = some old ∧
        (ScheduleService.StartVisit now scheduleID req w).2.visits.filter
          (fun v => v.ScheduleID == scheduleID) = [v] ∧
        v.StartTime = some now ∧ v.StartLatitude = some req.Latitude ∧
        v.StartLongitude = some req.Longitude ∧ v.Status = "in_progress" ∧
        v.ID = old.ID ∧ v.EndTime = old.EndTime ∧ v.EndLatitude = old.EndLatitude ∧
        v.EndLongitude = old.EndLongitude ∧ v.Notes = old.Notes ∧
        (ScheduleService.StartVisit now scheduleID req w).2.visits.length = w.visits.length ∧
        ((ScheduleService.StartVisit now scheduleID req w).2.scheduleOf scheduleID).map
          (fun r => r.Status) = some "in_progress") ∧
    (w.visitOf scheduleID = none →
      (∃ e, (ScheduleService.StartVisit now scheduleID req w).1 = .error e) ∧
      (ScheduleService.StartVisit now scheduleID req w).2.visits = w.visits ∧
      (ScheduleService.StartVisit now scheduleID req w).2.visitOf scheduleID = none ∧
      (ScheduleService.StartVisit now scheduleID req w).2.schedules = w.schedules) ∧
    (w.faults = [] → w.visitOf scheduleID = none →
      ∀ row, w.scheduleOf scheduleID = some row → ¬ now < row.StartTime - 30 * Minute →
        (ScheduleService.StartVisit now scheduleID req w).2.callsSince w =
          [Call.scheduleGetByID scheduleID,
           Call.visitStartVisit scheduleID req.Latitude req.Longitude,
           Call.visitGetByScheduleID scheduleID,
           Call.visitCreate
             { ScheduleID := scheduleID, StartTime := some now,
               StartLatitude := some req.Latitude, StartLongitude := some req.Longitude,
               Status := "in_progress" }] ∧
        (ScheduleService.StartVisit now scheduleID req w).1 =
          .error "failed to start visit: failed to create visit: 8 values for 9 columns") := by
  refine ⟨?_, ?_, ?_⟩
  · intro hok
    obtain ⟨row, visit, hs, -, hvis, hvisits, hscheds⟩ :=
      (startVisit_spec now scheduleID req w).2.1 hok
    refine ⟨visit, visitRepository.updateRow now
      (visit.started now req.Latitude req.Longitude) visit, hvis, ?_, ?_⟩
    · rw [hvisits, filter_map_updateRow, filter_of_find _ _ visit hvis huniq]
      rfl
    · have hsame := updateRow_same now (visit.started now req.Latitude req.Longitude) visit rfl
      rw [hsame]
      refine ⟨rfl, rfl, rfl, rfl, rfl, rfl, rfl, rfl, rfl, ?_, ?_⟩
      · rw [hvisits, List.length_map]
      · have hid := scheduleOf_id w scheduleID row hs
        unfold World.scheduleOf at hs ⊢
        rw [hscheds, find_map_scheduleUpdateRow, hs]
        simp [scheduleRepository.updateRow, scanSchedule]
  · intro hnone
    obtain ⟨-, hok, hvis, herr⟩ := startVisit_spec now scheduleID req w
    have hfail : ∃ e, (ScheduleService.StartVisit now scheduleID req w).1 = .error e := by
      cases hr : (ScheduleService.StartVisit now scheduleID req w).1 with
      | error e => exact ⟨e, rfl⟩
      | ok u =>
        obtain ⟨row, visit, -, -, hv, -⟩ := hok hr
        rw [hnone] at hv
        cases hv
    have hsame : (ScheduleService.StartVisit now scheduleID req w).2.visits = w.visits := by
      rcases hvis with h | ⟨visit, hv, -⟩
      · exact h
      · rw [hnone] at hv
        cases hv
    refine ⟨hfail, hsame, ?_, herr hfail⟩
    unfold World.visitOf at hnone ⊢
    rw [hsame]
    exact hnone
  · intro hq hnone row hs ht
    have hsub : row.StartTime + (-30) * Minute = row.StartTime - 30 * Minute := by ring
    rw [startVisit_quiet now scheduleID req w hq, hs]
    simp only [hsub, if_neg ht, hnone]
    simp [World.callsSince]

/-- C2, on the sample databases: with the visit row of schedule 1 a Start at minute 590
succeeds and leaves that one row started at minute 590; without a visit row the same Start
returns an error and leaves the schedule without a visit. -/
theorem C2_startVisit_effect_witness :
    (sampleWorld.visits.filter (fun v => v.ScheduleID == 1)).length ≤ 1 ∧
    (ScheduleService.StartVisit (590 * Minute) 1 ⟨40, -74⟩ sampleWorld).1 = .ok () ∧
    (∃ old v, sampleWorld.visitOf 1 = some old ∧
      (ScheduleService.StartVisit (590 * Minute) 1 ⟨40, -74⟩ sampleWorld).2.visits.filter
        (fun v => v.ScheduleID == 1) = [v] ∧
      v.StartTime = some (590 * Minute) ∧ v.StartLatitude = some 40 ∧
      v.StartLongitude = some (-74) ∧ v.Status = "in_progress" ∧
      v.ID = old.ID ∧ v.EndTime = old.EndTime ∧ v.EndLatitude = old.EndLatitude ∧
      v.EndLongitude = old.EndLongitude ∧ v.Notes = old.Notes ∧
      (ScheduleService.StartVisit (590 * Minute) 1 ⟨40, -74⟩ sampleWorld).2.visits.length =
        sampleWorld.visits.length ∧
      ((ScheduleService.StartVisit (590 * Minute) 1 ⟨40, -74⟩ sampleWorld).2.scheduleOf 1).map
        (fun r => r.Status) = some "in_progress") ∧
    bareWorld.visitOf 1 = none ∧
    (∃ e, (ScheduleService.StartVisit (590 * Minute) 1 ⟨40, -74⟩ bareWorld).1 = .error e) ∧
    (ScheduleService.StartVisit (590 * Minute) 1 ⟨40, -74⟩ bareWorld).2.visitOf 1 = none :=
  have hb := (C2_startVisit_effect bareWorld (590 * Minute) 1 ⟨40, -74⟩ (by decide)).2.1
    (by decide)
  ⟨by decide, by decide,
    (C2_startVisit_effect sampleWorld (590 * Minute) 1 ⟨40, -74⟩ (by decide)).1 (by decide),
    by decide, hb.1, hb.2.2.1⟩

/-! ## End -/

/-- C3: when the schedule has no visit row, or its visit has no start time, End is refused
and writes nothing. Whatever the driver does, `visitRepository.EndVisit`,
`VisitService.EndVisit` and `ScheduleService.EndVisit` return an error and leave the visit
rows as they were, and `ScheduleService.EndVisit` leaves the schedule rows as they were. With
the driver reporting no error the refusal is `visit not found for schedule <id>` when there is
no visit row and `cannot end visit that hasn't been started` when the start time is absent,
and the world comes back unchanged but for the calls traced: the visit lookup (after the
schedule lookup in `ScheduleService`), with no `Update` of a visit or a schedule. -/
theorem C3_endVisit_notStarted (w : World) (now : Time) (scheduleID : Int)
    (latitude longitude : Rat) (notes : String)
    (hns : w.visitOf scheduleID = none ∨
      ∃ visit, w.visitOf scheduleID = some visit ∧ visit.StartTime = none) :
    ((∃ e, (visitRepository.EndVisit now scheduleID latitude longitude notes w).1 = .error e) ∧
      (visitRepository.EndVisit now scheduleID latitude longitude notes w).2.visits =
        w.visits) ∧
    ((∃ e, (VisitService.EndVisit now scheduleID latitude longitude notes w).1 = .error e) ∧
      (VisitService.EndVisit now scheduleID latitude longitude notes w).2.visits = w.visits) ∧
    ((∃ e, (ScheduleService.EndVisit now scheduleID ⟨latitude, longitude, notes⟩ w).1 =
        .error e) ∧
      (ScheduleService.EndVisit now scheduleID ⟨latitude, longitude, notes⟩ w).2.visits =
        w.visits ∧
      (ScheduleService.EndVisit now scheduleID ⟨latitude, longitude, notes⟩ w).2.schedules =
        w.schedules) ∧
    (w.faults = [] →
      visitRepository.EndVisit now scheduleID latitude longitude notes w =
        (.error (if w.visitOf scheduleID = none
            then "visit not found for schedule " ++ toString scheduleID
            else "cannot end visit that hasn't been started"),
          { w with trace := w.trace ++
              [Call.visitEndVisit scheduleID latitude longitude notes,
               Call.visitGetByScheduleID scheduleID] }) ∧
      VisitService.EndVisit now scheduleID latitude longitude notes w =
        (.error (if w.visitOf scheduleID = none
            then "visit not found for schedule " ++ toString scheduleID
            else "cannot end visit that hasn't been started"),
          { w with trace := w.trace ++ [Call.visitGetByScheduleID scheduleID] }) ∧
      (w.scheduleOf scheduleID ≠ none →
        ScheduleService.EndVisit now scheduleID ⟨latitude, longitude, notes⟩ w =
          (.error ("failed to end visit: " ++ (if w.visitOf scheduleID = none
              then "visit not found for schedule " ++ toString scheduleID
              else "cannot end visit that hasn't been started")),
            { w with trace := w.trace ++
                [Call.scheduleGetByID scheduleID,
                 Call.visitEndVisit scheduleID latitude longitude notes,
                 Call.visitGetByScheduleID scheduleID] }))) := by
  have hno : ¬ ∃ visit, w.visitOf scheduleID = some visit ∧ visit.StartTime ≠ none := by
    rintro ⟨visit, hv, hst⟩
    rcases hns with h | ⟨v2, h, h2⟩
    · rw [h] at hv; cases hv
    · rw [h] at hv; cases hv; exact hst h2
  refine ⟨?_, ?_, ?_, ?_⟩
  · obtain ⟨-, -, s3, s4⟩ := visitEndVisit_spec now scheduleID latitude longitude notes w
    rcases result_cases (visitRepository.EndVisit now scheduleID latitude longitude notes w).1
      with hok | herr
    · obtain ⟨visit, hv, hst, -⟩ := s3 hok
      exact absurd ⟨visit, hv, hst⟩ hno
    · exact ⟨herr, s4 herr⟩
  · obtain ⟨-, -, s3, s4⟩ :=
      visitServiceEndVisit_spec now scheduleID latitude longitude notes w
    rcases result_cases (VisitService.EndVisit now scheduleID latitude longitude notes w).1
      with hok | herr
    · obtain ⟨visit, hv, hst, -⟩ := s3 hok
      exact absurd ⟨visit, hv, hst⟩ hno
    · exact ⟨herr, s4 herr⟩
  · obtain ⟨-, s2, s3, s4⟩ := endVisit_spec now scheduleID ⟨latitude, longitude, notes⟩ w
    rcases result_cases
      (ScheduleService.EndVisit now scheduleID ⟨latitude, longitude, notes⟩ w).1
      with hok | herr
    · obtain ⟨row, visit, -, hv, hst, -⟩ := s2 hok
      exact absurd ⟨visit, hv, hst⟩ hno
    · refine ⟨herr, ?_, s4 herr⟩
      rcases s3 with h | ⟨visit, hv, hst, -⟩
      · exact h
      · exact absurd ⟨visit, hv, hst⟩ hno
  · intro hq
    rw [visitEndVisit_quiet _ _ _ _ _ _ hq, visitServiceEndVisit_quiet _ _ _ _ _ _ hq,
      endVisit_quiet _ _ _ _ hq]
    rcases hns with h | ⟨visit, h, hst⟩
    · rw [h]
      refine ⟨by simp, by simp, fun hs => ?_⟩
      cases hrow : w.scheduleOf scheduleID with
      | none => exact absurd hrow hs
      | some row => simp
    · rw [h]
      refine ⟨by simp [hst], by simp [hst], fun hs => ?_⟩
      cases hrow : w.scheduleOf scheduleID with
      | none => exact absurd hrow hs
      | some row => simp [hst]

/-- C3, on the sample database, whose visit row has no start time: End is refused. -/
theorem C3_endVisit_notStarted_witness :
    (sampleWorld.visitOf 1 = none ∨
      ∃ visit, sampleWorld.visitOf 1 = some visit ∧ visit.StartTime = none) ∧
    ScheduleService.EndVisit (660 * Minute) 1 ⟨40, -74, "done"⟩ sampleWorld =
      (.error "failed to end visit: cannot end visit that hasn't been started",
        { sampleWorld with trace :=
            [Call.scheduleGetByID 1, Call.visitEndVisit 1 40 (-74) "done",
             Call.visitGetByScheduleID 1] }) :=
  ⟨Or.inr ⟨sampleVisit, by decide, rfl⟩,
    ((C3_endVisit_notStarted sampleWorld (660 * Minute) 1 40 (-74) "done"
      (Or.inr ⟨sampleVisit, by decide, rfl⟩)).2.2.2 rfl).2.2 (by decide)⟩

theorem visitOf_after_update (w : World) (now : Time) (scheduleID : Int) (visit new : Visit)
    (visits : List Visit) (hv : w.visitOf scheduleID = some visit) (hid : new.ID = visit.ID)
    (hvs : visits = w.visits.map (visitRepository.updateRow now new)) :
    visits.find? (fun v => v.ScheduleID == scheduleID) = some
      { visit with StartTime := new.StartTime, EndTime := new.EndTime,
                   StartLatitude := new.StartLatitude, StartLongitude := new.StartLongitude,
                   EndLatitude := new.EndLatitude, EndLongitude := new.EndLongitude,
                   Status := new.Status, Notes := new.Notes, UpdatedAt := now } := by
  unfold World.visitOf at hv
  rw [hvs, find_map_updateRow, hv, Option.map_some', updateRow_same now new visit hid.symm]

theorem scheduleOf_after_update (w : World) (now : Time) (id : Int) (row : ScheduleRow)
    (status : String) (schedules : List ScheduleRow) (hs : w.scheduleOf id = some row)
    (hss : schedules = w.schedules.map
      (scheduleRepository.updateRow now { scanSchedule row with Status := status })) :
    schedules.find? (fun r => r.ID == id) = some { row with Status := status, UpdatedAt := now } := by
  unfold World.scheduleOf at hs
  rw [hss, find_map_scheduleUpdateRow, hs]
  simp [scheduleRepository.updateRow, scanSchedule]

theorem endedFrom_ended (visit : Visit) (now : Time) (latitude longitude : Rat)
    (notes : String) :
    Visit.EndedFrom visit now latitude longitude notes
      { visit with
          StartTime := (visit.ended now latitude longitude notes).StartTime,
          EndTime := (visit.ended now latitude longitude notes).EndTime,
          StartLatitude := (visit.ended now latitude longitude notes).StartLatitude,
          StartLongitude := (visit.ended now latitude longitude notes).StartLongitude,
          EndLatitude := (visit.ended now latitude longitude notes).EndLatitude,
          EndLongitude := (visit.ended now latitude longitude notes).EndLongitude,
          Status := (visit.ended now latitude longitude notes).Status,
          Notes := (visit.ended now latitude longitude notes).Notes, UpdatedAt := now } := by
  refine ⟨rfl, rfl, rfl, rfl, fun h => ?_, fun h => ?_, rfl, rfl, rfl⟩
  · simp [Visit.ended, h]
  · simp [Visit.ended, h]

/-- C4: for a visit whose start time is set, a successful End (`visitRepository.EndVisit`,
`VisitService.EndVisit`, `ScheduleService.EndVisit`) leaves the visit row of the schedule
with end time `now`, the given end coordinates, status `completed`, the given notes when not
empty and the previous notes otherwise, and the start time and start coordinates it had;
after a successful `ScheduleService.EndVisit` the persisted schedule status is `completed`.
With the driver reporting no error these calls do succeed (`ScheduleService.EndVisit` when
the schedule is present). -/
theorem C4_endVisit_effect (w : World) (now : Time) (scheduleID : Int)
    (latitude longitude : Rat) (notes : String) (visit : Visit)
    (hv : w.visitOf scheduleID = some visit) (hst : visit.StartTime ≠ none) :
    ((visitRepository.EndVisit now scheduleID latitude longitude notes w).1 = .ok () →
      ∃ v, (visitRepository.EndVisit now scheduleID latitude longitude notes w).2.visitOf
          scheduleID = some v ∧
        Visit.EndedFrom visit now latitude longitude notes v) ∧
    ((VisitService.EndVisit now scheduleID latitude longitude notes w).1 = .ok () →
      ∃ v, (VisitService.EndVisit now scheduleID latitude longitude notes w).2.visitOf
          scheduleID = some v ∧
        Visit.EndedFrom visit now latitude longitude notes v) ∧
    ((ScheduleService.EndVisit now scheduleID ⟨latitude, longitude, notes⟩ w).1 = .ok () →
      (∃ v, (ScheduleService.EndVisit now scheduleID ⟨latitude, longitude, notes⟩ w).2.visitOf
          scheduleID = some v ∧
        Visit.EndedFrom visit now latitude longitude notes v) ∧
      ((ScheduleService.EndVisit now scheduleID ⟨latitude, longitude, notes⟩ w).2.scheduleOf
        scheduleID).map (fun r => r.Status) = some "completed") ∧
    (w.faults = [] →
      (visitRepository.EndVisit now scheduleID latitude longitude notes w).1 = .ok () ∧
      (VisitService.EndVisit now scheduleID latitude longitude notes w).1 = .ok () ∧
      (w.scheduleOf scheduleID ≠ none →
        (ScheduleService.EndVisit now scheduleID ⟨latitude, longitude, notes⟩ w).1 =
          .ok ())) := by
  refine ⟨fun hok => ?_, fun hok => ?_, fun hok => ?_, fun hq => ?_⟩
  · obtain ⟨visit2, hv2, -, hvs⟩ :=
      (visitEndVisit_spec now scheduleID latitude longitude notes w).2.2.1 hok
    rw [hv] at hv2
    cases hv2
    exact ⟨_, visitOf_after_update w now scheduleID visit
      (visit.ended now latitude longitude notes) _ hv rfl hvs,
      endedFrom_ended visit now latitude longitude notes⟩
  · obtain ⟨visit2, hv2, -, hvs⟩ :=
      (visitServiceEndVisit_spec now scheduleID latitude longitude notes w).2.2.1 hok
    rw [hv] at hv2
    cases hv2
    exact ⟨_, visitOf_after_update w now scheduleID visit
      (visit.ended now latitude longitude notes) _ hv rfl hvs,
      endedFrom_ended visit now latitude longitude notes⟩
  · obtain ⟨row, visit2, hs, hv2, -, hvs, hss⟩ :=
      (endVisit_spec now scheduleID ⟨latitude, longitude, notes⟩ w).2.1 hok
    rw [hv] at hv2
    cases hv2
    refine ⟨⟨_, visitOf_after_update w now scheduleID visit
      (visit.ended now latitude longitude notes) _ hv rfl hvs,
      endedFrom_ended visit now latitude longitude notes⟩, ?_⟩
    unfold World.scheduleOf
    rw [scheduleOf_after_update w now scheduleID row "completed" _ hs hss]
    rfl
  · rw [visitEndVisit_quiet _ _ _ _ _ _ hq, visitServiceEndVisit_quiet _ _ _ _ _ _ hq,
      endVisit_quiet _ _ _ _ hq, hv]
    refine ⟨by simp [hst], by simp [hst], fun hs => ?_⟩
    cases hrow : w.scheduleOf scheduleID with
    | none => exact absurd hrow hs
    | some row => simp [hst]

/-- C4, on the sample database with the visit started at minute 590 and noted "arrived": an
End at minute 660 with empty notes succeeds, completes visit and schedule and keeps the
notes. -/
theorem C4_endVisit_effect_witness :
    startedWorld.visitOf 1 = some
      { sampleVisit with StartTime := some (590 * Minute), StartLatitude := some 40,
                         StartLongitude := some (-74), Status := "in_progress",
                         Notes := "arrived" } ∧
    (ScheduleService.EndVisit (660 * Minute) 1 ⟨41, -75, ""⟩ startedWorld).1 = .ok () ∧
    (∃ v, (ScheduleService.EndVisit (660 * Minute) 1 ⟨41, -75, ""⟩ startedWorld).2.visitOf 1 =
        some v ∧
      v.EndTime = some (660 * Minute) ∧ v.Status = "completed" ∧ v.Notes = "arrived" ∧
      v.StartTime = some (590 * Minute)) ∧
    ((ScheduleService.EndVisit (660 * Minute) 1 ⟨41, -75, ""⟩ startedWorld).2.scheduleOf
      1).map (fun r => r.Status) = some "completed" :=
  have h := C4_endVisit_effect startedWorld (660 * Minute) 1 41 (-75) ""
    { sampleVisit with StartTime := some (590 * Minute), StartLatitude := some 40,
                       StartLongitude := some (-74), Status := "in_progress",
                       Notes := "arrived" } (by decide) (by decide)
  ⟨by decide, (h.2.2.2 rfl).2.2 (by decide),
    (h.2.2.1 ((h.2.2.2 rfl).2.2 (by decide))).1.imp
      (fun _ hv => ⟨hv.1, hv.2.1, hv.2.2.2.2.1, hv.2.2.2.2.2.2.1 rfl, hv.2.2.2.2.2.2.2.1⟩),
    (h.2.2.1 ((h.2.2.2 rfl).2.2 (by decide))).2⟩



/-! ## Sequences of Start, End and Cancel -/

theorem started_iff (w : World) (scheduleID : Int) :
    w.started scheduleID = true ↔
      ∃ v, w.visitOf scheduleID = some v ∧ v.StartTime ≠ none := by
  unfold World.started
  cases h : w.visitOf scheduleID with
  | none => simp
  | some v =>
    cases hs : v.StartTime <;> simp [hs]

theorem started_after (w w1 : World) (now : Time) (scheduleID : Int) (visit new : Visit)
    (hv : w.visitOf scheduleID = some visit) (hid : new.ID = visit.ID)
    (hvs : w1.visits = w.visits.map (visitRepository.updateRow now new)) :
    w1.started scheduleID = new.StartTime.isSome := by
  unfold World.started World.visitOf
  rw [visitOf_after_update w now scheduleID visit new _ hv hid hvs]
  rfl

theorem statusOf_after (w w1 : World) (now : Time) (id : Int) (row : ScheduleRow)
    (status : String) (hs : w.scheduleOf id = some row)
    (hss : w1.schedules = w.schedules.map
      (scheduleRepository.updateRow now { scanSchedule row with Status := status })) :
    w1.statusOf id = some status := by
  unfold World.statusOf World.scheduleOf
  rw [scheduleOf_after_update w now id row status _ hs hss]
  rfl

theorem started_congr (w w1 : World) (scheduleID : Int) (h : w1.visits = w.visits) :
    w1.started scheduleID = w.started scheduleID := by
  unfold World.started World.visitOf
  rw [h]

theorem statusOf_congr (w w1 : World) (scheduleID : Int) (h : w1.schedules = w.schedules) :
    w1.statusOf scheduleID = w.statusOf scheduleID := by
  unfold World.statusOf World.scheduleOf
  rw [h]

theorem call_quiet (w : World) (scheduleID : Int) (op : Op) (hq : w.faults = []) :
    (ScheduleService.call scheduleID op w).2.faults = [] ∧
    ((ScheduleService.call scheduleID op w).1.toBool = false →
      (ScheduleService.call scheduleID op w).2.visits = w.visits ∧
      (ScheduleService.call scheduleID op w).2.schedules = w.schedules) := by
  cases op with
  | Start now req =>
    simp only [ScheduleService.call]
    rw [startVisit_quiet now scheduleID req w hq]
    cases hs : w.scheduleOf scheduleID with
    | none => simp [World.log, hq]
    | some row =>
      by_cases ht : now < row.StartTime + (-30) * Minute
      · simp only [if_pos ht]; simp [World.log, hq]
      · simp only [if_neg ht]
        cases hv : w.visitOf scheduleID <;> simp [hq, Except.toBool]
  | End now req =>
    simp only [ScheduleService.call]
    rw [endVisit_quiet now scheduleID req w hq]
    cases hs : w.scheduleOf scheduleID with
    | none => simp [World.log, hq]
    | some row =>
      cases hv : w.visitOf scheduleID with
      | none => simp [hq]
      | some visit =>
        by_cases hst : visit.StartTime = none
        · simp [hst, hq]
        · simp [hst, hq, Except.toBool]
  | Cancel now =>
    simp only [ScheduleService.call]
    rw [cancelVisit_quiet now scheduleID w hq]
    cases hs : w.scheduleOf scheduleID with
    | none => simp [World.log, hq]
    | some row =>
      by_cases hbad : row.Status ≠ "scheduled" ∧ row.Status ≠ "in_progress"
      · simp only [if_pos hbad]; simp [World.log, hq]
      · simp only [if_neg hbad]
        by_cases hin : row.Status = "in_progress"
        · simp only [if_pos hin]
          cases hv : w.visitOf scheduleID with
          | none => simp [hq]
          | some visit =>
            by_cases hvs : visit.Status = "in_progress"
            · simp [hvs, hq, Except.toBool]
            · simp [hvs, hq]
        · simp only [if_neg hin]
          simp [hq, Except.toBool]

theorem toBool_eq_true (r : Except String Unit) : r.toBool = true ↔ r = .ok () := by
  cases r <;> simp [Except.toBool]

theorem startVisit_ok_state (w : World) (now : Time) (scheduleID : Int)
    (req : VisitStartRequest)
    (hok : (ScheduleService.StartVisit now scheduleID req w).1 = .ok ()) :
    (ScheduleService.StartVisit now scheduleID req w).2.started scheduleID = true ∧
    (ScheduleService.StartVisit now scheduleID req w).2.statusOf scheduleID =
      some "in_progress" := by
  obtain ⟨row, visit, hs, -, hv, hvs, hss⟩ := (startVisit_spec now scheduleID req w).2.1 hok
  exact ⟨by rw [started_after w _ now scheduleID visit
      (visit.started now req.Latitude req.Longitude) hv rfl hvs]; rfl,
    statusOf_after w _ now scheduleID row _ hs hss⟩

theorem endVisit_ok_state (w : World) (now : Time) (scheduleID : Int) (req : VisitEndRequest)
    (hok : (ScheduleService.EndVisit now scheduleID req w).1 = .ok ()) :
    w.started scheduleID = true ∧
    (ScheduleService.EndVisit now scheduleID req w).2.started scheduleID = true ∧
    (ScheduleService.EndVisit now scheduleID req w).2.statusOf scheduleID =
      some "completed" := by
  obtain ⟨row, visit, hs, hv, hst, hvs, hss⟩ := (endVisit_spec now scheduleID req w).2.1 hok
  refine ⟨(started_iff w scheduleID).2 ⟨visit, hv, hst⟩, ?_,
    statusOf_after w _ now scheduleID row _ hs hss⟩
  rw [started_after w _ now scheduleID visit
    (visit.ended now req.Latitude req.Longitude req.Notes) hv rfl hvs]
  cases h : visit.StartTime with
  | none => exact absurd h hst
  | some t => simp [Visit.ended, h]

theorem cancelVisit_ok_state (w : World) (now : Time) (scheduleID : Int)
    (hok : (ScheduleService.CancelVisit now scheduleID w).1 = .ok ()) :
    (ScheduleService.CancelVisit now scheduleID w).2.started scheduleID = false ∨
    (w.statusOf scheduleID = some "scheduled" ∧
      (ScheduleService.CancelVisit now scheduleID w).2.visits = w.visits) := by
  obtain ⟨row, hs, hcase, -⟩ := (cancelVisit_spec now scheduleID w).2.1 hok
  rcases hcase with ⟨-, visit, hv, -, hvs⟩ | ⟨hsch, hvs⟩
  · left
    rw [started_after w _ now scheduleID visit visit.cancelled hv rfl hvs]
    rfl
  · right
    refine ⟨?_, hvs⟩
    unfold World.statusOf
    rw [hs]
    simp [hsch]

theorem startedIn_snoc_start (acc : List (Op × Bool)) (s : Op) (hs : s.isStart = true) :
    StartedIn (acc ++ [(s, true)]) :=
  ⟨acc, s, [], rfl, hs, by simp⟩

theorem startedIn_snoc (acc : List (Op × Bool)) (x : Op × Bool) (h : StartedIn acc)
    (hx : ¬ (x.1.isCancel = true ∧ x.2 = true)) : StartedIn (acc ++ [x]) := by
  obtain ⟨before, s, after, hacc, hs, hno⟩ := h
  refine ⟨before, s, after ++ [x], by rw [hacc]; simp, hs, ?_⟩
  intro y hy
  rcases List.mem_append.1 hy with h1 | h1
  · exact hno y h1
  · rw [List.mem_singleton.1 h1]
    exact hx

theorem endsFollowStarts_snoc (acc : List (Op × Bool)) (x : Op × Bool)
    (h : EndsFollowStarts acc)
    (hx : x.1.isEnd = true → x.2 = true → StartedIn acc) :
    EndsFollowStarts (acc ++ [x]) := by
  intro before e after heq he
  rcases List.eq_nil_or_concat after with hnil | ⟨L, b, hL⟩
  · subst hnil
    have h2 := List.append_inj' heq rfl
    obtain ⟨h3, h4⟩ := h2
    simp only [List.cons.injEq, and_true] at h4
    subst h3
    rw [h4] at hx
    exact hx he rfl
  · subst hL
    have heq2 : acc ++ [x] = (before ++ (e, true) :: L) ++ [b] := by
      rw [heq]; simp
    have h2 := List.append_inj' heq2 rfl
    exact h before e L h2.1 he

theorem run_endsFollowStarts (scheduleID : Int) :
    ∀ (ops : List Op) (w : World) (acc : List (Op × Bool)), w.faults = [] →
      (w.started scheduleID = true →
        StartedIn acc ∧ w.statusOf scheduleID ≠ some "scheduled") →
      EndsFollowStarts acc →
      EndsFollowStarts (acc ++ (ScheduleService.run scheduleID ops w).1) := by
  intro ops
  induction ops with
  | nil =>
    intro w acc _ _ hacc
    simpa [ScheduleService.run] using hacc
  | cons op ops ih =>
    intro w acc hq hinv hacc
    obtain ⟨hq1, hfail⟩ := call_quiet w scheduleID op hq
    have hrun : acc ++ (ScheduleService.run scheduleID (op :: ops) w).1 =
        (acc ++ [(op, (ScheduleService.call scheduleID op w).1.toBool)]) ++
          (ScheduleService.run scheduleID ops (ScheduleService.call scheduleID op w).2).1 := by
      simp [ScheduleService.run]
    rw [hrun]
    apply ih _ _ hq1
    · intro hst1
      cases hb : (ScheduleService.call scheduleID op w).1.toBool with
      | false =>
        obtain ⟨hv, hs⟩ := hfail hb
        rw [started_congr w _ scheduleID hv] at hst1
        rw [statusOf_congr w _ scheduleID hs]
        obtain ⟨h1, h2⟩ := hinv hst1
        exact ⟨startedIn_snoc acc _ h1 (by simp), h2⟩
      | true =>
        have hok := (toBool_eq_true _).1 hb
        cases op with
        | Start now req =>
          obtain ⟨-, h2⟩ := startVisit_ok_state w now scheduleID req hok
          refine ⟨startedIn_snoc_start acc _ rfl, ?_⟩
          simp only [ScheduleService.call]
          rw [h2]
          decide
        | End now req =>
          obtain ⟨h0, -, h2⟩ := endVisit_ok_state w now scheduleID req hok
          refine ⟨startedIn_snoc acc _ (hinv h0).1 (by simp [Op.isCancel]), ?_⟩
          simp only [ScheduleService.call]
          rw [h2]
          decide
        | Cancel now =>
          rcases cancelVisit_ok_state w now scheduleID hok with h1 | ⟨h1, h2⟩
          · simp only [ScheduleService.call] at hst1
            rw [h1] at hst1
            cases hst1
          · simp only [ScheduleService.call] at hst1
            rw [started_congr w _ scheduleID h2] at hst1
            exact absurd h1 (hinv hst1).2
    · apply endsFollowStarts_snoc acc _ hacc
      intro he hb
      have hok := (toBool_eq_true _).1 hb
      cases op with
      | Start now req => cases he
      | End now req => exact (hinv (endVisit_ok_state w now scheduleID req hok).1).1
      | Cancel now => cases he

theorem call_keeps_start (w : World) (scheduleID : Int) (op : Op)
    (hK : ∀ v, w.visitOf scheduleID = some v → v.Status = "completed" → v.StartTime ≠ none) :
    ∀ v, (ScheduleService.call scheduleID op w).2.visitOf scheduleID = some v →
      v.Status = "completed" → v.StartTime ≠ none := by
  intro v hv hc
  cases op with
  | Start now req =>
    simp only [ScheduleService.call] at hv
    rcases (startVisit_spec now scheduleID req w).2.2.1 with h | ⟨visit, hvis, hvs⟩
    · exact hK v (by unfold World.visitOf at hv ⊢; rw [← h]; exact hv) hc
    · unfold World.visitOf at hv
      rw [visitOf_after_update w now scheduleID visit
        (visit.started now req.Latitude req.Longitude) _ hvis rfl hvs] at hv
      cases hv
      simp [Visit.started] at hc
  | End now req =>
    simp only [ScheduleService.call] at hv
    rcases (endVisit_spec now scheduleID req w).2.2.1 with h | ⟨visit, hvis, hst, hvs⟩
    · exact hK v (by unfold World.visitOf at hv ⊢; rw [← h]; exact hv) hc
    · unfold World.visitOf at hv
      rw [visitOf_after_update w now scheduleID visit
        (visit.ended now req.Latitude req.Longitude req.Notes) _ hvis rfl hvs] at hv
      cases hv
      exact hst
  | Cancel now =>
    simp only [ScheduleService.call] at hv
    rcases (cancelVisit_spec now scheduleID w).2.2.1 with h | ⟨visit, hvis, hvs⟩
    · exact hK v (by unfold World.visitOf at hv ⊢; rw [← h]; exact hv) hc
    · unfold World.visitOf at hv
      rw [visitOf_after_update w now scheduleID visit visit.cancelled _ hvis rfl hvs] at hv
      cases hv
      simp [Visit.cancelled] at hc

theorem run_keeps_start (scheduleID : Int) :
    ∀ (ops : List Op) (w : World),
      (∀ v, w.visitOf scheduleID = some v → v.Status = "completed" → v.StartTime ≠ none) →
      ∀ v, (ScheduleService.run scheduleID ops w).2.visitOf scheduleID = some v →
        v.Status = "completed" → v.StartTime ≠ none := by
  intro ops
  induction ops with
  | nil =>
    intro w hK
    simpa [ScheduleService.run] using hK
  | cons op ops ih =>
    intro w hK
    have h := ih (ScheduleService.call scheduleID op w).2
      (call_keeps_start w scheduleID op hK)
    simpa [ScheduleService.run] using h

/-- C5 as stated fails: on the sample database, whose visit has no start time, with a driver
that reports `database is locked` on the fourth statement, the Start at minute 590 writes the
visit and then fails on the schedule update, and the End at minute 660 succeeds although no
successful Start precedes it. -/
theorem C5_end_without_successful_start :
    (∀ v, lockedWorld.visitOf 1 = some v → v.StartTime = none) ∧
    (ScheduleService.run 1
      [Op.Start (590 * Minute) ⟨40, -74⟩, Op.End (660 * Minute) ⟨40, -74, "done"⟩]
      lockedWorld).1 =
      [(Op.Start (590 * Minute) ⟨40, -74⟩, false),
       (Op.End (660 * Minute) ⟨40, -74, "done"⟩, true)] ∧
    ¬ EndsFollowStarts (ScheduleService.run 1
      [Op.Start (590 * Minute) ⟨40, -74⟩, Op.End (660 * Minute) ⟨40, -74, "done"⟩]
      lockedWorld).1 := by
  have hrun : (ScheduleService.run 1
      [Op.Start (590 * Minute) ⟨40, -74⟩, Op.End (660 * Minute) ⟨40, -74, "done"⟩]
      lockedWorld).1 =
      [(Op.Start (590 * Minute) ⟨40, -74⟩, false),
       (Op.End (660 * Minute) ⟨40, -74, "done"⟩, true)] := by decide
  refine ⟨?_, hrun, ?_⟩
  · intro v hv
    have h : lockedWorld.visitOf 1 = some sampleVisit := by decide
    rw [h] at hv
    cases hv
    rfl
  · intro h
    rw [hrun] at h
    obtain ⟨before, s, after, heq, -, -⟩ :=
      h [(Op.Start (590 * Minute) ⟨40, -74⟩, false)] (Op.End (660 * Minute) ⟨40, -74, "done"⟩)
        [] rfl rfl
    cases before with
    | nil => simp at heq
    | cons x t =>
      cases t <;> simp at heq

/-- C5, amended: starting from a state in which the schedule has no visit or a visit with no
start time (and, as the Visit invariant asks of such a visit, not marked completed), when the
driver reports no error every End that succeeds in a sequence of Start, End and Cancel calls
is preceded by a successful Start with no successful Cancel between them; and whatever the
driver does, no state the sequence reaches has a completed visit without a start time. -/
theorem C5_end_follows_start (w : World) (scheduleID : Int) (ops : List Op)
    (hinit : ∀ v, w.visitOf scheduleID = some v →
      v.StartTime = none ∧ v.Status ≠ "completed") :
    (w.faults = [] → EndsFollowStarts (ScheduleService.run scheduleID ops w).1) ∧
    (∀ v, (ScheduleService.run scheduleID ops w).2.visitOf scheduleID = some v →
      v.Status = "completed" → v.StartTime ≠ none) := by
  constructor
  · intro hq
    have h := run_endsFollowStarts scheduleID ops w [] hq
      (fun hst => by
        obtain ⟨v, hv, hne⟩ := (started_iff w scheduleID).1 hst
        exact absurd (hinit v hv).1 hne)
      (fun before e after heq _ => by simp at heq)
    simpa using h
  · exact run_keeps_start scheduleID ops w (fun v hv hc => absurd hc (hinit v hv).2)

/-- C5, amended, on the sample database: Start, End, a refused Cancel and a second End. -/
theorem C5_end_follows_start_witness :
    (∀ v, sampleWorld.visitOf 1 = some v → v.StartTime = none ∧ v.Status ≠ "completed") ∧
    EndsFollowStarts (ScheduleService.run 1
      [Op.Start (590 * Minute) ⟨40, -74⟩, Op.End (660 * Minute) ⟨40, -74, "done"⟩,
       Op.Cancel (670 * Minute), Op.End (680 * Minute) ⟨40, -74, ""⟩] sampleWorld).1 :=
  have hinit : ∀ v, sampleWorld.visitOf 1 = some v →
      v.StartTime = none ∧ v.Status ≠ "completed" := fun v hv => by
    have h : sampleWorld.visitOf 1 = some sampleVisit := by decide
    rw [h] at hv
    cases hv
    exact ⟨rfl, by decide⟩
  ⟨hinit, (C5_end_follows_start sampleWorld 1 _ hinit).1 rfl⟩

/-! ## Cancel -/

/-- C6 as stated fails: with the schedule persisted as `in_progress` and the visit row
`not_started`, `CancelVisit` is refused by the guard of `visitRepository.CancelVisit` and
nothing is written. Such a state is reached from the sample database by a Start followed by a
Cancel whose schedule update meets `database is locked`: the visit is reset, the schedule
stays `in_progress`, and the next Cancel is refused. -/
theorem C6_cancel_refused_visit_not_in_progress :
    stuckWorld.statusOf 1 = some "in_progress" ∧
    ScheduleService.CancelVisit (600 * Minute) 1 stuckWorld =
      (.error "failed to cancel visit: visit is not in progress",
        { stuckWorld with trace :=
            [Call.scheduleGetByID 1, Call.visitCancelVisit 1, Call.visitGetByScheduleID 1] }) ∧
    (ScheduleService.run 1
      [Op.Start (590 * Minute) ⟨40, -74⟩, Op.Cancel (600 * Minute), Op.Cancel (610 * Minute)]
      lateLockedWorld).1 =
      [(Op.Start (590 * Minute) ⟨40, -74⟩, true), (Op.Cancel (600 * Minute), false),
       (Op.Cancel (610 * Minute), false)] ∧
    (ScheduleService.run 1 [Op.Start (590 * Minute) ⟨40, -74⟩, Op.Cancel (600 * Minute)]
      lateLockedWorld).2.statusOf 1 = some "in_progress" ∧
    ((ScheduleService.run 1 [Op.Start (590 * Minute) ⟨40, -74⟩, Op.Cancel (600 * Minute)]
      lateLockedWorld).2.visitOf 1).map (fun v => v.Status) = some "not_started" := by
  decide

/-- C6, amended: when the schedule is persisted as `in_progress`, its visit row has status
`in_progress` and the driver reports no error, `CancelVisit` succeeds; afterwards the visit
row of the schedule is the same row (same id, no row removed) with status `not_started`,
start time, end time and the four coordinates absent and notes empty, and the persisted
schedule status is `scheduled`. -/
theorem C6_cancel_in_progress (w : World) (now : Time) (scheduleID : Int) (row : ScheduleRow)
    (visit : Visit) (hq : w.faults = []) (hs : w.scheduleOf scheduleID = some row)
    (hin : row.Status = "in_progress") (hv : w.visitOf scheduleID = some visit)
    (hvin : visit.Status = "in_progress") :
    (ScheduleService.CancelVisit now scheduleID w).1 = .ok () ∧
    (∃ v, (ScheduleService.CancelVisit now scheduleID w).2.visitOf scheduleID = some v ∧
      v.Status = "not_started" ∧ v.StartTime = none ∧ v.EndTime = none ∧
      v.StartLatitude = none ∧ v.StartLongitude = none ∧ v.EndLatitude = none ∧
      v.EndLongitude = none ∧ v.Notes = "" ∧ v.ID = visit.ID ∧
      v.ScheduleID = visit.ScheduleID) ∧
    (ScheduleService.CancelVisit now scheduleID w).2.visits.length = w.visits.length ∧
    (ScheduleService.CancelVisit now scheduleID w).2.statusOf scheduleID =
      some "scheduled" := by
  have hok : (ScheduleService.CancelVisit now scheduleID w).1 = .ok () := by
    rw [cancelVisit_quiet now scheduleID w hq, hs]
    have hbad : ¬ (row.Status ≠ "scheduled" ∧ row.Status ≠ "in_progress") :=
      fun h => h.2 hin
    simp only [if_neg hbad, if_pos hin, hv]
    simp [hvin]
  obtain ⟨row2, hs2, hcase, hss⟩ := (cancelVisit_spec now scheduleID w).2.1 hok
  rw [hs] at hs2
  cases hs2
  have hvs : (ScheduleService.CancelVisit now scheduleID w).2.visits =
      w.visits.map (visitRepository.updateRow now visit.cancelled) := by
    rcases hcase with ⟨-, visit2, hv2, -, h⟩ | ⟨hsch, -⟩
    · rw [hv] at hv2
      cases hv2
      exact h
    · rw [hin] at hsch
      exact absurd hsch (by decide)
  refine ⟨hok, ⟨_, visitOf_after_update w now scheduleID visit visit.cancelled _ hv rfl hvs,
    rfl, rfl, rfl, rfl, rfl, rfl, rfl, rfl, rfl, rfl⟩, ?_,
    statusOf_after w _ now scheduleID row "scheduled" hs hss⟩
  rw [hvs, List.length_map]

/-- C6, amended, on the sample database after a Start: the Cancel at minute 600 succeeds. -/
theorem C6_cancel_in_progress_witness :
    startedWorld.faults = [] ∧
    startedWorld.scheduleOf 1 = some { sampleSchedule with Status := "in_progress" } ∧
    (ScheduleService.CancelVisit (600 * Minute) 1 startedWorld).1 = .ok () ∧
    (ScheduleService.CancelVisit (600 * Minute) 1 startedWorld).2.statusOf 1 =
      some "scheduled" :=
  have h := C6_cancel_in_progress startedWorld (600 * Minute) 1
    { sampleSchedule with Status := "in_progress" }
    { sampleVisit with StartTime := some (590 * Minute), StartLatitude := some 40,
                       StartLongitude := some (-74), Status := "in_progress",
                       Notes := "arrived" } rfl (by decide) rfl (by decide) rfl
  ⟨rfl, by decide, h.1, h.2.2.2⟩

/-- C7 as stated fails: Cancel on the sample schedule, persisted as `scheduled` with
`updated_at` 0, succeeds at minute 590 and leaves the row with `updated_at` stamped to
minute 590, so not every other field is unchanged. -/
theorem C7_cancel_scheduled_stamps_updated_at :
    sampleWorld.scheduleOf 1 = some sampleSchedule ∧ sampleSchedule.Status = "scheduled" ∧
    sampleSchedule.UpdatedAt = 0 ∧
    (ScheduleService.CancelVisit (590 * Minute) 1 sampleWorld).1 = .ok () ∧
    ((ScheduleService.CancelVisit (590 * Minute) 1 sampleWorld).2.scheduleOf 1).map
      (fun r => r.UpdatedAt) = some (590 * Minute) ∧
    (ScheduleService.CancelVisit (590 * Minute) 1 sampleWorld).2.scheduleOf 1 ≠
      some sampleSchedule := by
  decide

/-- C7, amended: when the schedule is persisted as `scheduled` and the driver reports no
error, `CancelVisit` succeeds; its only repository calls are the schedule lookup and the
schedule update, so no call reads or writes the visit and the visit rows are unchanged; and
the schedule row afterwards has status `scheduled` and every other field as before except
`updated_at`, which the `UPDATE` statement sets to the current time. -/
theorem C7_cancel_scheduled (w : World) (now : Time) (scheduleID : Int) (row : ScheduleRow)
    (hq : w.faults = []) (hs : w.scheduleOf scheduleID = some row)
    (hsch : row.Status = "scheduled") :
    (ScheduleService.CancelVisit now scheduleID w).1 = .ok () ∧
    (ScheduleService.CancelVisit now scheduleID w).2.callsSince w =
      [Call.scheduleGetByID scheduleID,
       Call.scheduleUpdate { scanSchedule row with Status := "scheduled" }] ∧
    (∀ c ∈ (ScheduleService.CancelVisit now scheduleID w).2.callsSince w, c.onVisit = false) ∧
    (ScheduleService.CancelVisit now scheduleID w).2.visits = w.visits ∧
    (ScheduleService.CancelVisit now scheduleID w).2.scheduleOf scheduleID =
      some { row with UpdatedAt := now } := by
  have hbad : ¬ (row.Status ≠ "scheduled" ∧ row.Status ≠ "in_progress") :=
    fun h => h.1 hsch
  have hin : ¬ row.Status = "in_progress" := by rw [hsch]; decide
  have heq := cancelVisit_quiet now scheduleID w hq
  rw [hs] at heq
  simp only [if_neg hbad, if_neg hin] at heq
  rw [heq]
  refine ⟨rfl, by simp [World.callsSince], ?_, rfl, ?_⟩
  · intro c hc
    simp [World.callsSince] at hc
    rcases hc with h | h <;> rw [h] <;> rfl
  · unfold World.scheduleOf
    rw [scheduleOf_after_update w now scheduleID row "scheduled" _ hs rfl]
    congr 1
    cases row
    simp at hsch ⊢
    exact hsch.symm

/-- C7, amended, on the sample database: the Cancel at minute 590 touches no visit. -/
theorem C7_cancel_scheduled_witness :
    sampleWorld.faults = [] ∧ sampleWorld.scheduleOf 1 = some sampleSchedule ∧
    sampleSchedule.Status = "scheduled" ∧
    (ScheduleService.CancelVisit (590 * Minute) 1 sampleWorld).1 = .ok () ∧
    (ScheduleService.CancelVisit (590 * Minute) 1 sampleWorld).2.visits =
      sampleWorld.visits ∧
    (ScheduleService.CancelVisit (590 * Minute) 1 sampleWorld).2.scheduleOf 1 =
      some { sampleSchedule with UpdatedAt := 590 * Minute } :=
  have h := C7_cancel_scheduled sampleWorld (590 * Minute) 1 sampleSchedule rfl (by decide) rfl
  ⟨rfl, by decide, rfl, h.1, h.2.2.2.1, h.2.2.2.2⟩

/-- C8: when the schedule exists with a status other than `scheduled` and `in_progress`
(such as `completed` or `missed`) and the schedule lookup meets no driver error,
`CancelVisit` fails with `visit cannot be cancelled in status: <status>`; the lookup is its
only repository call and the world is otherwise unchanged, so neither the visit nor the
schedule is written. -/
theorem C8_cancel_invalid_transition (w : World) (now : Time) (scheduleID : Int)
    (row : ScheduleRow) (hq : w.faults = []) (hs : w.scheduleOf scheduleID = some row)
    (h1 : row.Status ≠ "scheduled") (h2 : row.Status ≠ "in_progress") :
    ScheduleService.CancelVisit now scheduleID w =
      (.error ("visit cannot be cancelled in status: " ++ row.Status),
        { w with trace := w.trace ++ [Call.scheduleGetByID scheduleID] }) ∧
    (ScheduleService.CancelVisit now scheduleID w).2.visits = w.visits ∧
    (ScheduleService.CancelVisit now scheduleID w).2.schedules = w.schedules ∧
    (∀ c ∈ (ScheduleService.CancelVisit now scheduleID w).2.callsSince w,
      c.isWrite = false) := by
  have heq := cancelVisit_quiet now scheduleID w hq
  rw [hs] at heq
  simp only [if_pos (And.intro h1 h2)] at heq
  rw [heq]
  refine ⟨rfl, rfl, rfl, ?_⟩
  intro c hc
  simp [World.callsSince, World.log] at hc
  rw [hc]
  rfl

/-- C8, on the sample schedule persisted as `completed`. -/
theorem C8_cancel_invalid_transition_witness :
    ({ sampleWorld with schedules := [{ sampleSchedule with Status := "completed" }] } :
      World).faults = [] ∧
    ScheduleService.CancelVisit (800 * Minute) 1
        { sampleWorld with schedules := [{ sampleSchedule with Status := "completed" }] } =
      (.error "visit cannot be cancelled in status: completed",
        { sampleWorld with schedules := [{ sampleSchedule with Status := "completed" }],
                           trace := [Call.scheduleGetByID 1] }) :=
  ⟨rfl, (C8_cancel_invalid_transition
    { sampleWorld with schedules := [{ sampleSchedule with Status := "completed" }] }
    (800 * Minute) 1 { sampleSchedule with Status := "completed" } rfl (by decide)
    (by decide) (by decide)).1⟩



/-! ## Reading schedules -/

theorem callsSince_append (w w1 : World) (calls : List Call)
    (h : w1.trace = w.trace ++ calls) : w1.callsSince w = calls := by
  simp [World.callsSince, h]

theorem nextFault_cases (w : World) :
    (∃ e w1, w.nextFault = (some e, w1) ∧ w1.schedules = w.schedules ∧
      w1.visits = w.visits ∧ w1.tasks = w.tasks ∧ w1.trace = w.trace) ∨
    (∃ w1, w.nextFault = (none, w1) ∧ w1.schedules = w.schedules ∧
      w1.visits = w.visits ∧ w1.tasks = w.tasks ∧ w1.trace = w.trace ∧
      (w.faults = [] → w1.faults = [])) := by
  unfold World.nextFault
  cases hf : w.faults with
  | nil => exact Or.inr ⟨w, rfl, rfl, rfl, rfl, rfl, fun _ => hf⟩
  | cons f fs =>
    cases f with
    | none => exact Or.inr ⟨_, rfl, rfl, rfl, rfl, rfl, fun h => by cases h⟩
    | some e => exact Or.inl ⟨e, _, rfl, rfl, rfl, rfl, rfl⟩

theorem page_mem (filter : Option ScheduleFilter) (l out : List ScheduleRow)
    (h : scheduleRepository.page filter l = some out) : ∀ x ∈ out, x ∈ l := by
  intro x hx
  unfold scheduleRepository.page at h
  split at h
  · cases h; exact hx
  · split at h
    · cases h; exact hx
    · cases h
    · cases h
      split at hx
      · exact hx
      · exact List.mem_of_mem_take hx
    · cases h
      split at hx
      · exact List.mem_of_mem_drop hx
      · exact List.mem_of_mem_drop (List.mem_of_mem_take hx)

theorem updateScheduleStatus_eq (now : Time) (schedule : Schedule) :
    ScheduleService.updateScheduleStatus now schedule =
      { schedule with Status := derivedStatus now schedule.EndTime schedule.Visit } := by
  unfold ScheduleService.updateScheduleStatus derivedStatus
  cases hv : schedule.Visit with
  | none =>
    by_cases ht : schedule.EndTime < now
    · simp [ht]
    · simp [ht]
  | some v =>
    by_cases h1 : v.Status = "completed"
    · simp [h1]
    · by_cases h2 : v.Status = "in_progress"
      · simp [h2]
      · by_cases ht : schedule.EndTime < now
        · cases hst : v.StartTime <;> simp [h1, h2, ht, hst]
        · simp [h1, h2, ht]

/-- C9: `updateScheduleStatus` sets the status to `completed` if the visit exists with status
`completed`; else to `in_progress` if the visit exists with status `in_progress`; else to
`missed` if `now` is strictly after the end time and the visit is absent or has no start
time; else to `scheduled`. At `now` equal to the end time the result is never `missed`. -/
theorem C9_updateScheduleStatus (now : Time) (schedule : Schedule) :
    (ScheduleService.updateScheduleStatus now schedule).Status =
      (match schedule.Visit with
        | some v =>
          if v.Status = "completed" then "completed"
          else if v.Status = "in_progress" then "in_progress"
          else if schedule.EndTime < now ∧ v.StartTime = none then "missed"
          else "scheduled"
        | none => if schedule.EndTime < now then "missed" else "scheduled") ∧
    (ScheduleService.updateScheduleStatus schedule.EndTime schedule).Status ≠ "missed" := by
  rw [updateScheduleStatus_eq, updateScheduleStatus_eq]
  refine ⟨rfl, ?_⟩
  show derivedStatus schedule.EndTime schedule.EndTime schedule.Visit ≠ "missed"
  unfold derivedStatus
  cases schedule.Visit with
  | none => simp
  | some v =>
    simp only [lt_irrefl, false_and, if_false]
    split
    · decide
    · split <;> decide

theorem columns_scanSchedule (row : ScheduleRow) :
    (scanSchedule row).columns = scanSchedule row := rfl

theorem nextBreak_eq (w : World) :
    w.nextBreak = (w.breaks.head?.join, { w with breaks := w.breaks.drop 1 }) := by
  unfold World.nextBreak
  cases hb : w.breaks with
  | nil =>
    cases w
    simp only at hb
    subst hb
    rfl
  | cons b bs => rfl

theorem matchesFilter_congr (w w1 : World) (h : w1.rewritten = w.rewritten) :
    scheduleRepository.matchesFilter w1 = scheduleRepository.matchesFilter w := by
  funext filter r
  simp only [scheduleRepository.matchesFilter, World.startDate, h]

theorem collected_mem {α : Type} (rows : List α) (b : Option Nat) :
    ∀ x ∈ collected rows b, x ∈ rows := by
  intro x hx
  cases b with
  | none => exact hx
  | some k => exact List.mem_of_mem_take hx

theorem scheduleGetAll_eq (filter : Option ScheduleFilter) (w : World) :
    scheduleRepository.GetAll filter w =
      match w.outcome 0 with
      | some e =>
        (.error ("failed to query schedules: " ++ e),
          { w with faults := w.faults.drop 1, trace := w.trace ++ [Call.scheduleGetAll filter] })
      | none =>
        match scheduleRepository.page filter
            ((w.schedules.filter (scheduleRepository.matchesFilter w filter)).mergeSort
              (fun a b => decide (a.StartTime ≤ b.StartTime))) with
        | none =>
          (.error "failed to query schedules: near \"OFFSET\": syntax error",
            { w with faults := w.faults.drop 1,
                     trace := w.trace ++ [Call.scheduleGetAll filter] })
        | some rows =>
          (.ok ((collected rows w.breaks.head?.join).map scanSchedule),
            { w with faults := w.faults.drop 1,
                     trace := w.trace ++ [Call.scheduleGetAll filter],
                     breaks := w.breaks.drop 1 }) := by
  unfold scheduleRepository.GetAll
  rw [nextFault_outcome]
  have o0 : (w.log (Call.scheduleGetAll filter)).outcome 0 = w.outcome 0 := rfl
  rw [o0]
  cases w.outcome 0 with
  | some e => rfl
  | none =>
    simp only [World.log, nextBreak_eq]
    rw [matchesFilter_congr w
      { w with faults := w.faults.drop 1, trace := w.trace ++ [Call.scheduleGetAll filter] } rfl]

theorem visitGet_eq (scheduleID : Int) (w : World) :
    visitRepository.GetByScheduleID scheduleID w =
      match w.outcome 0 with
      | some e =>
        (.error ("failed to get visit: " ++ e),
          { w with faults := w.faults.drop 1,
                   trace := w.trace ++ [Call.visitGetByScheduleID scheduleID] })
      | none =>
        (.ok (w.visitOf scheduleID),
          { w with faults := w.faults.drop 1,
                   trace := w.trace ++ [Call.visitGetByScheduleID scheduleID] }) := by
  unfold visitRepository.GetByScheduleID
  rw [nextFault_outcome]
  have o0 : (w.log (Call.visitGetByScheduleID scheduleID)).outcome 0 = w.outcome 0 := rfl
  rw [o0]
  cases w.outcome 0 <;> rfl

theorem taskGet_eq (scheduleID : Int) (w : World) :
    taskRepository.GetByScheduleID scheduleID w =
      match w.outcome 0 with
      | some e =>
        (.error ("failed to query tasks: " ++ e),
          { w with faults := w.faults.drop 1,
                   trace := w.trace ++ [Call.taskGetByScheduleID scheduleID] })
      | none =>
        (.ok (collected ((w.tasks.filter (fun t => t.ScheduleID == scheduleID)).mergeSort
            (fun a b => decide (a.CreatedAt ≤ b.CreatedAt))) w.breaks.head?.join),
          { w with faults := w.faults.drop 1,
                   trace := w.trace ++ [Call.taskGetByScheduleID scheduleID],
                   breaks := w.breaks.drop 1 }) := by
  unfold taskRepository.GetByScheduleID
  rw [nextFault_outcome]
  have o0 : (w.log (Call.taskGetByScheduleID scheduleID)).outcome 0 = w.outcome 0 := rfl
  rw [o0]
  cases w.outcome 0 with
  | some e => rfl
  | none =>
    simp only []
    rw [nextBreak_eq]
    rfl


theorem outcome_nil (w : World) (k : Nat) (h : w.faults = []) : w.outcome k = none := by
  simp [World.outcome, h]

theorem enrichSchedule_spec (schedule : Schedule) (w : World) :
    (ScheduleService.enrichSchedule schedule w).2.2.schedules = w.schedules ∧
    (ScheduleService.enrichSchedule schedule w).2.2.visits = w.visits ∧
    (ScheduleService.enrichSchedule schedule w).2.2.tasks = w.tasks ∧
    (∃ calls, (ScheduleService.enrichSchedule schedule w).2.2.trace = w.trace ++ calls ∧
      ∀ c ∈ calls, c.isWrite = false) ∧
    (ScheduleService.enrichSchedule schedule w).2.1.columns = schedule.columns ∧
    ((ScheduleService.enrichSchedule schedule w).2.1.Visit = schedule.Visit ∨
      (ScheduleService.enrichSchedule schedule w).2.1.Visit = w.visitOf schedule.ID) ∧
    (w.faults = [] → (ScheduleService.enrichSchedule schedule w).2.2.faults = [] ∧
      (ScheduleService.enrichSchedule schedule w).2.1.Visit = w.visitOf schedule.ID) := by
  unfold ScheduleService.enrichSchedule
  rw [visitGet_eq]
  cases ho : w.outcome 0 with
  | some e =>
    refine ⟨rfl, rfl, rfl, ⟨_, rfl, by simp [Call.isWrite]⟩, rfl, Or.inl rfl, fun hq => ?_⟩
    rw [outcome_nil w 0 hq] at ho
    cases ho
  | none =>
    simp only []
    rw [taskGet_eq]
    cases ho1 : World.outcome
        { w with faults := w.faults.drop 1,
                 trace := w.trace ++ [Call.visitGetByScheduleID schedule.ID] } 0 with
    | some e =>
      refine ⟨rfl, rfl, rfl, ⟨[Call.visitGetByScheduleID schedule.ID,
        Call.taskGetByScheduleID schedule.ID], by simp, by simp [Call.isWrite]⟩, rfl,
        Or.inr rfl, fun hq => ⟨by simp [hq], rfl⟩⟩
    | none =>
      refine ⟨rfl, rfl, rfl, ⟨[Call.visitGetByScheduleID schedule.ID,
        Call.taskGetByScheduleID schedule.ID], by simp, by simp [Call.isWrite]⟩, rfl,
        Or.inr rfl, fun hq => ⟨by simp [hq], rfl⟩⟩

theorem enrichAll_spec :
    ∀ (l : List Schedule) (w : World),
      (ScheduleService.enrichAll l w).2.schedules = w.schedules ∧
      (ScheduleService.enrichAll l w).2.visits = w.visits ∧
      (ScheduleService.enrichAll l w).2.tasks = w.tasks ∧
      (∃ calls, (ScheduleService.enrichAll l w).2.trace = w.trace ++ calls ∧
        ∀ c ∈ calls, c.isWrite = false) ∧
      (ScheduleService.enrichAll l w).1.map Schedule.columns = l.map Schedule.columns ∧
      (∀ s ∈ (ScheduleService.enrichAll l w).1, ∃ r ∈ l, s.columns = r.columns ∧
        (s.Visit = r.Visit ∨ s.Visit = w.visitOf r.ID)) ∧
      (w.faults = [] → (ScheduleService.enrichAll l w).2.faults = [] ∧
        (ScheduleService.enrichAll l w).1.map (fun s => (s.columns, s.Visit)) =
          l.map (fun s => (s.columns, w.visitOf s.ID))) := by
  intro l
  induction l with
  | nil =>
    intro w
    exact ⟨rfl, rfl, rfl, ⟨[], by simp [ScheduleService.enrichAll], by simp⟩, rfl,
      fun s hs => by simp [ScheduleService.enrichAll] at hs, fun hq => ⟨hq, rfl⟩⟩
  | cons schedule rest ih =>
    intro w
    obtain ⟨e1, e2, e3, ⟨c1, e4, e4w⟩, e5, e7, e6⟩ := enrichSchedule_spec schedule w
    rcases he : ScheduleService.enrichSchedule schedule w with ⟨r, schedule1, w1⟩
    rw [he] at e1 e2 e3 e4 e5 e6 e7
    simp only at e1 e2 e3 e4 e5 e6 e7
    obtain ⟨i1, i2, i3, ⟨c2, i4, i4w⟩, i5, i7, i6⟩ := ih w1
    rcases hr : ScheduleService.enrichAll rest w1 with ⟨rest1, w2⟩
    rw [hr] at i1 i2 i3 i4 i5 i6 i7
    simp only at i1 i2 i3 i4 i5 i6 i7
    have hall : ScheduleService.enrichAll (schedule :: rest) w = (schedule1 :: rest1, w2) := by
      simp [ScheduleService.enrichAll, he, hr]
    have hvo : ∀ id, w1.visitOf id = w.visitOf id := by
      intro id
      simp only [World.visitOf, e2]
    rw [hall]
    refine ⟨by rw [i1, e1], by rw [i2, e2], by rw [i3, e3], ⟨c1 ++ c2, ?_, ?_⟩, ?_, ?_, ?_⟩
    · show w2.trace = _
      rw [i4, e4, List.append_assoc]
    · intro c hc
      rcases List.mem_append.1 hc with h | h
      · exact e4w c h
      · exact i4w c h
    · show (schedule1 :: rest1).map Schedule.columns = _
      simp only [List.map_cons, e5, i5]
    · intro s hs
      rcases List.mem_cons.1 hs with h | h
      · subst h
        exact ⟨schedule, List.mem_cons_self _ _, e5, e7⟩
      · obtain ⟨r0, hr0, hc0, hv0⟩ := i7 s h
        rw [hvo] at hv0
        exact ⟨r0, List.mem_cons_of_mem _ hr0, hc0, hv0⟩
    · intro hq
      obtain ⟨q1, q2⟩ := e6 hq
      obtain ⟨q3, q4⟩ := i6 q1
      refine ⟨q3, ?_⟩
      show (schedule1 :: rest1).map _ = _
      simp only [List.map_cons, q4, e5, q2, hvo]


theorem scheduleGetAll_rows (filter : Option ScheduleFilter) (w : World)
    (rows : List Schedule) (w1 : World)
    (h : scheduleRepository.GetAll filter w = (.ok rows, w1)) :
    w1.schedules = w.schedules ∧ w1.visits = w.visits ∧ w1.tasks = w.tasks ∧
    w1.trace = w.trace ++ [Call.scheduleGetAll filter] ∧
    (w.faults = [] → w1.faults = []) ∧
    ∀ r ∈ rows, ∃ row ∈ w.schedules, r = scanSchedule row ∧
      scheduleRepository.matchesFilter w filter row = true := by
  rw [scheduleGetAll_eq] at h
  cases ho : w.outcome 0 with
  | some e => rw [ho] at h; cases h
  | none =>
    rw [ho] at h
    simp only [] at h
    cases hp : scheduleRepository.page filter
        ((w.schedules.filter (scheduleRepository.matchesFilter w filter)).mergeSort
          (fun a b => decide (a.StartTime ≤ b.StartTime))) with
    | none => rw [hp] at h; cases h
    | some rows0 =>
      rw [hp] at h
      simp only [Prod.mk.injEq, Except.ok.injEq] at h
      obtain ⟨rfl, rfl⟩ := h
      refine ⟨rfl, rfl, rfl, rfl, fun hq => by simp [hq], fun r hr => ?_⟩
      obtain ⟨row, hrow, rfl⟩ := List.mem_map.1 hr
      have hmem := page_mem filter _ rows0 hp row (collected_mem rows0 _ row hrow)
      rw [List.mem_mergeSort] at hmem
      exact ⟨row, (List.mem_filter.1 hmem).1, rfl, (List.mem_filter.1 hmem).2⟩

theorem getToday_rows (now : Time) (caregiverID : Int) (w : World)
    (rows : List Schedule) (w1 : World)
    (h : scheduleRepository.GetToday now caregiverID w = (.ok rows, w1)) :
    w1.schedules = w.schedules ∧ w1.visits = w.visits ∧ w1.tasks = w.tasks ∧
    w1.trace = w.trace ++ [Call.scheduleGetToday caregiverID,
      Call.scheduleGetAll (some { CaregiverID := some caregiverID, Date := some now })] ∧
    (w.faults = [] → w1.faults = []) ∧
    ∀ r ∈ rows, ∃ row ∈ w.schedules, r = scanSchedule row ∧
      row.CaregiverID = caregiverID ∧ row.ID ∉ w.rewritten ∧
      DATE row.StartTime = DATE now := by
  unfold scheduleRepository.GetToday at h
  obtain ⟨g1, g2, g3, g4, g5, g6⟩ := scheduleGetAll_rows _ _ rows w1 h
  refine ⟨g1, g2, g3, by rw [g4]; simp [World.log], g5, fun r hr => ?_⟩
  obtain ⟨row, hrow, rfl, hm⟩ := g6 r hr
  refine ⟨row, hrow, rfl, ?_⟩
  simp only [scheduleRepository.matchesFilter, World.startDate, World.log, Bool.and_true,
    Bool.and_eq_true, beq_iff_eq] at hm
  obtain ⟨hc, hd⟩ := hm
  by_cases hre : row.ID ∈ w.rewritten
  · rw [if_pos hre] at hd
    cases hd
  · rw [if_neg hre] at hd
    exact ⟨hc, hre, Option.some.inj hd⟩

theorem getToday_quiet (now : Time) (caregiverID : Int) (w : World)
    (hq : w.faults = []) (hb : w.breaks = []) :
    ∃ rows w1, scheduleRepository.GetToday now caregiverID w = (.ok rows, w1) ∧
      ∀ row ∈ w.schedules, row.CaregiverID = caregiverID → row.ID ∉ w.rewritten →
        DATE row.StartTime = DATE now → scanSchedule row ∈ rows := by
  unfold scheduleRepository.GetToday
  rw [scheduleGetAll_eq]
  have ho : (w.log (Call.scheduleGetToday caregiverID)).outcome 0 = none :=
    outcome_nil _ 0 hq
  rw [ho]
  simp only [scheduleRepository.page]
  refine ⟨_, _, rfl, fun row hrow hc hre hd => ?_⟩
  have hb2 : (w.log (Call.scheduleGetToday caregiverID)).breaks = [] := hb
  rw [hb2]
  show scanSchedule row ∈ List.map scanSchedule _
  apply List.mem_map_of_mem
  show row ∈ List.mergeSort _ _
  rw [List.mem_mergeSort]
  apply List.mem_filter.2
  refine ⟨hrow, ?_⟩
  simp [scheduleRepository.matchesFilter, World.startDate, World.log, hc, hre, hd]


theorem getToday_after_update (now1 now2 : Time) (schedule : Schedule) (caregiverID : Int)
    (w w1 w2 : World) (rows : List Schedule)
    (hu : scheduleRepository.Update now1 schedule w = (.ok (), w1))
    (hg : scheduleRepository.GetToday now2 caregiverID w1 = (.ok rows, w2)) :
    ∀ r ∈ rows, r.ID ≠ schedule.ID := by
  intro r hr hid
  obtain ⟨row, -, rfl, -, hre, -⟩ := (getToday_rows now2 caregiverID w1 rows w2 hg).2.2.2.2.2 r hr
  apply hre
  have hrw : w1.rewritten = schedule.ID :: w.rewritten := by
    unfold scheduleRepository.Update at hu
    rw [nextFault_outcome] at hu
    cases ho : (w.log (Call.scheduleUpdate schedule)).outcome 0 with
    | some e => rw [ho] at hu; cases hu
    | none =>
      rw [ho] at hu
      simp only [Prod.mk.injEq, true_and] at hu
      rw [← hu]
      rfl
  rw [hrw]
  have hid2 : row.ID = schedule.ID := hid
  rw [hid2]
  exact List.mem_cons_self _ _

theorem columns_of_scan (rows : List Schedule)
    (h : ∀ r ∈ rows, ∃ row : ScheduleRow, r = scanSchedule row) :
    rows.map Schedule.columns = rows := by
  induction rows with
  | nil => rfl
  | cons r rest ih =>
    obtain ⟨row, rfl⟩ := h r (List.mem_cons_self _ _)
    rw [List.map_cons, ih (fun x hx => h x (List.mem_cons_of_mem _ hx))]
    rfl

theorem derive_pairs (now : Time) (f : Schedule → Option Visit) :
    ∀ (l rows : List Schedule),
      l.map (fun s => (s.columns, s.Visit)) = rows.map (fun r => (r.columns, f r)) →
      (l.map (ScheduleService.updateScheduleStatus now)).map (fun s => (s.columns, s.Visit)) =
        rows.map (fun r =>
          ({ r.columns with Status := derivedStatus now r.EndTime (f r) }, f r))
  | [], [], _ => rfl
  | [], _ :: _, h => by simp at h
  | _ :: _, [], h => by simp at h
  | s :: l, r :: rows, h => by
    simp only [List.map_cons, List.cons.injEq, Prod.mk.injEq] at h ⊢
    obtain ⟨⟨hc, hv⟩, ht⟩ := h
    have hend : s.EndTime = r.EndTime :=
      (congrArg Schedule.EndTime hc : s.columns.EndTime = r.columns.EndTime)
    refine ⟨⟨?_, ?_⟩, derive_pairs now f l rows ht⟩
    · rw [updateScheduleStatus_eq]
      show { s.columns with Status := derivedStatus now s.EndTime s.Visit } = _
      rw [hc, hv, hend]
    · rw [updateScheduleStatus_eq]
      exact hv

/-- C10: each schedule `scheduleRepository.GetByID` or `GetAll` returns comes back from
`GetScheduleByID` and `GetAllSchedules` with every column, the status among them, as the
repository gave it, which is as the row holds it. Each schedule `scheduleRepository.GetToday`
returns comes back from `GetTodaySchedules`, in the same order, with its columns as persisted
except the status, which is the derived status of its end time and of the visit attached to
it; the visit attached is the visit row of the schedule or none, and the visit row of the
schedule when the driver reports no error; no table changes and no writing repository method
is called. So, the driver reporting no error, a schedule the today query returns that is
persisted as `scheduled`, is past its end and has no visit row or one without a start time
(and so, by the Visit invariant, neither completed nor in progress) is reported `missed` by
`GetTodaySchedules` and `scheduled` by `GetScheduleByID`. The today query returns only rows
of the caregiver whose `start_time` is a text `DATE` reads as today, so none that
`scheduleRepository.Update` has rewritten, and it returns every such row when no statement
fails and the loop over the rows reaches the last one. -/
theorem C10_read_paths (w : World) (now : Time) :
    (∀ id schedule w1, scheduleRepository.GetByID id w = (.ok (some schedule), w1) →
      ∃ s w2, ScheduleService.GetScheduleByID id w = (.ok (some s), w2) ∧
        s.columns = schedule ∧
        ∃ row, w.scheduleOf id = some row ∧ schedule = scanSchedule row ∧
          s.Status = row.Status) ∧
    (∀ filter rows w1, scheduleRepository.GetAll filter w = (.ok rows, w1) →
      ∃ l w2, ScheduleService.GetAllSchedules filter w = (.ok l, w2) ∧
        l.map Schedule.columns = rows ∧
        ∀ s ∈ l, ∃ row ∈ w.schedules, s.columns = scanSchedule row ∧ s.Status = row.Status) ∧
    (∀ caregiverID rows w1, scheduleRepository.GetToday now caregiverID w = (.ok rows, w1) →
      ∃ l w2, ScheduleService.GetTodaySchedules now caregiverID w = (.ok l, w2) ∧
        (∃ enriched : List Schedule, enriched.map Schedule.columns = rows ∧
          l = enriched.map (ScheduleService.updateScheduleStatus now)) ∧
        (∀ s ∈ l, s.Status = derivedStatus now s.EndTime s.Visit ∧
          (s.Visit = none ∨ s.Visit = w.visitOf s.ID) ∧
          ∃ row ∈ w.schedules, { s.columns with Status := row.Status } = scanSchedule row) ∧
        (w.faults = [] → l.map (fun s => (s.columns, s.Visit)) =
          rows.map (fun r =>
            ({ r with Status := derivedStatus now r.EndTime (w.visitOf r.ID) },
              w.visitOf r.ID))) ∧
        w2.schedules = w.schedules ∧ w2.visits = w.visits ∧ w2.tasks = w.tasks ∧
        ∀ c ∈ w2.callsSince w, c.isWrite = false) ∧
    (∀ caregiverID rows w1 row, w.faults = [] →
      scheduleRepository.GetToday now caregiverID w = (.ok rows, w1) →
      scanSchedule row ∈ rows → w.scheduleOf row.ID = some row →
      row.Status = "scheduled" → row.EndTime < now →
      (∀ v, w.visitOf row.ID = some v →
        v.StartTime = none ∧ v.Status ≠ "completed" ∧ v.Status ≠ "in_progress") →
      (∃ l w2, ScheduleService.GetTodaySchedules now caregiverID w = (.ok l, w2) ∧
        ∃ s ∈ l, s.columns = { scanSchedule row with Status := "missed" }) ∧
      (∃ s w2, ScheduleService.GetScheduleByID row.ID w = (.ok (some s), w2) ∧
        s.columns = scanSchedule row ∧ s.Status = "scheduled")) ∧
    (∀ caregiverID rows w1, scheduleRepository.GetToday now caregiverID w = (.ok rows, w1) →
      ∀ r ∈ rows, ∃ row ∈ w.schedules, r = scanSchedule row ∧
        row.CaregiverID = caregiverID ∧ row.ID ∉ w.rewritten ∧
        DATE row.StartTime = DATE now) ∧
    (w.faults = [] → w.breaks = [] → ∀ caregiverID,
      ∃ rows w1, scheduleRepository.GetToday now caregiverID w = (.ok rows, w1) ∧
        ∀ row ∈ w.schedules, row.CaregiverID = caregiverID → row.ID ∉ w.rewritten →
          DATE row.StartTime = DATE now → scanSchedule row ∈ rows) := by
  have byID : ∀ id schedule w1,
      scheduleRepository.GetByID id w = (.ok (some schedule), w1) →
      ∃ s w2, ScheduleService.GetScheduleByID id w = (.ok (some s), w2) ∧
        s.columns = schedule ∧
        ∃ row, w.scheduleOf id = some row ∧ schedule = scanSchedule row ∧
          s.Status = row.Status := by
    intro id schedule w1 h
    have hres := (scheduleGetByID_spec id w).2.2.2.2.1 (some schedule) (by rw [h])
    cases hs : w.scheduleOf id with
    | none => rw [hs] at hres; cases hres
    | some row =>
      rw [hs] at hres
      simp only [Option.map_some', Option.some.injEq] at hres
      obtain ⟨-, -, -, -, e5, -, -⟩ := enrichSchedule_spec schedule w1
      refine ⟨(ScheduleService.enrichSchedule schedule w1).2.1,
        (ScheduleService.enrichSchedule schedule w1).2.2, ?_, ?_, row, rfl, hres, ?_⟩
      · unfold ScheduleService.GetScheduleByID
        rw [h]
      · rw [e5, hres]
        rfl
      · exact (congrArg Schedule.Status e5).trans (by rw [hres]; rfl)
  have today : ∀ caregiverID rows w1,
      scheduleRepository.GetToday now caregiverID w = (.ok rows, w1) →
      ∃ l w2, ScheduleService.GetTodaySchedules now caregiverID w = (.ok l, w2) ∧
        (∃ enriched : List Schedule, enriched.map Schedule.columns = rows ∧
          l = enriched.map (ScheduleService.updateScheduleStatus now)) ∧
        (∀ s ∈ l, s.Status = derivedStatus now s.EndTime s.Visit ∧
          (s.Visit = none ∨ s.Visit = w.visitOf s.ID) ∧
          ∃ row ∈ w.schedules, { s.columns with Status := row.Status } = scanSchedule row) ∧
        (w.faults = [] → l.map (fun s => (s.columns, s.Visit)) =
          rows.map (fun r =>
            ({ r with Status := derivedStatus now r.EndTime (w.visitOf r.ID) },
              w.visitOf r.ID))) ∧
        w2.schedules = w.schedules ∧ w2.visits = w.visits ∧ w2.tasks = w.tasks ∧
        ∀ c ∈ w2.callsSince w, c.isWrite = false := by
    intro caregiverID rows w1 h
    obtain ⟨g1, g2, g3, g4, g5, g6⟩ := getToday_rows now caregiverID w rows w1 h
    obtain ⟨e1, e2, e3, ⟨c2, e4, e4w⟩, e5, e7, e6⟩ := enrichAll_spec rows w1
    have hcols : rows.map Schedule.columns = rows :=
      columns_of_scan rows (fun r hr => by
        obtain ⟨row, -, hrow, -⟩ := g6 r hr
        exact ⟨row, hrow⟩)
    have hvo : ∀ id, w1.visitOf id = w.visitOf id := by
      intro id
      simp only [World.visitOf, g2]
    refine ⟨(ScheduleService.enrichAll rows w1).1.map
        (ScheduleService.updateScheduleStatus now),
      (ScheduleService.enrichAll rows w1).2, ?_, ⟨_, by rw [e5, hcols], rfl⟩, ?_, ?_,
      by rw [e1, g1], by rw [e2, g2], by rw [e3, g3], ?_⟩
    · unfold ScheduleService.GetTodaySchedules
      rw [h]
    · intro s hs
      obtain ⟨e, he, rfl⟩ := List.mem_map.1 hs
      rw [updateScheduleStatus_eq]
      obtain ⟨r, hr, hc, hv⟩ := e7 e he
      obtain ⟨row, hrow, rfl, -⟩ := g6 r hr
      refine ⟨rfl, ?_, row, hrow, ?_⟩
      · have hid : e.ID = row.ID := congrArg Schedule.ID hc
        rcases hv with hv | hv
        · exact Or.inl hv
        · refine Or.inr ?_
          show e.Visit = w.visitOf e.ID
          rw [hv, hvo, hid]
          rfl
      · show { e.columns with Status := row.Status } = scanSchedule row
        rw [hc]
        rfl
    · intro hq
      have h6 := (e6 (g5 hq)).2
      simp only [hvo] at h6
      rw [derive_pairs now (fun r => w.visitOf r.ID) _ rows h6]
      apply List.map_congr_left
      intro r hr
      obtain ⟨row, -, rfl, -⟩ := g6 r hr
      rfl
    · rw [callsSince_append w _ _ (by rw [e4, g4, List.append_assoc])]
      intro c hc
      rcases List.mem_append.1 hc with hc | hc
      · simp only [List.mem_cons, List.mem_singleton, List.not_mem_nil, or_false] at hc
        rcases hc with rfl | rfl <;> rfl
      · exact e4w c hc
  refine ⟨byID, ?_, today, ?_, fun caregiverID rows w1 h =>
      (getToday_rows now caregiverID w rows w1 h).2.2.2.2.2,
    fun hq hb caregiverID => getToday_quiet now caregiverID w hq hb⟩
  · intro filter rows w1 h
    obtain ⟨g1, g2, g3, g4, g5, g6⟩ := scheduleGetAll_rows filter w rows w1 h
    obtain ⟨-, -, -, -, e5, -, -⟩ := enrichAll_spec rows w1
    have hcols : rows.map Schedule.columns = rows :=
      columns_of_scan rows (fun r hr => by
        obtain ⟨row, -, hrow, -⟩ := g6 r hr
        exact ⟨row, hrow⟩)
    refine ⟨(ScheduleService.enrichAll rows w1).1, (ScheduleService.enrichAll rows w1).2,
      ?_, by rw [e5, hcols], fun s hs => ?_⟩
    · unfold ScheduleService.GetAllSchedules
      rw [h]
    · have hmem : s.columns ∈ rows := by
        rw [← hcols, ← e5]
        exact List.mem_map_of_mem _ hs
      obtain ⟨row, hrow, hr, -⟩ := g6 _ hmem
      exact ⟨row, hrow, hr, congrArg Schedule.Status hr⟩
  · intro caregiverID rows w1 row hq h hmem hs hsch hend hvis
    constructor
    · obtain ⟨l, w2, hl, -, -, hpairs, -⟩ := today caregiverID rows w1 h
      refine ⟨l, w2, hl, ?_⟩
      have hm2 := List.mem_map_of_mem (fun r : Schedule =>
        (({ r with Status := derivedStatus now r.EndTime (w.visitOf r.ID) } : Schedule),
          w.visitOf r.ID)) hmem
      rw [← hpairs hq] at hm2
      obtain ⟨s, hsl, hpair⟩ := List.mem_map.1 hm2
      simp only [Prod.mk.injEq] at hpair
      refine ⟨s, hsl, ?_⟩
      rw [hpair.1]
      have hd : derivedStatus now (scanSchedule row).EndTime
          (w.visitOf (scanSchedule row).ID) = "missed" := by
        show derivedStatus now row.EndTime (w.visitOf row.ID) = "missed"
        unfold derivedStatus
        cases hvo : w.visitOf row.ID with
        | none => simp [hend]
        | some v =>
          obtain ⟨v1, v2, v3⟩ := hvis v hvo
          simp [v1, v2, v3, hend]
      rw [hd]
    · have hg := (scheduleGetByID_spec row.ID w).2.2.2.2.2 hq
      rw [hs] at hg
      obtain ⟨s, w2, hsw, hc, row2, hs2, -, hst⟩ := byID row.ID _ _ hg
      rw [hs] at hs2
      cases hs2
      exact ⟨s, w2, hsw, hc, by rw [hst, hsch]⟩

/-- C10, on the sample database at minute 800, after the sample schedule has ended with its
visit never started: the today query returns the schedule, today's list reports it `missed`
and the lookup by id `scheduled`. -/
theorem C10_read_paths_witness :
    sampleWorld.faults = [] ∧ sampleWorld.breaks = [] ∧
    sampleSchedule ∈ sampleWorld.schedules ∧ sampleSchedule.ID ∉ sampleWorld.rewritten ∧
    sampleSchedule.Status = "scheduled" ∧ sampleSchedule.EndTime < 800 * Minute ∧
    (∃ l w2, ScheduleService.GetTodaySchedules (800 * Minute) 1 sampleWorld = (.ok l, w2) ∧
      ∃ s ∈ l, s.columns = { scanSchedule sampleSchedule with Status := "missed" }) ∧
    (∃ s w2, ScheduleService.GetScheduleByID 1 sampleWorld = (.ok (some s), w2) ∧
      s.columns = scanSchedule sampleSchedule ∧ s.Status = "scheduled") := by
  have hvis : ∀ v, sampleWorld.visitOf sampleSchedule.ID = some v →
      v.StartTime = none ∧ v.Status ≠ "completed" ∧ v.Status ≠ "in_progress" := fun v hv => by
    have h : sampleWorld.visitOf sampleSchedule.ID = some sampleVisit := by decide
    rw [h] at hv
    cases hv
    exact ⟨rfl, by decide, by decide⟩
  obtain ⟨rows, w1, hrows, hall⟩ :=
    (C10_read_paths sampleWorld (800 * Minute)).2.2.2.2.2 rfl rfl 1
  have hmem := hall sampleSchedule (by decide) rfl (by decide) (by decide)
  have h := (C10_read_paths sampleWorld (800 * Minute)).2.2.2.1 1 rows w1 sampleSchedule rfl
    hrows hmem (by decide) rfl (by decide) hvis
  exact ⟨rfl, rfl, by decide, by decide, rfl, by decide, h.1, h.2⟩

/-! ## Validation of visits -/

theorem validateVisit_structured (v : Visit) (h : v.Structured) :
    VisitService.validateVisit v =
      if ∃ x ∈ v.StartLatitude, x < -90 ∨ x > 90 then
        .error "start_latitude must be between -90 and 90"
      else if ∃ x ∈ v.StartLongitude, x < -180 ∨ x > 180 then
        .error "start_longitude must be between -180 and 180"
      else if ∃ x ∈ v.EndLatitude, x < -90 ∨ x > 90 then
        .error "end_latitude must be between -90 and 90"
      else if ∃ x ∈ v.EndLongitude, x < -180 ∨ x > 180 then
        .error "end_longitude must be between -180 and 180"
      else .ok () := by
  obtain ⟨h1, h2, h3, h4⟩ := h
  unfold VisitService.validateVisit
  have c1 : ¬ v.ScheduleID ≤ 0 := not_le.2 h1
  have c2 : ¬ v.Status = "" := by
    rcases h2 with h | h | h <;> rw [h] <;> decide
  rw [if_neg c1, if_neg c2, if_neg (not_not.2 h2)]
  by_cases hp : v.Status = "in_progress"
  · obtain ⟨p1, p2, p3⟩ := h3 hp
    have nc : ¬ v.Status = "completed" := by rw [hp]; decide
    rw [if_neg (by simp [p1]), if_neg (by simp [p2, p3]), if_neg (by simp [nc]),
      if_neg (by simp [nc]), if_neg (by simp [nc]), if_neg (by simp [nc]),
      if_neg (by simp [nc])]
  · by_cases hc : v.Status = "completed"
    · obtain ⟨q1, q2, q3, q4, q5, q6, q7⟩ := h4 hc
      have q8 : ¬ ∃ e ∈ v.EndTime, ∃ b ∈ v.StartTime, e < b := by
        rintro ⟨e, he, b, hb, hlt⟩
        exact absurd hlt (not_lt.2 (q7 b hb e he))
      rw [if_neg (by simp [hp]), if_neg (by simp [hp]), if_neg (by simp [q1]),
        if_neg (by simp [q2]), if_neg (by simp [q3, q4]), if_neg (by simp [q5, q6]),
        if_neg (fun h => q8 h.2)]
    · rw [if_neg (by simp [hp]), if_neg (by simp [hp]), if_neg (by simp [hc]),
        if_neg (by simp [hc]), if_neg (by simp [hc]), if_neg (by simp [hc]),
        if_neg (by simp [hc])]

theorem validateVisit_ok_structured (v : Visit) (h : VisitService.validateVisit v = .ok ()) :
    v.Structured := by
  unfold VisitService.validateVisit at h
  by_cases c1 : v.ScheduleID ≤ 0
  · rw [if_pos c1] at h; cases h
  rw [if_neg c1] at h
  by_cases c2 : v.Status = ""
  · rw [if_pos c2] at h; cases h
  rw [if_neg c2] at h
  by_cases c3 : ¬ (v.Status = "not_started" ∨ v.Status = "in_progress" ∨
      v.Status = "completed")
  · rw [if_pos c3] at h; cases h
  rw [if_neg c3] at h
  by_cases c4 : v.Status = "in_progress" ∧ v.StartTime = none
  · rw [if_pos c4] at h; cases h
  rw [if_neg c4] at h
  by_cases c5 : v.Status = "in_progress" ∧
      (v.StartLatitude = none ∨ v.StartLongitude = none)
  · rw [if_pos c5] at h; cases h
  rw [if_neg c5] at h
  by_cases c6 : v.Status = "completed" ∧ v.StartTime = none
  · rw [if_pos c6] at h; cases h
  rw [if_neg c6] at h
  by_cases c7 : v.Status = "completed" ∧ v.EndTime = none
  · rw [if_pos c7] at h; cases h
  rw [if_neg c7] at h
  by_cases c8 : v.Status = "completed" ∧
      (v.StartLatitude = none ∨ v.StartLongitude = none)
  · rw [if_pos c8] at h; cases h
  rw [if_neg c8] at h
  by_cases c9 : v.Status = "completed" ∧
      (v.EndLatitude = none ∨ v.EndLongitude = none)
  · rw [if_pos c9] at h; cases h
  rw [if_neg c9] at h
  by_cases c10 : v.Status = "completed" ∧
      (∃ e ∈ v.EndTime, ∃ b ∈ v.StartTime, e < b)
  · rw [if_pos c10] at h; cases h
  refine ⟨not_le.1 c1, not_not.1 c3, ?_, ?_⟩
  · intro hp
    refine ⟨fun hn => c4 ⟨hp, hn⟩, fun hn => c5 ⟨hp, Or.inl hn⟩,
      fun hn => c5 ⟨hp, Or.inr hn⟩⟩
  · intro hc
    refine ⟨fun hn => c6 ⟨hc, hn⟩, fun hn => c7 ⟨hc, hn⟩, fun hn => c8 ⟨hc, Or.inl hn⟩,
      fun hn => c8 ⟨hc, Or.inr hn⟩, fun hn => c9 ⟨hc, Or.inl hn⟩,
      fun hn => c9 ⟨hc, Or.inr hn⟩, ?_⟩
    intro s hs e he
    by_contra hlt
    exact c10 ⟨hc, e, he, s, hs, not_le.1 hlt⟩

theorem inRange_iff (v : Visit) :
    v.InRange ↔
      ¬ (∃ x ∈ v.StartLatitude, x < -90 ∨ x > 90) ∧
      ¬ (∃ x ∈ v.StartLongitude, x < -180 ∨ x > 180) ∧
      ¬ (∃ x ∈ v.EndLatitude, x < -90 ∨ x > 90) ∧
      ¬ (∃ x ∈ v.EndLongitude, x < -180 ∨ x > 180) := by
  unfold Visit.InRange
  simp only [not_exists, not_and, not_or, not_lt, gt_iff_lt]


theorem validateVisit_ok_iff (v : Visit) :
    VisitService.validateVisit v = .ok () ↔ v.Structured ∧ v.InRange := by
  constructor
  · intro h
    have hs := validateVisit_ok_structured v h
    refine ⟨hs, (inRange_iff v).2 ?_⟩
    rw [validateVisit_structured v hs] at h
    by_cases r1 : ∃ x ∈ v.StartLatitude, x < -90 ∨ x > 90
    · rw [if_pos r1] at h; cases h
    rw [if_neg r1] at h
    by_cases r2 : ∃ x ∈ v.StartLongitude, x < -180 ∨ x > 180
    · rw [if_pos r2] at h; cases h
    rw [if_neg r2] at h
    by_cases r3 : ∃ x ∈ v.EndLatitude, x < -90 ∨ x > 90
    · rw [if_pos r3] at h; cases h
    rw [if_neg r3] at h
    by_cases r4 : ∃ x ∈ v.EndLongitude, x < -180 ∨ x > 180
    · rw [if_pos r4] at h; cases h
    exact ⟨r1, r2, r3, r4⟩
  · rintro ⟨hs, hr⟩
    obtain ⟨r1, r2, r3, r4⟩ := (inRange_iff v).1 hr
    rw [validateVisit_structured v hs, if_neg r1, if_neg r2, if_neg r3, if_neg r4]

theorem validateVisit_range_error (v : Visit) (hs : v.Structured) (hr : ¬ v.InRange) :
    ∃ msg ∈ rangeMessages, VisitService.validateVisit v = .error msg := by
  rw [validateVisit_structured v hs]
  by_cases r1 : ∃ x ∈ v.StartLatitude, x < -90 ∨ x > 90
  · rw [if_pos r1]; exact ⟨_, by simp [rangeMessages], rfl⟩
  rw [if_neg r1]
  by_cases r2 : ∃ x ∈ v.StartLongitude, x < -180 ∨ x > 180
  · rw [if_pos r2]; exact ⟨_, by simp [rangeMessages], rfl⟩
  rw [if_neg r2]
  by_cases r3 : ∃ x ∈ v.EndLatitude, x < -90 ∨ x > 90
  · rw [if_pos r3]; exact ⟨_, by simp [rangeMessages], rfl⟩
  rw [if_neg r3]
  by_cases r4 : ∃ x ∈ v.EndLongitude, x < -180 ∨ x > 180
  · rw [if_pos r4]; exact ⟨_, by simp [rangeMessages], rfl⟩
  exact absurd ((inRange_iff v).2 ⟨r1, r2, r3, r4⟩) hr

/-- C11: a visit that meets the other conditions of `validateVisit` (positive schedule id,
one of the three statuses, the fields its status requires, end time not before start time)
passes validation when each coordinate that is present lies in its closed range, latitude in
[-90, 90] and longitude in [-180, 180], the bounds themselves included; when a present start
or end latitude is below -90 or above 90, or a present start or end longitude is below -180 or
above 180, validation fails with the message of a range check. -/
theorem C11_validateVisit_ranges (v : Visit) (h : v.Structured) :
    (v.InRange → VisitService.validateVisit v = .ok ()) ∧
    ((∃ x ∈ v.StartLatitude, x < -90 ∨ 90 < x) ∨ (∃ x ∈ v.StartLongitude, x < -180 ∨ 180 < x) ∨
      (∃ x ∈ v.EndLatitude, x < -90 ∨ 90 < x) ∨ (∃ x ∈ v.EndLongitude, x < -180 ∨ 180 < x) →
      ∃ msg ∈ rangeMessages, VisitService.validateVisit v = .error msg) := by
  refine ⟨fun hr => (validateVisit_ok_iff v).2 ⟨h, hr⟩, fun hx => ?_⟩
  apply validateVisit_range_error v h
  intro hr
  obtain ⟨r1, r2, r3, r4⟩ := (inRange_iff v).1 hr
  rcases hx with hx | hx | hx | hx
  · exact r1 hx
  · exact r2 hx
  · exact r3 hx
  · exact r4 hx

/-- C11 on a completed visit with start at (90, -180) and end at (-90, 180): it is accepted;
with the start latitude 91, or with the end longitude 181, it is refused. -/
theorem C11_validateVisit_ranges_witness :
    VisitService.validateVisit boundaryVisit = .ok () ∧
    (∃ msg ∈ rangeMessages,
      VisitService.validateVisit { boundaryVisit with StartLatitude := some 91 } =
        .error msg) ∧
    (∃ msg ∈ rangeMessages,
      VisitService.validateVisit { boundaryVisit with EndLongitude := some 181 } =
        .error msg) :=
  ⟨(C11_validateVisit_ranges boundaryVisit
      (by unfold Visit.Structured Visit.Invariant; decide)).1
      (by unfold Visit.InRange; decide),
   (C11_validateVisit_ranges { boundaryVisit with StartLatitude := some 91 }
      (by unfold Visit.Structured Visit.Invariant; decide)).2
      (Or.inl ⟨91, rfl, Or.inr (by decide)⟩),
   (C11_validateVisit_ranges { boundaryVisit with EndLongitude := some 181 }
      (by unfold Visit.Structured Visit.Invariant; decide)).2
      (Or.inr (Or.inr (Or.inr ⟨181, rfl, Or.inr (by decide)⟩)))⟩

/-- C12, what the code does: the three operations that write a visit location compare the
coordinates with no bound. On the sample database `ScheduleService.StartVisit` with latitude
91 and longitude 181 succeeds and stores them; on the started sample database
`ScheduleService.EndVisit` and `VisitService.EndVisit` with latitude -91 and longitude -181
succeed and store them; `validateVisit`, which `CreateVisit` and `UpdateVisit` run first,
refuses the visits so written. -/
theorem C12_out_of_range_coordinates_written :
    ((ScheduleService.StartVisit (590 * Minute) 1 ⟨91, 181⟩ sampleWorld).1 = .ok () ∧
      (ScheduleService.StartVisit (590 * Minute) 1 ⟨91, 181⟩ sampleWorld).2.visitOf 1 = some
        { sampleVisit with StartTime := some (590 * Minute), StartLatitude := some 91,
                           StartLongitude := some 181, Status := "in_progress",
                           UpdatedAt := 590 * Minute } ∧
      (ScheduleService.StartVisit (590 * Minute) 1 ⟨91, 181⟩ sampleWorld).2.statusOf 1 =
        some "in_progress") ∧
    ((ScheduleService.EndVisit (660 * Minute) 1 ⟨-91, -181, ""⟩ startedWorld).1 = .ok () ∧
      ((ScheduleService.EndVisit (660 * Minute) 1 ⟨-91, -181, ""⟩ startedWorld).2.visitOf
        1).map (fun v => (v.EndLatitude, v.EndLongitude, v.Status)) =
        some (some (-91), some (-181), "completed")) ∧
    ((VisitService.EndVisit (660 * Minute) 1 (-91) (-181) "" startedWorld).1 = .ok () ∧
      ((VisitService.EndVisit (660 * Minute) 1 (-91) (-181) "" startedWorld).2.visitOf
        1).map (fun v => (v.EndLatitude, v.EndLongitude, v.Status)) =
        some (some (-91), some (-181), "completed")) ∧
    VisitService.validateVisit
      { sampleVisit with StartTime := some (590 * Minute), StartLatitude := some 91,
                         StartLongitude := some 181, Status := "in_progress" } =
      .error "start_latitude must be between -90 and 90" := by
  decide


/-- C13: a visit that has a positive schedule id, one of the statuses `not_started`,
`in_progress` and `completed`, the fields its status requires (for `in_progress` the start
time and both start coordinates; for `completed` also the end time and both end coordinates,
the end time not before the start time) and every present coordinate in range is handed by
`CreateVisit` to `visitRepo.Create` and by `UpdateVisit` to `visitRepo.Update`, that call
being the only repository call made, and `UpdateVisit` succeeds when the driver reports no
error; every other visit makes both return a validation error and leave the database as it
was, no repository call made. -/
theorem C13_create_update_validation (now : Time) (v : Visit) (w : World) :
    (v.Structured ∧ v.InRange →
      (VisitService.CreateVisit now v w).2.callsSince w = [Call.visitCreate v] ∧
      (VisitService.UpdateVisit now v w).2.callsSince w = [Call.visitUpdate v] ∧
      (w.faults = [] → VisitService.UpdateVisit now v w =
        (.ok (), { w with
          visits := w.visits.map (visitRepository.updateRow now v),
          trace := w.trace ++ [Call.visitUpdate v] }))) ∧
    (¬ (v.Structured ∧ v.InRange) →
      ∃ msg, VisitService.validateVisit v = .error msg ∧
        VisitService.CreateVisit now v w =
          (.error ("visit validation failed: " ++ msg), w) ∧
        VisitService.UpdateVisit now v w =
          (.error ("visit validation failed: " ++ msg), w)) := by
  constructor
  · intro hv
    have hok := (validateVisit_ok_iff v).2 hv
    obtain ⟨-, -, u3, -, -, u6⟩ := visitUpdate_spec now v w
    refine ⟨?_, ?_, ?_⟩
    · unfold VisitService.CreateVisit
      rw [hok]
      simp only [visitCreate_spec]
      exact callsSince_append w _ _ rfl
    · unfold VisitService.UpdateVisit
      rw [hok]
      simp only []
      rcases hu : visitRepository.Update now v w with ⟨r, w1⟩
      rw [hu] at u3
      rcases r with e | u
      · exact callsSince_append w _ _ u3
      · exact callsSince_append w _ _ u3
    · intro hq
      unfold VisitService.UpdateVisit
      rw [hok]
      simp only []
      rw [u6 hq]
  · intro hv
    rcases result_cases (VisitService.validateVisit v) with h | ⟨msg, h⟩
    · exact absurd ((validateVisit_ok_iff v).1 h) hv
    · refine ⟨msg, h, ?_, ?_⟩
      · unfold VisitService.CreateVisit
        rw [h]
      · unfold VisitService.UpdateVisit
        rw [h]

/-- C13 on the sample database: the boundary visit is handed to `Create` and to `Update`, and
`Update` writes it; with the end time before the start time it is refused and nothing is
called. -/
theorem C13_create_update_validation_witness :
    ((VisitService.CreateVisit (700 * Minute) boundaryVisit sampleWorld).2.callsSince
        sampleWorld = [Call.visitCreate boundaryVisit] ∧
      (VisitService.UpdateVisit (700 * Minute) boundaryVisit sampleWorld).2.callsSince
        sampleWorld = [Call.visitUpdate boundaryVisit] ∧
      (sampleWorld.faults = [] →
        VisitService.UpdateVisit (700 * Minute) boundaryVisit sampleWorld =
          (.ok (), { sampleWorld with
            visits := sampleWorld.visits.map
              (visitRepository.updateRow (700 * Minute) boundaryVisit),
            trace := sampleWorld.trace ++ [Call.visitUpdate boundaryVisit] }))) ∧
    (∃ msg,
      VisitService.validateVisit { boundaryVisit with EndTime := some (580 * Minute) } =
        .error msg ∧
      VisitService.CreateVisit (700 * Minute)
          { boundaryVisit with EndTime := some (580 * Minute) } sampleWorld =
        (.error ("visit validation failed: " ++ msg), sampleWorld) ∧
      VisitService.UpdateVisit (700 * Minute)
          { boundaryVisit with EndTime := some (580 * Minute) } sampleWorld =
        (.error ("visit validation failed: " ++ msg), sampleWorld)) :=
  ⟨(C13_create_update_validation (700 * Minute) boundaryVisit sampleWorld).1
    ⟨by unfold Visit.Structured Visit.Invariant; decide, by unfold Visit.InRange; decide⟩,
   (C13_create_update_validation (700 * Minute)
      { boundaryVisit with EndTime := some (580 * Minute) } sampleWorld).2
    (fun h => by
      have h7 := (h.1.2.2.2 rfl).2.2.2.2.2.2 (590 * Minute) rfl (580 * Minute) rfl
      exact absurd h7 (by decide))⟩

/-! ## The Visit invariant -/

/-- C14 as stated fails: the visit of schedule 1 in this database is `not_started` with a
start time and no start location; it satisfies the invariant, which asks nothing of a visit
that is `not_started`, and `validateVisit` accepts it; `visitRepository.EndVisit` at minute
660, not earlier than its start time, with coordinates in range, succeeds and writes a visit
that is `completed` with no start location, which does not satisfy the invariant. -/
theorem C14_completed_without_start_location :
    (∃ v, unlocatedWorld.visitOf 1 = some v ∧ v.Invariant ∧
      VisitService.validateVisit v = .ok () ∧ ∀ s ∈ v.StartTime, s ≤ 660 * Minute) ∧
    (visitRepository.EndVisit (660 * Minute) 1 40 (-74) "" unlocatedWorld).1 = .ok () ∧
    (∃ v, (visitRepository.EndVisit (660 * Minute) 1 40 (-74) "" unlocatedWorld).2.visitOf 1 =
        some v ∧ v.Status = "completed" ∧ v.StartLatitude = none ∧ ¬ v.Invariant) := by
  refine ⟨⟨{ sampleVisit with StartTime := some (590 * Minute) }, by decide, ?_, by decide,
    by decide⟩, by decide, ?_⟩
  · unfold Visit.Invariant
    decide
  · refine ⟨{ sampleVisit with StartTime := some (590 * Minute),
                                EndTime := some (660 * Minute), EndLatitude := some 40,
                                EndLongitude := some (-74), Status := "completed",
                                UpdatedAt := 660 * Minute }, by decide, rfl, rfl, ?_⟩
    unfold Visit.Invariant
    decide

/-- C14, amended: for a stored visit that has its start location set whenever its start time
is set, and a `now` not earlier than its start time, the visit left by a successful
`visitRepository.StartVisit`, `EndVisit` or `CancelVisit` satisfies the invariant and again
has its start location set whenever its start time is set; and when the stored coordinates
and the coordinates given are in range, so are the coordinates left. That the stored visit
satisfies the invariant is not needed for this: what `EndVisit` relies on is the start
location. -/
theorem C14_invariant_preserved (w : World) (now : Time) (scheduleID : Int)
    (latitude longitude : Rat) (notes : String) (visit : Visit)
    (hv : w.visitOf scheduleID = some visit) (hloc : visit.StartLocated) (hnow : ∀ s ∈ visit.StartTime, s ≤ now) :
    ((visitRepository.StartVisit now scheduleID latitude longitude w).1 = .ok () →
      ∃ new, (visitRepository.StartVisit now scheduleID latitude longitude w).2.visitOf
          scheduleID = some new ∧ new.Status = "in_progress" ∧
        new.Invariant ∧ new.StartLocated ∧
        (visit.InRange → -90 ≤ latitude ∧ latitude ≤ 90 →
          -180 ≤ longitude ∧ longitude ≤ 180 → new.InRange)) ∧
    ((visitRepository.EndVisit now scheduleID latitude longitude notes w).1 = .ok () →
      ∃ new, (visitRepository.EndVisit now scheduleID latitude longitude notes w).2.visitOf
          scheduleID = some new ∧ new.Status = "completed" ∧
        new.Invariant ∧ new.StartLocated ∧
        (visit.InRange → -90 ≤ latitude ∧ latitude ≤ 90 →
          -180 ≤ longitude ∧ longitude ≤ 180 → new.InRange)) ∧
    ((visitRepository.CancelVisit now scheduleID w).1 = .ok () →
      ∃ new, (visitRepository.CancelVisit now scheduleID w).2.visitOf scheduleID = some new ∧
        new.Status = "not_started" ∧ new.Invariant ∧ new.StartLocated ∧ new.InRange) := by
  refine ⟨?_, ?_, ?_⟩
  · intro hok
    obtain ⟨v0, hv0, hvs⟩ := (visitStartVisit_spec now scheduleID latitude longitude w).2.2.1 hok
    rw [hv] at hv0
    cases hv0
    refine ⟨_, visitOf_after_update w now scheduleID visit
      (visit.started now latitude longitude) _ hv rfl hvs, rfl, ?_, ?_, ?_⟩
    · unfold Visit.Invariant
      refine ⟨fun _ => ⟨by simp [Visit.started], by simp [Visit.started],
        by simp [Visit.started]⟩, fun h => by simp [Visit.started, Visit.ended, Visit.cancelled] at h⟩
    · intro _
      exact ⟨by simp [Visit.started], by simp [Visit.started]⟩
    · intro hr hlat hlon
      obtain ⟨-, -, r3, r4⟩ := hr
      refine ⟨?_, ?_, r3, r4⟩
      · intro x hx
        simp only [Visit.started, Option.mem_def, Option.some.injEq] at hx
        rw [← hx]; exact hlat
      · intro x hx
        simp only [Visit.started, Option.mem_def, Option.some.injEq] at hx
        rw [← hx]; exact hlon
  · intro hok
    obtain ⟨v0, hv0, hst, hvs⟩ :=
      (visitEndVisit_spec now scheduleID latitude longitude notes w).2.2.1 hok
    rw [hv] at hv0
    cases hv0
    obtain ⟨l1, l2⟩ := hloc hst
    refine ⟨_, visitOf_after_update w now scheduleID visit
      (visit.ended now latitude longitude notes) _ hv rfl hvs, rfl, ?_, ?_, ?_⟩
    · unfold Visit.Invariant
      refine ⟨fun h => by simp [Visit.started, Visit.ended, Visit.cancelled] at h, fun _ => ⟨hst, by simp [Visit.ended], l1, l2,
        by simp [Visit.ended], by simp [Visit.ended], ?_⟩⟩
      intro s hs e he
      simp only [Visit.ended, Option.mem_def, Option.some.injEq] at hs he
      rw [← he]
      exact hnow s hs
    · intro _
      exact ⟨l1, l2⟩
    · intro hr hlat hlon
      obtain ⟨r1, r2, -, -⟩ := hr
      refine ⟨r1, r2, ?_, ?_⟩
      · intro x hx
        simp only [Visit.ended, Option.mem_def, Option.some.injEq] at hx
        rw [← hx]; exact hlat
      · intro x hx
        simp only [Visit.ended, Option.mem_def, Option.some.injEq] at hx
        rw [← hx]; exact hlon
  · intro hok
    obtain ⟨v0, hv0, -, hvs⟩ := (visitCancelVisit_spec now scheduleID w).2.2.1 hok
    rw [hv] at hv0
    cases hv0
    refine ⟨_, visitOf_after_update w now scheduleID visit visit.cancelled _ hv rfl hvs,
      rfl, ?_, ?_, ?_⟩
    · unfold Visit.Invariant
      exact ⟨fun h => by simp [Visit.started, Visit.ended, Visit.cancelled] at h, fun h => by simp [Visit.started, Visit.ended, Visit.cancelled] at h⟩
    · intro h
      exact absurd rfl h
    · unfold Visit.InRange
      simp [Visit.cancelled]


/-- C14, amended, on the sample database: the visit started at minute 590 at (40, -74) and
ended at minute 660 at (90, -180) is `completed` and satisfies the invariant, with its
coordinates in range. -/
theorem C14_invariant_preserved_witness :
    ∃ new, (visitRepository.EndVisit (660 * Minute) 1 90 (-180) "done" startedWorld).2.visitOf
        1 = some new ∧ new.Status = "completed" ∧ new.Invariant ∧ new.StartLocated ∧ new.InRange :=
  have h := (C14_invariant_preserved startedWorld (660 * Minute) 1 90 (-180) "done"
    { sampleVisit with StartTime := some (590 * Minute), StartLatitude := some 40,
                       StartLongitude := some (-74), Status := "in_progress",
                       Notes := "arrived" }
    (by decide) (fun _ => ⟨by decide, by decide⟩) (by decide)).2.1 (by decide)
  h.imp fun _ hn => ⟨hn.1, hn.2.1, hn.2.2.1, hn.2.2.2.1,
    hn.2.2.2.2 (by unfold Visit.InRange; decide) (by decide) (by decide)⟩

/-! ## Tasks -/

theorem taskGetByID_spec (id : Int) (w : World) :
    (taskRepository.GetByID id w).2.schedules = w.schedules ∧
    (taskRepository.GetByID id w).2.visits = w.visits ∧
    (taskRepository.GetByID id w).2.tasks = w.tasks ∧
    (taskRepository.GetByID id w).2.trace = w.trace ++ [Call.taskGetByID id] ∧
    (taskRepository.GetByID id w).2.sleeps = w.sleeps ∧
    (∀ res, (taskRepository.GetByID id w).1 = .ok res → res = w.taskOf id) ∧
    (w.faults = [] →
      taskRepository.GetByID id w = (.ok (w.taskOf id), w.log (Call.taskGetByID id))) := by
  unfold taskRepository.GetByID World.nextFault World.log World.taskOf
  cases hf : w.faults with
  | nil => simp
  | cons f fs => cases f <;> simp

theorem validateTaskUpdateRequest_ok_iff (req : TaskUpdateRequest) :
    TaskService.validateTaskUpdateRequest req = .ok () ↔
      (req.Status = "completed" ∨ (req.Status = "not_completed" ∧ req.Reason ≠ "")) := by
  unfold TaskService.validateTaskUpdateRequest
  by_cases h1 : req.Status = ""
  · simp [h1]
  · by_cases h2 : req.Status = "completed"
    · simp [h2]
    · by_cases h3 : req.Status = "not_completed"
      · by_cases h4 : req.Reason = "" <;> simp [h3, h4]
      · simp [h1, h2, h3]

/-- C15: `validateTaskUpdateRequest` accepts a request only if its status is exactly
`completed` or `not_completed`; for every other status (the empty one and `pending` among
them) it returns an error, and `UpdateTaskStatus` then returns that error as a validation
error and leaves the database as it was: no repository method is called, no statement is
sent to the driver. -/
theorem C15_updateTaskStatus_status (now : Time) (id : Int) (req : TaskUpdateRequest)
    (w : World) :
    (TaskService.validateTaskUpdateRequest req = .ok () →
      req.Status = "completed" ∨ req.Status = "not_completed") ∧
    (¬ (req.Status = "completed" ∨ req.Status = "not_completed") →
      TaskService.validateTaskUpdateRequest req =
        .error (if req.Status = "" then "status is required"
          else "invalid status: " ++ req.Status) ∧
      TaskService.UpdateTaskStatus now id req w =
        (.error ("task update validation failed: " ++
          (if req.Status = "" then "status is required"
            else "invalid status: " ++ req.Status)), w)) := by
  constructor
  · intro h
    rcases (validateTaskUpdateRequest_ok_iff req).1 h with h | h
    · exact Or.inl h
    · exact Or.inr h.1
  · intro h
    have hv : TaskService.validateTaskUpdateRequest req =
        .error (if req.Status = "" then "status is required"
          else "invalid status: " ++ req.Status) := by
      unfold TaskService.validateTaskUpdateRequest
      by_cases h1 : req.Status = ""
      · simp [h1]
      · simp [h1, h]
    refine ⟨hv, ?_⟩
    unfold TaskService.UpdateTaskStatus
    rw [hv]

/-- C15 on the sample task: the statuses `pending`, the empty one and `done` are refused and
nothing is read or written. -/
theorem C15_updateTaskStatus_status_witness :
    TaskService.UpdateTaskStatus 0 1 ⟨"pending", ""⟩ taskWorld =
      (.error "task update validation failed: invalid status: pending", taskWorld) ∧
    TaskService.UpdateTaskStatus 0 1 ⟨"", "x"⟩ taskWorld =
      (.error "task update validation failed: status is required", taskWorld) ∧
    TaskService.UpdateTaskStatus 0 1 ⟨"done", ""⟩ taskWorld =
      (.error "task update validation failed: invalid status: done", taskWorld) :=
  ⟨((C15_updateTaskStatus_status 0 1 ⟨"pending", ""⟩ taskWorld).2 (by decide)).2,
   ((C15_updateTaskStatus_status 0 1 ⟨"", "x"⟩ taskWorld).2 (by decide)).2,
   ((C15_updateTaskStatus_status 0 1 ⟨"done", ""⟩ taskWorld).2 (by decide)).2⟩


theorem taskUpdateStatusRow_id (now : Time) (id : Int) (status reason : String)
    (completedAt : Option Time) (r : Task) :
    (taskRepository.updateStatusRow now id status reason completedAt r).ID = r.ID := by
  unfold taskRepository.updateStatusRow
  split <;> rfl

theorem find_map_taskUpdateStatusRow (now : Time) (id : Int) (status reason : String)
    (completedAt : Option Time) (l : List Task) :
    (l.map (taskRepository.updateStatusRow now id status reason completedAt)).find?
        (fun t => t.ID == id) =
      (l.find? (fun t => t.ID == id)).map
        (taskRepository.updateStatusRow now id status reason completedAt) := by
  rw [List.find?_map]
  congr 2
  funext r
  simp [taskUpdateStatusRow_id]

theorem taskOf_id (w : World) (id : Int) (t : Task) (h : w.taskOf id = some t) : t.ID = id := by
  have := List.find?_some h
  simpa using this

theorem execUpdateStatus_spec (now : Time) (id : Int) (status reason : String)
    (completedAt : Option Time) (w : World) :
    taskRepository.execUpdateStatus now id status reason completedAt w =
      match w.outcome 0 with
      | some e => (some e, { w with faults := w.faults.drop 1 })
      | none => (none, { w with
          faults := w.faults.drop 1,
          tasks := w.tasks.map
            (taskRepository.updateStatusRow now id status reason completedAt) }) := by
  unfold taskRepository.execUpdateStatus
  rw [nextFault_outcome]
  cases w.outcome 0 <;> rfl

theorem retryUpdateStatus_spec (now : Time) (id : Int) (status reason : String)
    (completedAt : Option Time) :
    ∀ (left i : Nat) (err : Option String) (w : World),
      (taskRepository.retryUpdateStatus now id status reason completedAt left i err w).2.schedules
        = w.schedules ∧
      (taskRepository.retryUpdateStatus now id status reason completedAt left i err w).2.visits
        = w.visits ∧
      (taskRepository.retryUpdateStatus now id status reason completedAt left i err w).2.trace
        = w.trace ∧
      ((∃ e, (taskRepository.retryUpdateStatus now id status reason completedAt left i err w).1
          = some e) →
        (taskRepository.retryUpdateStatus now id status reason completedAt left i err w).2.tasks
          = w.tasks) ∧
      ((0 < left ∨ err ≠ none) →
        (taskRepository.retryUpdateStatus now id status reason completedAt left i err w).1
          = none →
        (taskRepository.retryUpdateStatus now id status reason completedAt left i err w).2.tasks
          = w.tasks.map (taskRepository.updateStatusRow now id status reason completedAt)) ∧
      (w.faults = [] → 0 < left →
        (taskRepository.retryUpdateStatus now id status reason completedAt left i err w).1
          = none) := by
  intro left
  induction left with
  | zero =>
    intro i err w
    simp only [taskRepository.retryUpdateStatus]
    refine ⟨trivial, trivial, trivial, fun _ => trivial, ?_, ?_⟩
    · intro h1 h2
      rcases h1 with h1 | h1
      · omega
      · exact absurd h2 h1
    · intro _ h
      omega
  | succ n ih =>
    intro i err w
    simp only [taskRepository.retryUpdateStatus, execUpdateStatus_spec]
    cases ho : w.outcome 0 with
    | none =>
      refine ⟨rfl, rfl, rfl, ?_, fun _ _ => rfl, fun _ _ => rfl⟩
      rintro ⟨e, he⟩
      cases he
    | some e =>
      simp only []
      by_cases hl : isDatabaseLockedError (some e) = true
      · rw [if_pos hl]
        obtain ⟨a1, a2, a3, a4, a5, -⟩ := ih (i + 1) (some e)
          { w with faults := w.faults.drop 1,
                   sleeps := w.sleeps ++ [Millisecond * (100 * ((i : Int) + 1))] }
        refine ⟨a1, a2, a3, a4, fun _ h => a5 (Or.inr (by simp)) h, ?_⟩
        intro hq
        simp [World.outcome, hq] at ho
      · rw [if_neg hl]
        refine ⟨rfl, rfl, rfl, fun _ => rfl, ?_, ?_⟩
        · intro _ h
          cases h
        · intro hq
          simp [World.outcome, hq] at ho

theorem taskUpdateStatus_spec (now : Time) (id : Int) (status reason : String) (w : World) :
    (taskRepository.UpdateStatus now id status reason w).2.schedules = w.schedules ∧
    (taskRepository.UpdateStatus now id status reason w).2.visits = w.visits ∧
    (taskRepository.UpdateStatus now id status reason w).2.trace =
      w.trace ++ [Call.taskUpdateStatus id status reason] ∧
    ((∃ e, (taskRepository.UpdateStatus now id status reason w).1 = .error e) →
      (taskRepository.UpdateStatus now id status reason w).2.tasks = w.tasks) ∧
    ((taskRepository.UpdateStatus now id status reason w).1 = .ok () →
      (taskRepository.UpdateStatus now id status reason w).2.tasks =
        w.tasks.map (taskRepository.updateStatusRow now id status reason
          (if status = "completed" then some now else none))) ∧
    (w.faults = [] → (taskRepository.UpdateStatus now id status reason w).1 = .ok ()) := by
  obtain ⟨a1, a2, a3, a4, a5, a6⟩ := retryUpdateStatus_spec now id status reason
    (if status = "completed" then some now else none) 3 0 none
    (w.log (Call.taskUpdateStatus id status reason))
  unfold taskRepository.UpdateStatus
  rcases h : taskRepository.retryUpdateStatus now id status reason
    (if status = "completed" then some now else none) 3 0 none
    (w.log (Call.taskUpdateStatus id status reason)) with ⟨r, w1⟩
  rw [h] at a1 a2 a3 a4 a5 a6
  simp only [World.log] at a1 a2 a3 a4 a5 a6
  cases r with
  | none =>
    simp only []
    refine ⟨a1, a2, a3, ?_, fun _ => a5 (Or.inl (by decide)) rfl, fun _ => trivial⟩
    rintro ⟨e, he⟩
    cases he
  | some e =>
    simp only []
    refine ⟨a1, a2, a3, fun _ => a4 ⟨e, rfl⟩, ?_, ?_⟩
    · intro h
      cases h
    · intro hq
      have := a6 hq (by decide)
      cases this


theorem taskOf_after_updateStatus (w : World) (now : Time) (id : Int) (status reason : String)
    (completedAt : Option Time) (t : Task) (tasks : List Task) (ht : w.taskOf id = some t)
    (hts : tasks = w.tasks.map
      (taskRepository.updateStatusRow now id status reason completedAt)) :
    tasks.find? (fun t => t.ID == id) = some
      { t with Status := status, Reason := reason, CompletedAt := completedAt,
               UpdatedAt := now } := by
  have hid := taskOf_id w id t ht
  unfold World.taskOf at ht
  rw [hts, find_map_taskUpdateStatusRow, ht]
  simp [taskRepository.updateStatusRow, hid]

theorem updateTaskStatus_quiet (now : Time) (id : Int) (req : TaskUpdateRequest) (w : World)
    (t : Task) (hq : w.faults = []) (hv : TaskService.validateTaskUpdateRequest req = .ok ())
    (ht : w.taskOf id = some t) :
    (TaskService.UpdateTaskStatus now id req w).1 = .ok () ∧
    (TaskService.UpdateTaskStatus now id req w).2.taskOf id = some
      { t with Status := req.Status, Reason := req.Reason,
               CompletedAt := if req.Status = "completed" then some now else none,
               UpdatedAt := now } := by
  unfold TaskService.UpdateTaskStatus
  rw [hv]
  simp only []
  rw [(taskGetByID_spec id w).2.2.2.2.2.2 hq, ht]
  simp only []
  obtain ⟨-, -, -, -, a5, a6⟩ :=
    taskUpdateStatus_spec now id req.Status req.Reason (w.log (Call.taskGetByID id))
  have hok := a6 hq
  have htasks := a5 hok
  rcases hu : taskRepository.UpdateStatus now id req.Status req.Reason
    (w.log (Call.taskGetByID id)) with ⟨r, w2⟩
  rw [hu] at hok htasks
  simp only at hok htasks
  subst hok
  simp only []
  exact ⟨trivial, taskOf_after_updateStatus (w.log (Call.taskGetByID id)) now id req.Status
    req.Reason _ t w2.tasks ht htasks⟩

/-- C16 as stated fails: the reason made of one blank consists only of whitespace, yet a
request with status `not_completed` and that reason passes validation, and on the sample task
`UpdateTaskStatus` succeeds and stores the blank as the reason. -/
theorem C16_blank_reason_accepted :
    " ".data.all Char.isWhitespace = true ∧
    TaskService.validateTaskUpdateRequest ⟨"not_completed", " "⟩ = .ok () ∧
    (TaskService.UpdateTaskStatus (620 * Minute) 1 ⟨"not_completed", " "⟩ taskWorld).1 =
      .ok () ∧
    (TaskService.UpdateTaskStatus (620 * Minute) 1 ⟨"not_completed", " "⟩ taskWorld).2.taskOf 1 =
      some { sampleTask with Status := "not_completed", Reason := " ", CompletedAt := none,
                             UpdatedAt := 620 * Minute } := by
  decide

/-- C16, amended: with status `not_completed` and the empty reason `UpdateTaskStatus` fails
with a validation error and leaves the database as it was; with status `not_completed` and any
reason other than the empty string, one made of whitespace included, the request passes
validation; with status `completed` it passes validation for every reason, the empty one
included; and a request that passes validation, the task being stored and the driver
reporting no error, succeeds and stores the status and the reason as given. -/
theorem C16_reason_required (now : Time) (id : Int) (req : TaskUpdateRequest) (w : World) :
    (req.Status = "not_completed" → req.Reason = "" →
      TaskService.UpdateTaskStatus now id req w =
        (.error ("task update validation failed: " ++
          "reason is required when status is not_completed"), w)) ∧
    (req.Status = "not_completed" → req.Reason ≠ "" →
      TaskService.validateTaskUpdateRequest req = .ok ()) ∧
    (req.Status = "completed" → TaskService.validateTaskUpdateRequest req = .ok ()) ∧
    (TaskService.validateTaskUpdateRequest req = .ok () → w.faults = [] →
      ∀ t, w.taskOf id = some t →
        (TaskService.UpdateTaskStatus now id req w).1 = .ok () ∧
        ∃ t1, (TaskService.UpdateTaskStatus now id req w).2.taskOf id = some t1 ∧
          t1.Status = req.Status ∧ t1.Reason = req.Reason) := by
  refine ⟨?_, ?_, ?_, ?_⟩
  · intro hs hr
    have hv : TaskService.validateTaskUpdateRequest req =
        .error "reason is required when status is not_completed" := by
      unfold TaskService.validateTaskUpdateRequest
      simp [hs, hr]
    unfold TaskService.UpdateTaskStatus
    rw [hv]
  · intro hs hr
    exact (validateTaskUpdateRequest_ok_iff req).2 (Or.inr ⟨hs, hr⟩)
  · intro hs
    exact (validateTaskUpdateRequest_ok_iff req).2 (Or.inl hs)
  · intro hv hq t ht
    obtain ⟨h1, h2⟩ := updateTaskStatus_quiet now id req w t hq hv ht
    exact ⟨h1, _, h2, rfl, rfl⟩

/-- C16, amended, on the sample task: the empty reason is refused, the reason `client asleep`
is stored with status `not_completed`, and `completed` passes with the empty reason. -/
theorem C16_reason_required_witness :
    TaskService.UpdateTaskStatus (620 * Minute) 1 ⟨"not_completed", ""⟩ taskWorld =
      (.error "task update validation failed: reason is required when status is not_completed",
        taskWorld) ∧
    TaskService.validateTaskUpdateRequest ⟨"not_completed", "client asleep"⟩ = .ok () ∧
    TaskService.validateTaskUpdateRequest ⟨"completed", ""⟩ = .ok () ∧
    ((TaskService.UpdateTaskStatus (620 * Minute) 1 ⟨"not_completed", "client asleep"⟩
        taskWorld).1 = .ok () ∧
      ∃ t1, (TaskService.UpdateTaskStatus (620 * Minute) 1 ⟨"not_completed", "client asleep"⟩
          taskWorld).2.taskOf 1 = some t1 ∧
        t1.Status = "not_completed" ∧ t1.Reason = "client asleep") :=
  ⟨(C16_reason_required (620 * Minute) 1 ⟨"not_completed", ""⟩ taskWorld).1 rfl rfl,
   (C16_reason_required (620 * Minute) 1 ⟨"not_completed", "client asleep"⟩ taskWorld).2.1 rfl
     (by decide),
   (C16_reason_required (620 * Minute) 1 ⟨"completed", ""⟩ taskWorld).2.2.1 rfl,
   (C16_reason_required (620 * Minute) 1 ⟨"not_completed", "client asleep"⟩ taskWorld).2.2.2
     (by decide) rfl sampleTask (by decide)⟩

/-- C17: whatever the driver does, when `taskRepository.UpdateStatus` succeeds the row of the
task is the row it was with the given status and reason, `completed_at` the current time when
the status is `completed` and null otherwise, whatever it held before, and `updated_at` the
current time, the rows of other ids being as they were; when it fails no row has changed;
and when the driver reports no error it succeeds. -/
theorem C17_updateStatus_row (now : Time) (id : Int) (status reason : String) (w : World) :
    ((taskRepository.UpdateStatus now id status reason w).1 = .ok () →
      (∀ t, w.taskOf id = some t →
        (taskRepository.UpdateStatus now id status reason w).2.taskOf id = some
          { t with Status := status, Reason := reason,
                   CompletedAt := if status = "completed" then some now else none,
                   UpdatedAt := now }) ∧
      (∀ t1, (taskRepository.UpdateStatus now id status reason w).2.taskOf id = some t1 →
        t1.Status = status ∧ t1.Reason = reason ∧
        (status = "completed" → t1.CompletedAt = some now) ∧
        (status ≠ "completed" → t1.CompletedAt = none)) ∧
      (∀ other, other ≠ id →
        (taskRepository.UpdateStatus now id status reason w).2.taskOf other =
          w.taskOf other)) ∧
    ((∃ e, (taskRepository.UpdateStatus now id status reason w).1 = .error e) →
      (taskRepository.UpdateStatus now id status reason w).2.tasks = w.tasks) ∧
    (w.faults = [] → (taskRepository.UpdateStatus now id status reason w).1 = .ok ()) := by
  obtain ⟨-, -, -, a4, a5, a6⟩ := taskUpdateStatus_spec now id status reason w
  refine ⟨?_, a4, a6⟩
  intro hok
  have htasks := a5 hok
  have hfind : ∀ t, w.taskOf id = some t →
      (taskRepository.UpdateStatus now id status reason w).2.taskOf id = some
        { t with Status := status, Reason := reason,
                 CompletedAt := if status = "completed" then some now else none,
                 UpdatedAt := now } := fun t ht =>
    taskOf_after_updateStatus w now id status reason _ t _ ht htasks
  refine ⟨hfind, ?_, ?_⟩
  · intro t1 ht1
    cases ht : w.taskOf id with
    | none =>
      unfold World.taskOf at ht ht1
      rw [htasks, find_map_taskUpdateStatusRow, ht] at ht1
      cases ht1
    | some t =>
      rw [hfind t ht] at ht1
      cases ht1
      refine ⟨rfl, rfl, ?_, ?_⟩
      · intro hs
        simp [hs]
      · intro hs
        simp [hs]
  · intro other hne
    unfold World.taskOf
    rw [htasks, List.find?_map]
    have hfun : ((fun t : Task => t.ID == other) ∘
        taskRepository.updateStatusRow now id status reason
          (if status = "completed" then some now else none)) = fun t => t.ID == other := by
      funext r
      simp [taskUpdateStatusRow_id]
    rw [hfun]
    cases hf : List.find? (fun t : Task => t.ID == other) w.tasks with
    | none => rfl
    | some r =>
      have hr : r.ID = other := by
        have := List.find?_some hf
        simpa using this
      have hne2 : r.ID ≠ id := by rw [hr]; exact hne
      simp [taskRepository.updateStatusRow, hne2]

/-- C17 on the sample task, completed at minute 610: set to `not_completed` at minute 620 its
completion time is null, set to `completed` at minute 620 it is minute 620. -/
theorem C17_updateStatus_row_witness :
    (taskRepository.UpdateStatus (620 * Minute) 1 "not_completed" "client asleep"
        taskWorld).2.taskOf 1 = some
      { sampleTask with Status := "not_completed", Reason := "client asleep",
                        CompletedAt := none, UpdatedAt := 620 * Minute } ∧
    (taskRepository.UpdateStatus (620 * Minute) 1 "completed" "" taskWorld).2.taskOf 1 = some
      { sampleTask with Status := "completed", Reason := "",
                        CompletedAt := some (620 * Minute), UpdatedAt := 620 * Minute } :=
  ⟨((C17_updateStatus_row (620 * Minute) 1 "not_completed" "client asleep" taskWorld).1
      (by decide)).1 sampleTask (by decide),
   ((C17_updateStatus_row (620 * Minute) 1 "completed" "" taskWorld).1
      (by decide)).1 sampleTask (by decide)⟩


/-- C18: when no stored task has the id, `UpdateTaskStatus` with a request that passes
validation and `DeleteTask` return an error whatever the driver does, the only repository
call they make is `taskRepo.GetByID` (so neither `UpdateStatus` nor `Delete` is called) and
no row changes; and when the driver reports no error the error is `task not found`. -/
theorem C18_task_not_found (now : Time) (id : Int) (req : TaskUpdateRequest) (w : World)
    (hv : TaskService.validateTaskUpdateRequest req = .ok ()) (hn : w.taskOf id = none) :
    ((∃ e, (TaskService.UpdateTaskStatus now id req w).1 = .error e) ∧
      (TaskService.UpdateTaskStatus now id req w).2.trace = w.trace ++ [Call.taskGetByID id] ∧
      (TaskService.UpdateTaskStatus now id req w).2.tasks = w.tasks ∧
      (w.faults = [] → TaskService.UpdateTaskStatus now id req w =
        (.error "task not found", w.log (Call.taskGetByID id)))) ∧
    ((∃ e, (TaskService.DeleteTask id w).1 = .error e) ∧
      (TaskService.DeleteTask id w).2.trace = w.trace ++ [Call.taskGetByID id] ∧
      (TaskService.DeleteTask id w).2.tasks = w.tasks ∧
      (w.faults = [] → TaskService.DeleteTask id w =
        (.error "task not found", w.log (Call.taskGetByID id)))) := by
  obtain ⟨-, -, g3, g4, -, g6, g7⟩ := taskGetByID_spec id w
  unfold TaskService.UpdateTaskStatus TaskService.DeleteTask
  rw [hv]
  simp only []
  rcases hg : taskRepository.GetByID id w with ⟨r, w1⟩
  rw [hg] at g3 g4 g6 g7
  simp only at g3 g4 g6
  rcases r with e | (_ | t)
  · simp only []
    refine ⟨⟨⟨_, rfl⟩, g4, g3, ?_⟩, ⟨_, rfl⟩, g4, g3, ?_⟩ <;>
    · intro hq
      have := g7 hq
      simp at this
  · simp only []
    refine ⟨⟨⟨_, rfl⟩, g4, g3, ?_⟩, ⟨_, rfl⟩, g4, g3, ?_⟩ <;>
    · intro hq
      have := g7 hq
      simp only [Prod.mk.injEq] at this
      rw [this.2]
  · have := g6 _ rfl
    rw [hn] at this
    cases this

/-- C18 on the sample database of tasks, which has no task 7. -/
theorem C18_task_not_found_witness :
    TaskService.UpdateTaskStatus (620 * Minute) 7 ⟨"completed", ""⟩ taskWorld =
      (.error "task not found", taskWorld.log (Call.taskGetByID 7)) ∧
    TaskService.DeleteTask 7 taskWorld =
      (.error "task not found", taskWorld.log (Call.taskGetByID 7)) :=
  ⟨(C18_task_not_found (620 * Minute) 7 ⟨"completed", ""⟩ taskWorld (by decide)
      (by decide)).1.2.2.2 rfl,
   (C18_task_not_found (620 * Minute) 7 ⟨"completed", ""⟩ taskWorld (by decide)
      (by decide)).2.2.2.2 rfl⟩

theorem retry_step (now : Time) (id : Int) (status reason : String)
    (completedAt : Option Time) (left i : Nat) (err : Option String) (w : World) :
    taskRepository.retryUpdateStatus now id status reason completedAt (left + 1) i err w =
      match w.outcome 0 with
      | none => (none, { w with
          faults := w.faults.drop 1,
          tasks := w.tasks.map
            (taskRepository.updateStatusRow now id status reason completedAt) })
      | some e =>
        if isDatabaseLockedError (some e) then
          taskRepository.retryUpdateStatus now id status reason completedAt left (i + 1)
            (some e)
            { w with faults := w.faults.drop 1,
                     sleeps := w.sleeps ++ [Millisecond * (100 * ((i : Int) + 1))] }
        else (some e, { w with faults := w.faults.drop 1 }) := by
  simp only [taskRepository.retryUpdateStatus, execUpdateStatus_spec]
  cases w.outcome 0 <;> rfl

theorem outcome_succ (w w1 : World) (k : Nat) (h : w1.faults = w.faults.drop 1) :
    w1.outcome k = w.outcome (k + 1) := by
  unfold World.outcome
  rw [h]
  simp [List.get?_eq_getElem?, List.getElem?_drop, Nat.add_comm]

/-- C19: `taskRepository.UpdateStatus` sends its statement at most three times. When the
first attempt executes it returns no error after one attempt and no sleep. When the first
attempt fails with an error that is not a locked error it returns that error after one
attempt and no sleep. After a locked error on the first attempt it sleeps 100 ms and sends
the statement again: a success ends the loop with no error, an error that is not a locked
error is returned, and a locked error is followed by a sleep of 200 ms and the third attempt;
the third attempt ends the loop whatever its outcome, a locked error being followed by a
sleep of 300 ms and then returned. The outcomes the driver holds for further statements are
left unused. -/
theorem C19_updateStatus_retry (now : Time) (id : Int) (status reason : String) (w : World) :
    (w.outcome 0 = none →
      taskRepository.UpdateStatus now id status reason w =
        (.ok (), { w with
          tasks := w.tasks.map (taskRepository.updateStatusRow now id status reason
            (if status = "completed" then some now else none)),
          faults := w.faults.drop 1,
          trace := w.trace ++ [Call.taskUpdateStatus id status reason] })) ∧
    (∀ e, w.outcome 0 = some e → isDatabaseLockedError (some e) = false →
      taskRepository.UpdateStatus now id status reason w =
        (.error ("failed to update task status: " ++ e), { w with
          faults := w.faults.drop 1,
          trace := w.trace ++ [Call.taskUpdateStatus id status reason] })) ∧
    (∀ e1, w.outcome 0 = some e1 → isDatabaseLockedError (some e1) = true →
      (w.outcome 1 = none →
        taskRepository.UpdateStatus now id status reason w =
          (.ok (), { w with
            tasks := w.tasks.map (taskRepository.updateStatusRow now id status reason
              (if status = "completed" then some now else none)),
            faults := w.faults.drop 2,
            trace := w.trace ++ [Call.taskUpdateStatus id status reason],
            sleeps := w.sleeps ++ [100 * Millisecond] })) ∧
      (∀ e2, w.outcome 1 = some e2 → isDatabaseLockedError (some e2) = false →
        taskRepository.UpdateStatus now id status reason w =
          (.error ("failed to update task status: " ++ e2), { w with
            faults := w.faults.drop 2,
            trace := w.trace ++ [Call.taskUpdateStatus id status reason],
            sleeps := w.sleeps ++ [100 * Millisecond] })) ∧
      (∀ e2, w.outcome 1 = some e2 → isDatabaseLockedError (some e2) = true →
        (w.outcome 2 = none →
          taskRepository.UpdateStatus now id status reason w =
            (.ok (), { w with
              tasks := w.tasks.map (taskRepository.updateStatusRow now id status reason
                (if status = "completed" then some now else none)),
              faults := w.faults.drop 3,
              trace := w.trace ++ [Call.taskUpdateStatus id status reason],
              sleeps := w.sleeps ++ [100 * Millisecond, 200 * Millisecond] })) ∧
        (∀ e3, w.outcome 2 = some e3 → isDatabaseLockedError (some e3) = false →
          taskRepository.UpdateStatus now id status reason w =
            (.error ("failed to update task status: " ++ e3), { w with
              faults := w.faults.drop 3,
              trace := w.trace ++ [Call.taskUpdateStatus id status reason],
              sleeps := w.sleeps ++ [100 * Millisecond, 200 * Millisecond] })) ∧
        (∀ e3, w.outcome 2 = some e3 → isDatabaseLockedError (some e3) = true →
          taskRepository.UpdateStatus now id status reason w =
            (.error ("failed to update task status: " ++ e3), { w with
              faults := w.faults.drop 3,
              trace := w.trace ++ [Call.taskUpdateStatus id status reason],
              sleeps := w.sleeps ++
                [100 * Millisecond, 200 * Millisecond, 300 * Millisecond] })))) := by
  have o0 : (w.log (Call.taskUpdateStatus id status reason)).outcome 0 = w.outcome 0 := rfl
  have hms1 : Millisecond * (100 * (((0 : Nat) : Int) + 1)) = 100 * Millisecond := by decide
  have hms2 : Millisecond * (100 * (((0 + 1 : Nat) : Int) + 1)) = 200 * Millisecond := by
    decide
  have hms3 : Millisecond * (100 * (((0 + 1 + 1 : Nat) : Int) + 1)) = 300 * Millisecond := by
    decide
  unfold taskRepository.UpdateStatus
  rw [retry_step, o0]
  refine ⟨?_, ?_, ?_⟩
  · intro h0
    rw [h0]
    rfl
  · intro e h0 hl
    rw [h0]
    simp only [hl, Bool.false_eq_true, if_false]
    rfl
  · intro e1 h0 hl1
    rw [h0]
    simp only [hl1, if_true]
    rw [retry_step, outcome_succ w _ 0 rfl]
    refine ⟨?_, ?_, ?_⟩
    · intro h1
      rw [h1]
      simp only [World.log, List.drop_drop, hms1]
    · intro e2 h1 hl2
      rw [h1]
      simp only [hl2, Bool.false_eq_true, if_false, World.log, List.drop_drop, hms1]
    · intro e2 h1 hl2
      rw [h1]
      simp only [hl2, if_true]
      have o2 : ∀ w1 : World, w1.faults = (w.faults.drop 1).drop 1 →
          w1.outcome 0 = w.outcome 2 := fun w1 h => by
        unfold World.outcome
        rw [h]
        simp [List.get?_eq_getElem?, List.getElem?_drop]
      rw [retry_step, o2 _ rfl]
      refine ⟨?_, ?_, ?_⟩
      · intro h2
        rw [h2]
        simp only [World.log, List.drop_drop, hms1, hms2, List.append_assoc]
        rfl
      · intro e3 h2 hl3
        rw [h2]
        simp only [hl3, Bool.false_eq_true, if_false, World.log, List.drop_drop, hms1, hms2,
          List.append_assoc]
        rfl
      · intro e3 h2 hl3
        rw [h2]
        simp only [hl3, if_true, taskRepository.retryUpdateStatus, World.log, List.drop_drop,
          hms1, hms2, hms3, List.append_assoc]
        rfl


/-- C19 on the sample task with a driver that reports `database is locked` three times and
would execute the fourth statement: three attempts, sleeps of 100, 200 and 300 ms, the last
error returned, the task unchanged, the fourth outcome unused. -/
theorem C19_updateStatus_retry_witness :
    taskRepository.UpdateStatus (620 * Minute) 1 "not_completed" "client asleep"
        busyTaskWorld =
      (.error "failed to update task status: database is locked",
        { tasks := [sampleTask], faults := [none],
          trace := [Call.taskUpdateStatus 1 "not_completed" "client asleep"],
          sleeps := [100 * Millisecond, 200 * Millisecond, 300 * Millisecond] }) :=
  (((C19_updateStatus_retry (620 * Minute) 1 "not_completed" "client asleep"
      busyTaskWorld).2.2 "database is locked" rfl (by decide)).2.2
      "database is locked" rfl (by decide)).2.2 "database is locked" rfl (by decide)

/-! ## Writes of the lifecycle operations -/

theorem allExecuted_same (w w1 : World) (h : w1.faults = w.faults) : w.AllExecuted w1 :=
  ⟨0, by simp [h], fun j hj => absurd hj (Nat.not_lt_zero j)⟩

theorem allExecuted_trans (w w1 w2 : World) (h1 : w.AllExecuted w1) (h2 : w1.AllExecuted w2) :
    w.AllExecuted w2 := by
  obtain ⟨k1, f1, o1⟩ := h1
  obtain ⟨k2, f2, o2⟩ := h2
  refine ⟨k1 + k2, by rw [f2, f1, List.drop_drop, Nat.add_comm], ?_⟩
  intro j hj
  by_cases hlt : j < k1
  · exact o1 j hlt
  · have h := o2 (j - k1) (by omega)
    unfold World.outcome at h ⊢
    rw [f1] at h
    simp only [List.get?_eq_getElem?, List.getElem?_drop] at h ⊢
    have hj2 : k1 + (j - k1) = j := by omega
    rw [hj2] at h
    exact h

theorem direct_step {α : Type} (w : World) (c : Call) (fail : String → Except String α)
    (hfail : ∀ e x, fail e ≠ .ok x) (run : World → Except String α × World)
    (hrun : ∀ w1, (run w1).2.sleeps = w1.sleeps ∧ (run w1).2.faults = w1.faults) :
    w.Direct (match (w.log c).nextFault with
      | (some e, w1) => (fail e, w1)
      | (none, w1) => run w1) := by
  rw [nextFault_outcome]
  cases ho : (w.log c).outcome 0 with
  | some e =>
    refine ⟨rfl, ?_⟩
    rintro ⟨x, hx⟩
    exact absurd hx (hfail e x)
  | none =>
    simp only []
    refine ⟨(hrun _).1, fun _ => ⟨1, (hrun _).2, ?_⟩⟩
    intro j hj
    have : j = 0 := by omega
    rw [this]
    exact ho

theorem direct_scheduleGetByID (id : Int) (w : World) :
    w.Direct (scheduleRepository.GetByID id w) :=
  direct_step w _ (fun e => .error ("failed to get schedule: " ++ e)) (fun _ _ h => by cases h)
    (fun w1 => (.ok ((w1.schedules.find? (fun r => r.ID == id)).map scanSchedule), w1))
    (fun _ => ⟨rfl, rfl⟩)

theorem direct_scheduleUpdate (now : Time) (schedule : Schedule) (w : World) :
    w.Direct (scheduleRepository.Update now schedule w) :=
  direct_step w _ (fun e => .error ("failed to update schedule: " ++ e))
    (fun _ _ h => by cases h)
    (fun w1 => (.ok (), { w1 with
      schedules := w1.schedules.map (scheduleRepository.updateRow now schedule),
      rewritten := schedule.ID :: w1.rewritten }))
    (fun _ => ⟨rfl, rfl⟩)

theorem direct_visitGet (scheduleID : Int) (w : World) :
    w.Direct (visitRepository.GetByScheduleID scheduleID w) :=
  direct_step w _ (fun e => .error ("failed to get visit: " ++ e)) (fun _ _ h => by cases h)
    (fun w1 => (.ok (w1.visits.find? (fun v => v.ScheduleID == scheduleID)), w1))
    (fun _ => ⟨rfl, rfl⟩)

theorem direct_visitUpdate (now : Time) (visit : Visit) (w : World) :
    w.Direct (visitRepository.Update now visit w) :=
  direct_step w _ (fun e => .error ("failed to update visit: " ++ e)) (fun _ _ h => by cases h)
    (fun w1 => (.ok (), { w1 with
      visits := w1.visits.map (visitRepository.updateRow now visit) }))
    (fun _ => ⟨rfl, rfl⟩)

theorem direct_then {α β : Type} (w : World) (r1 : Except String α × World)
    (r2 : Except String β × World) (h1 : w.Direct r1) (h2 : r1.2.Direct r2)
    (hok : (∃ y, r2.1 = .ok y) → ∃ x, r1.1 = .ok x) : w.Direct r2 :=
  ⟨h2.1.trans h1.1, fun h => allExecuted_trans w r1.2 r2.2 (h1.2 (hok h)) (h2.2 h)⟩

theorem direct_fail {α : Type} (w w1 : World) (e : String) (h : w1.sleeps = w.sleeps) :
    w.Direct ((.error e : Except String α), w1) :=
  ⟨h, fun ⟨_, hx⟩ => by cases hx⟩

theorem direct_log {α : Type} (w : World) (c : Call) (r : Except String α × World)
    (h : (w.log c).Direct r) : w.Direct r := h


theorem direct_visitStartVisit (now : Time) (scheduleID : Int) (latitude longitude : Rat)
    (w : World) : w.Direct (visitRepository.StartVisit now scheduleID latitude longitude w) := by
  unfold visitRepository.StartVisit
  have hg : w.Direct (visitRepository.GetByScheduleID scheduleID
      (w.log (Call.visitStartVisit scheduleID latitude longitude))) := direct_visitGet _ _
  generalize visitRepository.GetByScheduleID scheduleID
    (w.log (Call.visitStartVisit scheduleID latitude longitude)) = r at hg ⊢
  rcases r with ⟨e | (_ | visit), w1⟩
  · exact direct_fail w w1 _ hg.1
  · simp only [visitCreate_spec]
    exact direct_fail w _ _ hg.1
  · exact direct_then w (.ok (some visit), w1) _ hg (direct_visitUpdate now _ w1)
      (fun _ => ⟨_, rfl⟩)

theorem direct_visitEndVisit (now : Time) (scheduleID : Int) (latitude longitude : Rat)
    (notes : String) (w : World) :
    w.Direct (visitRepository.EndVisit now scheduleID latitude longitude notes w) := by
  unfold visitRepository.EndVisit
  have hg : w.Direct (visitRepository.GetByScheduleID scheduleID
      (w.log (Call.visitEndVisit scheduleID latitude longitude notes))) := direct_visitGet _ _
  generalize visitRepository.GetByScheduleID scheduleID
    (w.log (Call.visitEndVisit scheduleID latitude longitude notes)) = r at hg ⊢
  rcases r with ⟨e | (_ | visit), w1⟩
  · exact direct_fail w w1 _ hg.1
  · exact direct_fail w w1 _ hg.1
  · simp only []
    split
    · exact direct_fail w w1 _ hg.1
    · exact direct_then w (.ok (some visit), w1) _ hg (direct_visitUpdate now _ w1)
        (fun _ => ⟨_, rfl⟩)

theorem direct_visitCancelVisit (now : Time) (scheduleID : Int) (w : World) :
    w.Direct (visitRepository.CancelVisit now scheduleID w) := by
  unfold visitRepository.CancelVisit
  have hg : w.Direct (visitRepository.GetByScheduleID scheduleID
      (w.log (Call.visitCancelVisit scheduleID))) := direct_visitGet _ _
  generalize visitRepository.GetByScheduleID scheduleID
    (w.log (Call.visitCancelVisit scheduleID)) = r at hg ⊢
  rcases r with ⟨e | (_ | visit), w1⟩
  · exact direct_fail w w1 _ hg.1
  · exact direct_fail w w1 _ hg.1
  · simp only []
    split
    · exact direct_fail w w1 _ hg.1
    · exact direct_then w (.ok (some visit), w1) _ hg (direct_visitUpdate now _ w1)
        (fun _ => ⟨_, rfl⟩)

theorem direct_write_then_update (now : Time) (schedule : Schedule) (wrap : String → String)
    (w : World) (r : Except String Unit × World) (h : w.Direct r) :
    w.Direct (match r with
      | (.error err, w2) => ((.error (wrap err) : Except String Unit), w2)
      | (.ok _, w2) =>
        match scheduleRepository.Update now schedule w2 with
        | (.error err, w3) => (.error ("failed to update schedule status: " ++ err), w3)
        | (.ok _, w3) => (.ok (), w3)) := by
  rcases r with ⟨e | u, w2⟩
  · exact direct_fail w w2 _ h.1
  · simp only []
    have hu := direct_scheduleUpdate now schedule w2
    generalize scheduleRepository.Update now schedule w2 = r3 at hu ⊢
    rcases r3 with ⟨e | u3, w3⟩
    · exact direct_fail w w3 _ (hu.1.trans h.1)
    · exact direct_then w (.ok u, w2) _ h hu (fun _ => ⟨_, rfl⟩)

theorem direct_startVisit (now : Time) (scheduleID : Int) (req : VisitStartRequest)
    (w : World) : w.Direct (ScheduleService.StartVisit now scheduleID req w) := by
  unfold ScheduleService.StartVisit
  have hg := direct_scheduleGetByID scheduleID w
  generalize scheduleRepository.GetByID scheduleID w = r at hg ⊢
  rcases r with ⟨e | (_ | schedule), w1⟩
  · exact direct_fail w w1 _ hg.1
  · exact direct_fail w w1 _ hg.1
  · simp only []
    split
    · exact direct_fail w w1 _ hg.1
    · exact direct_then w (.ok (some schedule), w1) _ hg
        (direct_write_then_update now _ (fun err => "failed to start visit: " ++ err) w1 _
          (direct_visitStartVisit now scheduleID req.Latitude req.Longitude w1))
        (fun _ => ⟨_, rfl⟩)

theorem direct_endVisit (now : Time) (scheduleID : Int) (req : VisitEndRequest)
    (w : World) : w.Direct (ScheduleService.EndVisit now scheduleID req w) := by
  unfold ScheduleService.EndVisit
  have hg := direct_scheduleGetByID scheduleID w
  generalize scheduleRepository.GetByID scheduleID w = r at hg ⊢
  rcases r with ⟨e | (_ | schedule), w1⟩
  · exact direct_fail w w1 _ hg.1
  · exact direct_fail w w1 _ hg.1
  · exact direct_then w (.ok (some schedule), w1) _ hg
      (direct_write_then_update now _ (fun err => "failed to end visit: " ++ err) w1 _
        (direct_visitEndVisit now scheduleID req.Latitude req.Longitude req.Notes w1))
      (fun _ => ⟨_, rfl⟩)

theorem direct_cancelVisit (now : Time) (scheduleID : Int) (w : World) :
    w.Direct (ScheduleService.CancelVisit now scheduleID w) := by
  unfold ScheduleService.CancelVisit
  have hg := direct_scheduleGetByID scheduleID w
  generalize scheduleRepository.GetByID scheduleID w = r at hg ⊢
  rcases r with ⟨e | (_ | schedule), w1⟩
  · exact direct_fail w w1 _ hg.1
  · exact direct_fail w w1 _ hg.1
  · simp only []
    split
    · exact direct_fail w w1 _ hg.1
    · refine direct_then w (.ok (some schedule), w1) _ hg
        (direct_write_then_update now _ (fun err => "failed to cancel visit: " ++ err) w1 _ ?_)
        (fun _ => ⟨_, rfl⟩)
      split
      · exact direct_visitCancelVisit now scheduleID w1
      · exact ⟨rfl, fun _ => allExecuted_same _ _ rfl⟩

theorem direct_visitServiceEndVisit (now : Time) (scheduleID : Int) (latitude longitude : Rat)
    (notes : String) (w : World) :
    w.Direct (VisitService.EndVisit now scheduleID latitude longitude notes w) := by
  unfold VisitService.EndVisit
  have hg := direct_visitGet scheduleID w
  generalize visitRepository.GetByScheduleID scheduleID w = r at hg ⊢
  rcases r with ⟨e | (_ | visit), w1⟩
  · exact direct_fail w w1 _ hg.1
  · exact direct_fail w w1 _ hg.1
  · simp only []
    split
    · exact direct_fail w w1 _ hg.1
    · have hu := direct_visitUpdate now (visit.ended now latitude longitude notes) w1
      generalize visitRepository.Update now (visit.ended now latitude longitude notes) w1 = r2
        at hu ⊢
      rcases r2 with ⟨e | u, w2⟩
      · exact direct_fail w w2 _ (hu.1.trans hg.1)
      · exact direct_then w (.ok (some visit), w1) _ hg hu (fun _ => ⟨_, rfl⟩)


/-- C20 as stated fails: on the sample database, with a driver that executes three statements,
reports `database is locked` on the fourth, the schedule-status write of Start, and would
execute every later one, `StartVisit` at minute 590 returns that error; the schedule update
was called once, nothing slept, and the schedule row is still `scheduled` while the visit is
started. Likewise when the locked error meets the third statement, the visit write. -/
theorem C20_start_returns_locked_error :
    isDatabaseLockedError (some "database is locked") = true ∧
    (ScheduleService.StartVisit (590 * Minute) 1 ⟨40, -74⟩ lockedWorld).1 =
      .error "failed to update schedule status: failed to update schedule: database is locked" ∧
    (ScheduleService.StartVisit (590 * Minute) 1 ⟨40, -74⟩ lockedWorld).2.faults = [] ∧
    (ScheduleService.StartVisit (590 * Minute) 1 ⟨40, -74⟩ lockedWorld).2.sleeps = [] ∧
    (((ScheduleService.StartVisit (590 * Minute) 1 ⟨40, -74⟩ lockedWorld).2.callsSince
        lockedWorld).filter Call.isWrite).length = 3 ∧
    (ScheduleService.StartVisit (590 * Minute) 1 ⟨40, -74⟩ lockedWorld).2.statusOf 1 =
      some "scheduled" ∧
    (ScheduleService.StartVisit (590 * Minute) 1 ⟨40, -74⟩ lockedWorld).2.started 1 = true ∧
    ScheduleService.StartVisit (590 * Minute) 1 ⟨40, -74⟩
        { sampleWorld with faults := [none, none, some "database is locked"] } =
      (.error "failed to start visit: failed to update visit: database is locked",
        { sampleWorld with
            trace := [Call.scheduleGetByID 1, Call.visitStartVisit 1 40 (-74),
              Call.visitGetByScheduleID 1,
              Call.visitUpdate (sampleVisit.started (590 * Minute) 40 (-74))] }) := by
  decide

/-- C20, amended: no write of the lifecycle engine is retried. `ScheduleService.StartVisit`,
`EndVisit` and `CancelVisit` sleep at no point, and when one of them succeeds every
statement it sent was executed by the driver, so that a statement the driver fails, with a
locked error or any other, makes the operation return an error; and
`scheduleRepository.Update` and `visitRepository.Update`, the schedule-status write and the
visit write, return the error of the driver after the one statement they send. -/
theorem C20_lifecycle_writes_once (scheduleID : Int) (op : Op) (w : World) :
    (ScheduleService.call scheduleID op w).2.sleeps = w.sleeps ∧
    ((ScheduleService.call scheduleID op w).1 = .ok () →
      w.AllExecuted (ScheduleService.call scheduleID op w).2) ∧
    (∀ now schedule e, w.outcome 0 = some e →
      scheduleRepository.Update now schedule w =
        (.error ("failed to update schedule: " ++ e), { w with
          faults := w.faults.drop 1,
          trace := w.trace ++ [Call.scheduleUpdate schedule] })) ∧
    (∀ now visit e, w.outcome 0 = some e →
      visitRepository.Update now visit w =
        (.error ("failed to update visit: " ++ e), { w with
          faults := w.faults.drop 1,
          trace := w.trace ++ [Call.visitUpdate visit] })) := by
  have hd : w.Direct (ScheduleService.call scheduleID op w) := by
    unfold ScheduleService.call
    cases op with
    | Start now req => exact direct_startVisit now scheduleID req w
    | End now req => exact direct_endVisit now scheduleID req w
    | Cancel now => exact direct_cancelVisit now scheduleID w
  refine ⟨hd.1, fun h => hd.2 ⟨(), h⟩, ?_, ?_⟩
  · intro now schedule e he
    unfold scheduleRepository.Update
    rw [nextFault_outcome]
    have he2 : (w.log (Call.scheduleUpdate schedule)).outcome 0 = some e := he
    rw [he2]
    rfl
  · intro now visit e he
    unfold visitRepository.Update
    rw [nextFault_outcome]
    have he2 : (w.log (Call.visitUpdate visit)).outcome 0 = some e := he
    rw [he2]
    rfl

/-- C20, amended, on the sample database: with a driver that reports `database is locked`
once and would then execute, the schedule-status write returns the error after one
statement; with a driver that reports no error Start succeeds, every statement executed. -/
theorem C20_lifecycle_writes_once_witness :
    scheduleRepository.Update (590 * Minute)
        { scanSchedule sampleSchedule with Status := "in_progress" } busyWorld =
      (.error "failed to update schedule: database is locked",
        { sampleWorld with
            faults := [none],
            trace := [Call.scheduleUpdate
              { scanSchedule sampleSchedule with Status := "in_progress" }] }) ∧
    sampleWorld.AllExecuted
      (ScheduleService.call 1 (Op.Start (590 * Minute) ⟨40, -74⟩) sampleWorld).2 :=
  ⟨(C20_lifecycle_writes_once 1 (Op.Cancel 0) busyWorld).2.2.1 (590 * Minute)
      { scanSchedule sampleSchedule with Status := "in_progress" } "database is locked" rfl,
   (C20_lifecycle_writes_once 1 (Op.Start (590 * Minute) ⟨40, -74⟩) sampleWorld).2.1
      (by decide)⟩

/-! ## Errors of the repositories and what the services return -/

theorem getToday_one (now : Time) (caregiverID : Int) (w : World) (row : ScheduleRow)
    (fs : List (Option String)) (hs : w.schedules = [row]) (hf : w.faults = none :: fs)
    (hb : w.breaks = [])
    (hm : scheduleRepository.matchesFilter w
      (some { CaregiverID := some caregiverID, Date := some now }) row = true) :
    scheduleRepository.GetToday now caregiverID w =
      (.ok [scanSchedule row], { w with
        faults := fs,
        trace := w.trace ++ [Call.scheduleGetToday caregiverID, Call.scheduleGetAll
          (some { CaregiverID := some caregiverID, Date := some now })] }) := by
  unfold scheduleRepository.GetToday
  rw [scheduleGetAll_eq]
  have ho : (w.log (Call.scheduleGetToday caregiverID)).outcome 0 = none := by
    simp [World.outcome, World.log, hf]
  have hmf := matchesFilter_congr w (w.log (Call.scheduleGetToday caregiverID)) rfl
  have hs2 : (w.log (Call.scheduleGetToday caregiverID)).schedules = [row] := hs
  have hb2 : (w.log (Call.scheduleGetToday caregiverID)).breaks = [] := hb
  have hf2 : (w.log (Call.scheduleGetToday caregiverID)).faults = none :: fs := hf
  rw [ho, hmf, hs2, hb2, hf2]
  simp [World.log, hm, scheduleRepository.page, collected]
  exact ⟨hs.symm, hb⟩

/-- C21 as stated fails: on the sample database, with a driver that executes the schedule
query and reports `disk I/O error` on the next statement, the visit lookup made while
enriching schedule 1 returns an error and `GetScheduleByID`, `GetAllSchedules` and
`GetTodaySchedules` return no error; the schedule comes back without its visit, which the
table holds. With the visit in progress, `GetTodaySchedules` at minute 800 then reports the
schedule `missed`, where it reports `in_progress` when the lookup succeeds. -/
theorem C21_enrichment_error_swallowed :
    (visitRepository.GetByScheduleID 1 (scheduleRepository.GetByID 1 ioFaultWorld).2).1 =
      .error "failed to get visit: disk I/O error" ∧
    ioFaultWorld.visitOf 1 = some sampleVisit ∧
    (ScheduleService.GetScheduleByID 1 ioFaultWorld).1 =
      .ok (some (scanSchedule sampleSchedule)) ∧
    (ScheduleService.GetAllSchedules none ioFaultWorld).1 =
      .ok [scanSchedule sampleSchedule] ∧
    (ScheduleService.GetTodaySchedules (580 * Minute) 1 ioFaultWorld).1 =
      .ok [scanSchedule sampleSchedule] ∧
    ((ScheduleService.GetTodaySchedules (800 * Minute) 1
        { halfStartedWorld with faults := [none, some "disk I/O error"] }).1.toOption.map
      (fun l => l.map (fun s => s.Status))) = some ["missed"] ∧
    ((ScheduleService.GetTodaySchedules (800 * Minute) 1
        { halfStartedWorld with faults := [none] }).1.toOption.map
      (fun l => l.map (fun s => s.Status))) = some ["in_progress"] := by
  refine ⟨by decide, by decide, by decide, ?_, ?_, ?_, ?_⟩
  · simp [ScheduleService.GetAllSchedules, scheduleRepository.GetAll, World.log,
      World.nextFault, World.nextBreak, collected, ioFaultWorld, sampleWorld,
      scheduleRepository.matchesFilter, scheduleRepository.page, ScheduleService.enrichAll,
      ScheduleService.enrichSchedule, visitRepository.GetByScheduleID]
  · unfold ScheduleService.GetTodaySchedules
    rw [getToday_one (580 * Minute) 1 ioFaultWorld sampleSchedule [some "disk I/O error"]
      rfl rfl rfl (by decide)]
    decide
  · unfold ScheduleService.GetTodaySchedules
    rw [getToday_one (800 * Minute) 1 _ sampleSchedule
      [some "disk I/O error"] rfl rfl rfl (by decide)]
    decide
  · unfold ScheduleService.GetTodaySchedules
    rw [getToday_one (800 * Minute) 1 _ sampleSchedule [] rfl rfl rfl (by decide)]
    decide


/-- C21, amended. An error returned by a repository call is returned, wrapped, by the
operation that made the call, in every world and for every operation of `ScheduleService`,
`VisitService` and `TaskService` and every repository call it makes, the methods the visit
repository calls on itself included, with one exception: the error `enrichSchedule` returns
for a failed visit or task lookup is dropped by `GetScheduleByID`, `GetAllSchedules` and
`GetTodaySchedules`, which return what they read, the schedule concerned without the data
that could not be loaded. The conjuncts are, in order: the lifecycle operations and
`GetScheduleStats`; the three reads; `VisitService`; `TaskService`; the visit repository. -/
theorem C21_persistence_errors (w : World) :
    ((∀ now id req e w1, scheduleRepository.GetByID id w = (.error e, w1) →
        ScheduleService.StartVisit now id req w =
          (.error ("failed to get schedule: " ++ e), w1)) ∧
      (∀ now id req schedule w1 e w2,
        scheduleRepository.GetByID id w = (.ok (some schedule), w1) →
        ¬ now < schedule.StartTime + (-30) * Minute →
        visitRepository.StartVisit now id req.Latitude req.Longitude w1 = (.error e, w2) →
        ScheduleService.StartVisit now id req w =
          (.error ("failed to start visit: " ++ e), w2)) ∧
      (∀ now id req schedule w1 w2 e w3,
        scheduleRepository.GetByID id w = (.ok (some schedule), w1) →
        ¬ now < schedule.StartTime + (-30) * Minute →
        visitRepository.StartVisit now id req.Latitude req.Longitude w1 = (.ok (), w2) →
        scheduleRepository.Update now { schedule with Status := "in_progress" } w2 =
          (.error e, w3) →
        ScheduleService.StartVisit now id req w =
          (.error ("failed to update schedule status: " ++ e), w3)) ∧
      (∀ now id req e w1, scheduleRepository.GetByID id w = (.error e, w1) →
        ScheduleService.EndVisit now id req w =
          (.error ("failed to get schedule: " ++ e), w1)) ∧
      (∀ now id req schedule w1 e w2,
        scheduleRepository.GetByID id w = (.ok (some schedule), w1) →
        visitRepository.EndVisit now id req.Latitude req.Longitude req.Notes w1 =
          (.error e, w2) →
        ScheduleService.EndVisit now id req w = (.error ("failed to end visit: " ++ e), w2)) ∧
      (∀ now id req schedule w1 w2 e w3,
        scheduleRepository.GetByID id w = (.ok (some schedule), w1) →
        visitRepository.EndVisit now id req.Latitude req.Longitude req.Notes w1 =
          (.ok (), w2) →
        scheduleRepository.Update now { schedule with Status := "completed" } w2 =
          (.error e, w3) →
        ScheduleService.EndVisit now id req w =
          (.error ("failed to update schedule status: " ++ e), w3)) ∧
      (∀ now id e w1, scheduleRepository.GetByID id w = (.error e, w1) →
        ScheduleService.CancelVisit now id w =
          (.error ("failed to get schedule: " ++ e), w1)) ∧
      (∀ now id schedule w1 e w2,
        scheduleRepository.GetByID id w = (.ok (some schedule), w1) →
        schedule.Status = "in_progress" →
        visitRepository.CancelVisit now id w1 = (.error e, w2) →
        ScheduleService.CancelVisit now id w =
          (.error ("failed to cancel visit: " ++ e), w2)) ∧
      (∀ now id schedule w1 w2 e w3,
        scheduleRepository.GetByID id w = (.ok (some schedule), w1) →
        schedule.Status = "in_progress" →
        visitRepository.CancelVisit now id w1 = (.ok (), w2) →
        scheduleRepository.Update now { schedule with Status := "scheduled" } w2 =
          (.error e, w3) →
        ScheduleService.CancelVisit now id w =
          (.error ("failed to update schedule status: " ++ e), w3)) ∧
      (∀ now id schedule w1 e w3,
        scheduleRepository.GetByID id w = (.ok (some schedule), w1) →
        schedule.Status = "scheduled" →
        scheduleRepository.Update now { schedule with Status := "scheduled" } w1 =
          (.error e, w3) →
        ScheduleService.CancelVisit now id w =
          (.error ("failed to update schedule status: " ++ e), w3)) ∧
      (∀ now caregiverID e w1,
        scheduleRepository.GetStats now caregiverID w = (.error e, w1) →
        ScheduleService.GetScheduleStats now caregiverID w =
          (.error ("failed to get schedule stats: " ++ e), w1))) ∧
    ((∀ id e w1, scheduleRepository.GetByID id w = (.error e, w1) →
        ScheduleService.GetScheduleByID id w =
          (.error ("failed to get schedule: " ++ e), w1)) ∧
      (∀ filter e w1, scheduleRepository.GetAll filter w = (.error e, w1) →
        ScheduleService.GetAllSchedules filter w =
          (.error ("failed to get schedules: " ++ e), w1)) ∧
      (∀ now caregiverID e w1,
        scheduleRepository.GetToday now caregiverID w = (.error e, w1) →
        ScheduleService.GetTodaySchedules now caregiverID w =
          (.error ("failed to get today's schedules: " ++ e), w1)) ∧
      (∀ schedule e w1, visitRepository.GetByScheduleID schedule.ID w = (.error e, w1) →
        ScheduleService.enrichSchedule schedule w =
          (.error ("failed to get visit: " ++ e), schedule, w1)) ∧
      (∀ schedule visit w1 e w2,
        visitRepository.GetByScheduleID schedule.ID w = (.ok visit, w1) →
        taskRepository.GetByScheduleID schedule.ID w1 = (.error e, w2) →
        ScheduleService.enrichSchedule schedule w =
          (.error ("failed to get tasks: " ++ e), { schedule with Visit := visit }, w2)) ∧
      (∀ id schedule w1 r schedule1 w2,
        scheduleRepository.GetByID id w = (.ok (some schedule), w1) →
        ScheduleService.enrichSchedule schedule w1 = (r, schedule1, w2) →
        ScheduleService.GetScheduleByID id w = (.ok (some schedule1), w2)) ∧
      (∀ schedule rest r schedule1 w1,
        ScheduleService.enrichSchedule schedule w = (r, schedule1, w1) →
        ScheduleService.enrichAll (schedule :: rest) w =
          (schedule1 :: (ScheduleService.enrichAll rest w1).1,
            (ScheduleService.enrichAll rest w1).2)) ∧
      (∀ filter rows w1, scheduleRepository.GetAll filter w = (.ok rows, w1) →
        ScheduleService.GetAllSchedules filter w =
          (.ok (ScheduleService.enrichAll rows w1).1, (ScheduleService.enrichAll rows w1).2) ∧
        (ScheduleService.enrichAll rows w1).1.map Schedule.columns =
          rows.map Schedule.columns) ∧
      (∀ now caregiverID rows w1,
        scheduleRepository.GetToday now caregiverID w = (.ok rows, w1) →
        ScheduleService.GetTodaySchedules now caregiverID w =
          (.ok ((ScheduleService.enrichAll rows w1).1.map
              (ScheduleService.updateScheduleStatus now)),
            (ScheduleService.enrichAll rows w1).2))) ∧
    ((∀ scheduleID e w1, visitRepository.GetByScheduleID scheduleID w = (.error e, w1) →
        VisitService.GetVisitByScheduleID scheduleID w =
          (.error ("failed to get visit: " ++ e), w1)) ∧
      (∀ now visit e w1, VisitService.validateVisit visit = .ok () →
        visitRepository.Create now visit w = (.error e, w1) →
        VisitService.CreateVisit now visit w =
          (.error ("failed to create visit: " ++ e), w1)) ∧
      (∀ now visit e w1, VisitService.validateVisit visit = .ok () →
        visitRepository.Update now visit w = (.error e, w1) →
        VisitService.UpdateVisit now visit w =
          (.error ("failed to update visit: " ++ e), w1)) ∧
      (∀ now scheduleID latitude longitude notes e w1,
        visitRepository.GetByScheduleID scheduleID w = (.error e, w1) →
        VisitService.EndVisit now scheduleID latitude longitude notes w =
          (.error ("failed to get visit: " ++ e), w1)) ∧
      (∀ now scheduleID latitude longitude notes visit w1 e w2,
        visitRepository.GetByScheduleID scheduleID w = (.ok (some visit), w1) →
        visit.StartTime ≠ none →
        visitRepository.Update now (visit.ended now latitude longitude notes) w1 =
          (.error e, w2) →
        VisitService.EndVisit now scheduleID latitude longitude notes w =
          (.error ("failed to update visit: " ++ e), w2))) ∧
    ((∀ scheduleID e w1, taskRepository.GetByScheduleID scheduleID w = (.error e, w1) →
        TaskService.GetTasksByScheduleID scheduleID w =
          (.error ("failed to get tasks: " ++ e), w1)) ∧
      (∀ id e w1, taskRepository.GetByID id w = (.error e, w1) →
        TaskService.GetTaskByID id w = (.error ("failed to get task: " ++ e), w1)) ∧
      (∀ now id req e w1, TaskService.validateTaskUpdateRequest req = .ok () →
        taskRepository.GetByID id w = (.error e, w1) →
        TaskService.UpdateTaskStatus now id req w =
          (.error ("failed to get task: " ++ e), w1)) ∧
      (∀ now id req task w1 e w2, TaskService.validateTaskUpdateRequest req = .ok () →
        taskRepository.GetByID id w = (.ok (some task), w1) →
        taskRepository.UpdateStatus now id req.Status req.Reason w1 = (.error e, w2) →
        TaskService.UpdateTaskStatus now id req w =
          (.error ("failed to update task status: " ++ e), w2)) ∧
      (∀ now task e w1, TaskService.validateTask task = .ok () →
        taskRepository.Create now task w = (.error e, w1) →
        TaskService.CreateTask now task w = (.error ("failed to create task: " ++ e), w1)) ∧
      (∀ now task e w1, TaskService.validateTask task = .ok () →
        taskRepository.Update now task w = (.error e, w1) →
        TaskService.UpdateTask now task w = (.error ("failed to update task: " ++ e), w1)) ∧
      (∀ id e w1, taskRepository.GetByID id w = (.error e, w1) →
        TaskService.DeleteTask id w = (.error ("failed to get task: " ++ e), w1)) ∧
      (∀ id task w1 e w2, taskRepository.GetByID id w = (.ok (some task), w1) →
        taskRepository.Delete id w1 = (.error e, w2) →
        TaskService.DeleteTask id w = (.error ("failed to delete task: " ++ e), w2))) ∧
    ((∀ now scheduleID latitude longitude e w1,
        visitRepository.GetByScheduleID scheduleID
          (w.log (Call.visitStartVisit scheduleID latitude longitude)) = (.error e, w1) →
        visitRepository.StartVisit now scheduleID latitude longitude w =
          (.error ("failed to check existing visit: " ++ e), w1)) ∧
      (∀ now scheduleID latitude longitude w1 e w2,
        visitRepository.GetByScheduleID scheduleID
          (w.log (Call.visitStartVisit scheduleID latitude longitude)) = (.ok none, w1) →
        visitRepository.Create now
          { ScheduleID := scheduleID, StartTime := some now, StartLatitude := some latitude,
            StartLongitude := some longitude, Status := "in_progress" } w1 = (.error e, w2) →
        visitRepository.StartVisit now scheduleID latitude longitude w = (.error e, w2)) ∧
      (∀ now scheduleID latitude longitude visit w1 e w2,
        visitRepository.GetByScheduleID scheduleID
          (w.log (Call.visitStartVisit scheduleID latitude longitude)) =
            (.ok (some visit), w1) →
        visitRepository.Update now (visit.started now latitude longitude) w1 = (.error e, w2) →
        visitRepository.StartVisit now scheduleID latitude longitude w = (.error e, w2)) ∧
      (∀ now scheduleID latitude longitude notes e w1,
        visitRepository.GetByScheduleID scheduleID
          (w.log (Call.visitEndVisit scheduleID latitude longitude notes)) = (.error e, w1) →
        visitRepository.EndVisit now scheduleID latitude longitude notes w =
          (.error ("failed to get visit: " ++ e), w1)) ∧
      (∀ now scheduleID latitude longitude notes visit w1 e w2,
        visitRepository.GetByScheduleID scheduleID
          (w.log (Call.visitEndVisit scheduleID latitude longitude notes)) =
            (.ok (some visit), w1) →
        visit.StartTime ≠ none →
        visitRepository.Update now (visit.ended now latitude longitude notes) w1 =
          (.error e, w2) →
        visitRepository.EndVisit now scheduleID latitude longitude notes w = (.error e, w2)) ∧
      (∀ now scheduleID e w1,
        visitRepository.GetByScheduleID scheduleID
          (w.log (Call.visitCancelVisit scheduleID)) = (.error e, w1) →
        visitRepository.CancelVisit now scheduleID w =
          (.error ("failed to get visit: " ++ e), w1)) ∧
      (∀ now scheduleID visit w1 e w2,
        visitRepository.GetByScheduleID scheduleID
          (w.log (Call.visitCancelVisit scheduleID)) = (.ok (some visit), w1) →
        visit.Status = "in_progress" →
        visitRepository.Update now visit.cancelled w1 = (.error e, w2) →
        visitRepository.CancelVisit now scheduleID w = (.error e, w2))) := by
  refine ⟨⟨?_, ?_, ?_, ?_, ?_, ?_, ?_, ?_, ?_, ?_, ?_⟩, ⟨?_, ?_, ?_, ?_, ?_, ?_, ?_, ?_, ?_⟩,
    ⟨?_, ?_, ?_, ?_, ?_⟩, ⟨?_, ?_, ?_, ?_, ?_, ?_, ?_, ?_⟩, ⟨?_, ?_, ?_, ?_, ?_, ?_, ?_⟩⟩
  · intro now id req e w1 h
    unfold ScheduleService.StartVisit
    rw [h]
  · intro now id req schedule w1 e w2 h ht h2
    unfold ScheduleService.StartVisit
    rw [h]
    simp only [if_neg ht, h2]
  · intro now id req schedule w1 w2 e w3 h ht h2 h3
    unfold ScheduleService.StartVisit
    rw [h]
    simp only [if_neg ht, h2, h3]
  · intro now id req e w1 h
    unfold ScheduleService.EndVisit
    rw [h]
  · intro now id req schedule w1 e w2 h h2
    unfold ScheduleService.EndVisit
    rw [h]
    simp only [h2]
  · intro now id req schedule w1 w2 e w3 h h2 h3
    unfold ScheduleService.EndVisit
    rw [h]
    simp only [h2, h3]
  · intro now id e w1 h
    unfold ScheduleService.CancelVisit
    rw [h]
  · intro now id schedule w1 e w2 h hst h2
    unfold ScheduleService.CancelVisit
    rw [h]
    simp only [hst, h2]
    rw [if_neg (by decide)]
    simp only [if_true]
  · intro now id schedule w1 w2 e w3 h hst h2 h3
    unfold ScheduleService.CancelVisit
    rw [h]
    simp only [hst, h2]
    rw [if_neg (by decide)]
    simp only [if_true, h3]
  · intro now id schedule w1 e w3 h hst h3
    unfold ScheduleService.CancelVisit
    rw [h]
    simp only [hst]
    rw [if_neg (by decide), if_neg (by decide)]
    simp only [h3]
  · intro now caregiverID e w1 h
    unfold ScheduleService.GetScheduleStats
    rw [h]
  · intro id e w1 h
    unfold ScheduleService.GetScheduleByID
    rw [h]
  · intro filter e w1 h
    unfold ScheduleService.GetAllSchedules
    rw [h]
  · intro now caregiverID e w1 h
    unfold ScheduleService.GetTodaySchedules
    rw [h]
  · intro schedule e w1 h
    unfold ScheduleService.enrichSchedule
    rw [h]
  · intro schedule visit w1 e w2 h h2
    unfold ScheduleService.enrichSchedule
    rw [h]
    simp only [h2]
  · intro id schedule w1 r schedule1 w2 h h2
    unfold ScheduleService.GetScheduleByID
    rw [h]
    simp only [h2]
  · intro schedule rest r schedule1 w1 h
    simp only [ScheduleService.enrichAll, h]
  · intro filter rows w1 h
    refine ⟨?_, (enrichAll_spec rows w1).2.2.2.2.1⟩
    unfold ScheduleService.GetAllSchedules
    rw [h]
  · intro now caregiverID rows w1 h
    unfold ScheduleService.GetTodaySchedules
    rw [h]
  · intro scheduleID e w1 h
    unfold VisitService.GetVisitByScheduleID
    rw [h]
  · intro now visit e w1 hv h
    unfold VisitService.CreateVisit
    rw [hv]
    simp only [h]
  · intro now visit e w1 hv h
    unfold VisitService.UpdateVisit
    rw [hv]
    simp only [h]
  · intro now scheduleID latitude longitude notes e w1 h
    unfold VisitService.EndVisit
    rw [h]
  · intro now scheduleID latitude longitude notes visit w1 e w2 h hst h2
    unfold VisitService.EndVisit
    rw [h]
    simp only [if_neg hst, h2]
  · intro scheduleID e w1 h
    unfold TaskService.GetTasksByScheduleID
    rw [h]
  · intro id e w1 h
    unfold TaskService.GetTaskByID
    rw [h]
  · intro now id req e w1 hv h
    unfold TaskService.UpdateTaskStatus
    rw [hv]
    simp only [h]
  · intro now id req task w1 e w2 hv h h2
    unfold TaskService.UpdateTaskStatus
    rw [hv]
    simp only [h, h2]
  · intro now task e w1 hv h
    unfold TaskService.CreateTask
    rw [hv]
    simp only [h]
  · intro now task e w1 hv h
    unfold TaskService.UpdateTask
    rw [hv]
    simp only [h]
  · intro id e w1 h
    unfold TaskService.DeleteTask
    rw [h]
  · intro id task w1 e w2 h h2
    unfold TaskService.DeleteTask
    rw [h]
    simp only [h2]
  · intro now scheduleID latitude longitude e w1 h
    unfold visitRepository.StartVisit
    rw [h]
  · intro now scheduleID latitude longitude w1 e w2 h h2
    unfold visitRepository.StartVisit
    rw [h]
    simp only [h2]
  · intro now scheduleID latitude longitude visit w1 e w2 h h2
    unfold visitRepository.StartVisit
    rw [h]
    simp only [h2]
  · intro now scheduleID latitude longitude notes e w1 h
    unfold visitRepository.EndVisit
    rw [h]
  · intro now scheduleID latitude longitude notes visit w1 e w2 h hst h2
    unfold visitRepository.EndVisit
    rw [h]
    simp only [if_neg hst, h2]
  · intro now scheduleID e w1 h
    unfold visitRepository.CancelVisit
    rw [h]
  · intro now scheduleID visit w1 e w2 h hst h2
    unfold visitRepository.CancelVisit
    rw [h]
    simp only [hst, h2]
    rw [if_neg (by simp)]


/-- C21, amended, on the sample databases. With a driver that reports `database is locked` on
the fourth statement, `scheduleRepository.Update` returns an error and `StartVisit` returns
it. With a driver that reports `disk I/O error` on the second statement, `enrichSchedule`
returns an error and `GetScheduleByID` returns the schedule without its visit. -/
theorem C21_persistence_errors_witness :
    ScheduleService.StartVisit (590 * Minute) 1 ⟨40, -74⟩ lockedWorld =
      (.error "failed to update schedule status: failed to update schedule: database is locked",
        (ScheduleService.StartVisit (590 * Minute) 1 ⟨40, -74⟩ lockedWorld).2) ∧
    (ScheduleService.enrichSchedule (scanSchedule sampleSchedule)
        (scheduleRepository.GetByID 1 ioFaultWorld).2).1 =
      .error "failed to get visit: failed to get visit: disk I/O error" ∧
    ScheduleService.GetScheduleByID 1 ioFaultWorld =
      (.ok (some (scanSchedule sampleSchedule)),
        (ScheduleService.GetScheduleByID 1 ioFaultWorld).2) :=
  ⟨(C21_persistence_errors lockedWorld).1.2.2.1 (590 * Minute) 1 ⟨40, -74⟩
      (scanSchedule sampleSchedule) _ _ "failed to update schedule: database is locked" _
      rfl (by decide) rfl rfl,
    by decide,
    (C21_persistence_errors ioFaultWorld).2.1.2.2.2.2.2.1 1 (scanSchedule sampleSchedule) _
      (.error "failed to get visit: failed to get visit: disk I/O error")
      (scanSchedule sampleSchedule) _ rfl rfl⟩

/-! ## The answers of the handlers -/

theorem append_ne (a b s : String) (n : Nat) (hn : n ≤ a.data.length)
    (h : a.data.take n ≠ b.data.take n) : a ++ s ≠ b := by
  intro heq
  apply h
  have h2 := congrArg (fun t => t.data.take n) heq
  simp only [String.data_append] at h2
  rw [List.take_append_of_le_length hn] at h2
  exact h2

theorem cancelVisit_error_shape (now : Time) (scheduleID : Int) (w : World) (err : String)
    (h : (ScheduleService.CancelVisit now scheduleID w).1 = .error err) :
    err = "schedule not found" ∨ (∃ e, err = "failed to get schedule: " ++ e) ∨
    (∃ s, err = "visit cannot be cancelled in status: " ++ s) ∨
    (∃ e, err = "failed to cancel visit: " ++ e) ∨
    (∃ e, err = "failed to update schedule status: " ++ e) := by
  unfold ScheduleService.CancelVisit at h
  generalize scheduleRepository.GetByID scheduleID w = r at h
  rcases r with ⟨e | (_ | schedule), w1⟩
  · simp only [Except.error.injEq] at h
    exact Or.inr (Or.inl ⟨e, h.symm⟩)
  · simp only [Except.error.injEq] at h
    exact Or.inl h.symm
  · simp only [] at h
    split at h
    · simp only [Except.error.injEq] at h
      exact Or.inr (Or.inr (Or.inl ⟨_, h.symm⟩))
    · generalize (if schedule.Status = "in_progress" then
          visitRepository.CancelVisit now scheduleID w1 else (Except.ok (), w1)) = r2 at h
      rcases r2 with ⟨e | u, w2⟩
      · simp only [Except.error.injEq] at h
        exact Or.inr (Or.inr (Or.inr (Or.inl ⟨_, h.symm⟩)))
      · simp only [] at h
        generalize scheduleRepository.Update now { schedule with Status := "scheduled" } w2
          = r3 at h
        rcases r3 with ⟨e | u, w3⟩
        · simp only [Except.error.injEq] at h
          exact Or.inr (Or.inr (Or.inr (Or.inr ⟨_, h.symm⟩)))
        · cases h

theorem cancelVisit_never_notInProgress (now : Time) (scheduleID : Int) (w : World) :
    (ScheduleService.CancelVisit now scheduleID w).1 ≠ .error "visit not in progress" := by
  intro h
  rcases cancelVisit_error_shape now scheduleID w _ h with h | ⟨e, h⟩ | ⟨e, h⟩ | ⟨e, h⟩ | ⟨e, h⟩
  · exact absurd h (by decide)
  · exact append_ne _ _ e 1 (by decide) (by decide) h.symm
  · exact append_ne _ _ e 7 (by decide) (by decide) h.symm
  · exact append_ne _ _ e 1 (by decide) (by decide) h.symm
  · exact append_ne _ _ e 1 (by decide) (by decide) h.symm


/-- C22 as stated fails: on the sample database the too-early error of a Start at minute 480,
the not-started error of an End and, once the visit is completed, the invalid-transition
error of a Cancel are each answered with status 500. -/
theorem C22_lifecycle_errors_answered_500 :
    (Handler.startVisit (480 * Minute) (.ok 1) (.ok ⟨40, -74⟩) sampleWorld).1 =
      Handler.errorResponse 500 "Failed to start visit"
        "cannot start visit more than 30 minutes before scheduled time" ∧
    (Handler.endVisit (660 * Minute) (.ok 1) (.ok ⟨40, -74, "done"⟩) sampleWorld).1 =
      Handler.errorResponse 500 "Failed to end visit"
        "failed to end visit: cannot end visit that hasn't been started" ∧
    (Handler.cancelVisit (700 * Minute) (.ok 1) completedWorld).1 =
      Handler.errorResponse 500 "Failed to cancel visit"
        "visit cannot be cancelled in status: completed" := by
  decide

/-- C22, amended: when the schedule id and the request body are read, `startVisit` and
`endVisit` answer 200 when the service returns no error, 404 when it returns
`schedule not found`, and 500 for every other error; `cancelVisit` answers 200 when the
service returns no error, 404 when it returns `schedule not found`, and 500 when it returns
the invalid-transition error `visit cannot be cancelled in status: ...`. So, the driver
reporting no error, an absent schedule is answered 404 and the too-early error of Start,
the not-started error of End and the invalid-transition error of Cancel are answered 500.
Nothing is said here of the answer of `cancelVisit` to the other errors of the service. -/
theorem C22_handler_status_codes (now : Time) (id : Int) (w : World) :
    (∀ req, (Handler.startVisit now (.ok id) (.ok req) w).1.Code =
      match (ScheduleService.StartVisit now id req w).1 with
      | .ok _ => 200
      | .error err => if err = "schedule not found" then 404 else 500) ∧
    (∀ req, (Handler.endVisit now (.ok id) (.ok req) w).1.Code =
      match (ScheduleService.EndVisit now id req w).1 with
      | .ok _ => 200
      | .error err => if err = "schedule not found" then 404 else 500) ∧
    ((∀ w1, ScheduleService.CancelVisit now id w = (.ok (), w1) →
        (Handler.cancelVisit now (.ok id) w).1.Code = 200) ∧
      (∀ w1, ScheduleService.CancelVisit now id w = (.error "schedule not found", w1) →
        Handler.cancelVisit now (.ok id) w =
          ({ Code := 404, Error := some "Schedule not found" }, w1)) ∧
      (∀ status w1,
        ScheduleService.CancelVisit now id w =
          (.error ("visit cannot be cancelled in status: " ++ status), w1) →
        Handler.cancelVisit now (.ok id) w =
          (Handler.errorResponse 500 "Failed to cancel visit"
            ("visit cannot be cancelled in status: " ++ status), w1))) ∧
    (w.faults = [] → w.scheduleOf id = none →
      (∀ req, (Handler.startVisit now (.ok id) (.ok req) w).1.Code = 404) ∧
      (∀ req, (Handler.endVisit now (.ok id) (.ok req) w).1.Code = 404) ∧
      (Handler.cancelVisit now (.ok id) w).1.Code = 404) ∧
    (w.faults = [] → ∀ row, w.scheduleOf id = some row →
      (now < row.StartTime - 30 * Minute →
        ∀ req, (Handler.startVisit now (.ok id) (.ok req) w).1 =
          Handler.errorResponse 500 "Failed to start visit"
            "cannot start visit more than 30 minutes before scheduled time") ∧
      ((∀ v, w.visitOf id = some v → v.StartTime = none) →
        ∀ req, (Handler.endVisit now (.ok id) (.ok req) w).1.Code = 500 ∧
          (Handler.endVisit now (.ok id) (.ok req) w).1.Error = some "Failed to end visit") ∧
      (row.Status ≠ "scheduled" → row.Status ≠ "in_progress" →
        (Handler.cancelVisit now (.ok id) w).1 =
          Handler.errorResponse 500 "Failed to cancel visit"
            ("visit cannot be cancelled in status: " ++ row.Status))) := by
  refine ⟨fun req => ?_, fun req => ?_, ⟨fun w1 h => ?_, fun w1 h => ?_, fun status w1 h => ?_⟩,
    fun hq hs => ⟨fun req => ?_, fun req => ?_, ?_⟩,
    fun hq row hs => ⟨fun ht req => ?_, fun hv req => ?_, fun h1 h2 => ?_⟩⟩
  · unfold Handler.startVisit
    simp only []
    rcases ScheduleService.StartVisit now id req w with ⟨e | u, w1⟩
    · simp only []
      split <;> rfl
    · rfl
  · unfold Handler.endVisit
    simp only []
    rcases ScheduleService.EndVisit now id req w with ⟨e | u, w1⟩
    · simp only []
      split <;> rfl
    · rfl
  · unfold Handler.cancelVisit
    simp only []
    rw [h]
  · unfold Handler.cancelVisit
    simp only []
    rw [h]
    simp only [if_true]
  · unfold Handler.cancelVisit
    simp only []
    rw [h]
    simp only []
    rw [if_neg (append_ne _ _ _ 1 (by decide) (by decide)),
      if_neg (append_ne _ _ _ 7 (by decide) (by decide))]
  · unfold Handler.startVisit
    simp only []
    rw [startVisit_quiet now id req w hq, hs]
    rfl
  · unfold Handler.endVisit
    simp only []
    rw [endVisit_quiet now id req w hq, hs]
    rfl
  · unfold Handler.cancelVisit
    simp only []
    rw [cancelVisit_quiet now id w hq, hs]
    rfl
  · unfold Handler.startVisit
    simp only []
    have hsub : row.StartTime + (-30) * Minute = row.StartTime - 30 * Minute := by ring
    rw [startVisit_quiet now id req w hq, hs]
    simp only [hsub]
    rw [if_pos ht]
    rfl
  · unfold Handler.endVisit
    simp only []
    rw [endVisit_quiet now id req w hq, hs]
    simp only []
    cases hvis : w.visitOf id with
    | none =>
      simp only []
      rw [if_neg (append_ne _ _ _ 1 (by decide) (by decide))]
      exact ⟨rfl, rfl⟩
    | some v =>
      simp only []
      rw [if_pos (hv v hvis)]
      exact ⟨rfl, rfl⟩
  · unfold Handler.cancelVisit
    simp only []
    rw [cancelVisit_quiet now id w hq, hs]
    simp only []
    rw [if_pos ⟨h1, h2⟩]
    simp only []
    rw [if_neg (append_ne _ _ _ 1 (by decide) (by decide)),
      if_neg (append_ne _ _ _ 7 (by decide) (by decide))]

/-- C22, amended, on the sample database: schedule 9 does not exist and a Start on it is
answered 404; a Start on schedule 1 at minute 480, ninety minutes before the admitted time,
is answered 500; and so is a Cancel of schedule 1 once it is completed. -/
theorem C22_handler_status_codes_witness :
    (Handler.startVisit (480 * Minute) (.ok 9) (.ok ⟨40, -74⟩) sampleWorld).1.Code = 404 ∧
    (Handler.startVisit (480 * Minute) (.ok 1) (.ok ⟨40, -74⟩) sampleWorld).1 =
      Handler.errorResponse 500 "Failed to start visit"
        "cannot start visit more than 30 minutes before scheduled time" ∧
    (Handler.cancelVisit (700 * Minute) (.ok 1) completedWorld).1 =
      Handler.errorResponse 500 "Failed to cancel visit"
        ("visit cannot be cancelled in status: " ++ "completed") :=
  ⟨((C22_handler_status_codes (480 * Minute) 9 sampleWorld).2.2.2.1 rfl (by decide)).1
      ⟨40, -74⟩,
   ((C22_handler_status_codes (480 * Minute) 1 sampleWorld).2.2.2.2 rfl sampleSchedule
      (by decide)).1 (by decide) ⟨40, -74⟩,
   congrArg Prod.fst ((C22_handler_status_codes (700 * Minute) 1 completedWorld).2.2.1.2.2
      "completed" (completedWorld.log (Call.scheduleGetByID 1)) (by decide))⟩

/-! ## A visit from start to end -/

/-- C23, what the code does, for schedule 1 starting at `T`, the driver reporting no error.
When the schedule has no visit row, the Start at `T` minus 10 minutes at (40.7128, -74.0060)
is refused, `visitRepository.Create` failing on its `INSERT`: no visit row is written, the
schedule row stays as it was, and the End at `T` plus one hour fails for want of a visit.
When the schedule has a visit row, the scenario runs as stated: that Start succeeds and
leaves the visit `in_progress`, started then and there, and the schedule `in_progress`; End
at `T` plus one hour with notes `done` then succeeds and leaves the visit `completed` with
the end time, the end location and the notes, and the schedule `completed`; Cancel at any
time after that fails with `visit cannot be cancelled in status: completed` and changes no
table. In either case Start at `T` minus two hours on the first state fails as too early
after the schedule lookup alone. The end time `T` plus two hours, the status `scheduled` and
the visit row holding no start time are not used. -/
theorem C23_end_to_end (w w1 w2 : World) (T : Time) (row : ScheduleRow)
    (hq : w.faults = []) (hs : w.scheduleOf 1 = some row) (hT : row.StartTime = T)
    (h1 : w1 = (ScheduleService.StartVisit (T - 10 * Minute) 1 ⟨40.7128, -74.0060⟩ w).2)
    (h2 : w2 = (ScheduleService.EndVisit (T + Hour) 1 ⟨40.7128, -74.0060, "done"⟩ w1).2) :
    (w.visitOf 1 = none →
      (ScheduleService.StartVisit (T - 10 * Minute) 1 ⟨40.7128, -74.0060⟩ w).1 =
        .error "failed to start visit: failed to create visit: 8 values for 9 columns" ∧
      w1.visits = w.visits ∧ w1.schedules = w.schedules ∧
      w1.visitOf 1 = none ∧ w1.scheduleOf 1 = some row ∧
      (ScheduleService.EndVisit (T + Hour) 1 ⟨40.7128, -74.0060, "done"⟩ w1).1 =
        .error ("failed to end visit: " ++
          ("visit not found for schedule " ++ toString (1 : Int))) ∧
      w2.visits = w.visits ∧ w2.schedules = w.schedules) ∧
    (∀ visit, w.visitOf 1 = some visit →
      (ScheduleService.StartVisit (T - 10 * Minute) 1 ⟨40.7128, -74.0060⟩ w).1 = .ok () ∧
      w1.visitOf 1 = some
        { visit with StartTime := some (T - 10 * Minute), StartLatitude := some 40.7128,
                     StartLongitude := some (-74.0060), Status := "in_progress",
                     UpdatedAt := T - 10 * Minute } ∧
      w1.scheduleOf 1 =
        some { row with Status := "in_progress", UpdatedAt := T - 10 * Minute } ∧
      (ScheduleService.EndVisit (T + Hour) 1 ⟨40.7128, -74.0060, "done"⟩ w1).1 = .ok () ∧
      w2.visitOf 1 = some
        { visit with StartTime := some (T - 10 * Minute), StartLatitude := some 40.7128,
                     StartLongitude := some (-74.0060), EndTime := some (T + Hour),
                     EndLatitude := some 40.7128, EndLongitude := some (-74.0060),
                     Status := "completed", Notes := "done", UpdatedAt := T + Hour } ∧
      w2.scheduleOf 1 = some { row with Status := "completed", UpdatedAt := T + Hour } ∧
      (∀ now, ScheduleService.CancelVisit now 1 w2 =
        (.error "visit cannot be cancelled in status: completed",
          w2.log (Call.scheduleGetByID 1)))) ∧
    ScheduleService.StartVisit (T - 2 * Hour) 1 ⟨40.7128, -74.0060⟩ w =
      (.error "cannot start visit more than 30 minutes before scheduled time",
        w.log (Call.scheduleGetByID 1)) := by
  have hmin : (0 : Int) < Minute := by decide
  have hhour : Hour = 60 * Minute := rfl
  have hadm : ¬ T - 10 * Minute < row.StartTime + (-30) * Minute := by rw [hT]; linarith
  have hearly : T - 2 * Hour < row.StartTime + (-30) * Minute := by
    rw [hT, hhour]; linarith
  have hstart := startVisit_quiet (T - 10 * Minute) 1 ⟨40.7128, -74.0060⟩ w hq
  rw [hs] at hstart
  simp only [] at hstart
  rw [if_neg hadm] at hstart
  refine ⟨fun hv => ?_, fun visit hv => ?_, ?_⟩
  · rw [hv] at hstart
    simp only [] at hstart
    have hw1 := h1
    rw [hstart] at hw1
    simp only [] at hw1
    have hq1 : w1.faults = [] := by rw [hw1]; exact hq
    have hvis1 : w1.visits = w.visits := by rw [hw1]
    have hsch1 : w1.schedules = w.schedules := by rw [hw1]
    have hv1 : w1.visitOf 1 = none := by
      unfold World.visitOf at hv ⊢
      rw [hvis1]
      exact hv
    have hs1 : w1.scheduleOf 1 = some row := by
      unfold World.scheduleOf at hs ⊢
      rw [hsch1]
      exact hs
    have hend := endVisit_quiet (T + Hour) 1 ⟨40.7128, -74.0060, "done"⟩ w1 hq1
    rw [hs1, hv1] at hend
    simp only [] at hend
    have hw2 := h2
    rw [hend] at hw2
    simp only [] at hw2
    refine ⟨congrArg Prod.fst hstart, hvis1, hsch1, hv1, hs1, congrArg Prod.fst hend, ?_, ?_⟩
    · rw [hw2]
      exact hvis1
    · rw [hw2]
      exact hsch1
  · rw [hv] at hstart
    simp only [] at hstart
    have hw1 := h1
    rw [hstart] at hw1
    simp only [] at hw1
    have hq1 : w1.faults = [] := by rw [hw1]; exact hq
    have hv1 : w1.visitOf 1 = some
        { visit with StartTime := some (T - 10 * Minute), StartLatitude := some 40.7128,
                     StartLongitude := some (-74.0060), Status := "in_progress",
                     UpdatedAt := T - 10 * Minute } := by
      have := visitOf_after_update w (T - 10 * Minute) 1 visit
        (visit.started (T - 10 * Minute) 40.7128 (-74.0060)) w1.visits hv rfl (by rw [hw1])
      exact this
    have hs1 : w1.scheduleOf 1 =
        some { row with Status := "in_progress", UpdatedAt := T - 10 * Minute } :=
      scheduleOf_after_update w (T - 10 * Minute) 1 row "in_progress" w1.schedules hs
        (by rw [hw1])
    have hend := endVisit_quiet (T + Hour) 1 ⟨40.7128, -74.0060, "done"⟩ w1 hq1
    rw [hs1, hv1] at hend
    simp only [] at hend
    rw [if_neg (by simp)] at hend
    have hw2 := h2
    rw [hend] at hw2
    simp only [] at hw2
    have hq2 : w2.faults = [] := by rw [hw2]; exact hq1
    have hv2 : w2.visitOf 1 = some
        { visit with StartTime := some (T - 10 * Minute), StartLatitude := some 40.7128,
                     StartLongitude := some (-74.0060), EndTime := some (T + Hour),
                     EndLatitude := some 40.7128, EndLongitude := some (-74.0060),
                     Status := "completed", Notes := "done", UpdatedAt := T + Hour } := by
      have := visitOf_after_update w1 (T + Hour) 1 _
        (Visit.ended (T + Hour) 40.7128 (-74.0060) "done"
          { visit with StartTime := some (T - 10 * Minute), StartLatitude := some 40.7128,
                       StartLongitude := some (-74.0060), Status := "in_progress",
                       UpdatedAt := T - 10 * Minute }) w2.visits hv1 rfl (by rw [hw2])
      simpa [Visit.ended] using this
    have hs2 : w2.scheduleOf 1 = some { row with Status := "completed", UpdatedAt := T + Hour } := by
      have := scheduleOf_after_update w1 (T + Hour) 1 _ "completed" w2.schedules hs1
        (by rw [hw2])
      exact this
    refine ⟨congrArg Prod.fst hstart, hv1, hs1, congrArg Prod.fst hend, hv2, hs2,
      fun now => ?_⟩
    rw [cancelVisit_quiet now 1 w2 hq2, hs2]
    simp only []
    rw [if_pos (by decide)]
    rfl
  · rw [startVisit_quiet (T - 2 * Hour) 1 ⟨40.7128, -74.0060⟩ w hq, hs]
    simp only []
    rw [if_pos hearly]

/-- C23 on the sample databases, whose schedule 1 runs from minute 600 to minute 720. Without a
visit row the Start at minute 590 is refused and no visit row is written. With the visit row
`insertSampleData` writes, Start at minute 590 and End at minute 660 succeed and the schedule
ends `completed`. Start at minute 480 is too early. -/
theorem C23_end_to_end_witness :
    bareWorld.visitOf 1 = none ∧
    (ScheduleService.StartVisit (600 * Minute - 10 * Minute) 1 ⟨40.7128, -74.0060⟩
      bareWorld).1 =
      .error "failed to start visit: failed to create visit: 8 values for 9 columns" ∧
    (ScheduleService.StartVisit (600 * Minute - 10 * Minute) 1 ⟨40.7128, -74.0060⟩
      bareWorld).2.visits = [] ∧
    (ScheduleService.StartVisit (600 * Minute - 10 * Minute) 1 ⟨40.7128, -74.0060⟩
      sampleWorld).1 = .ok () ∧
    (ScheduleService.EndVisit (600 * Minute + Hour) 1 ⟨40.7128, -74.0060, "done"⟩
      (ScheduleService.StartVisit (600 * Minute - 10 * Minute) 1 ⟨40.7128, -74.0060⟩
        sampleWorld).2).1 = .ok () ∧
    (ScheduleService.EndVisit (600 * Minute + Hour) 1 ⟨40.7128, -74.0060, "done"⟩
      (ScheduleService.StartVisit (600 * Minute - 10 * Minute) 1 ⟨40.7128, -74.0060⟩
        sampleWorld).2).2.scheduleOf 1 =
      some { sampleSchedule with Status := "completed", UpdatedAt := 600 * Minute + Hour } ∧
    ScheduleService.StartVisit (600 * Minute - 2 * Hour) 1 ⟨40.7128, -74.0060⟩ sampleWorld =
      (.error "cannot start visit more than 30 minutes before scheduled time",
        sampleWorld.log (Call.scheduleGetByID 1)) :=
  have hb := (C23_end_to_end bareWorld _ _ (600 * Minute) sampleSchedule rfl
    (by decide) rfl rfl rfl).1 (by decide)
  have h := C23_end_to_end sampleWorld _ _ (600 * Minute) sampleSchedule rfl
    (by decide) rfl rfl rfl
  have hv := h.2.1 sampleVisit (by decide)
  ⟨by decide, hb.1, hb.2.1, hv.1, hv.2.2.2.1, hv.2.2.2.2.2.1, h.2.2⟩

/-! ## Deleting a client -/

theorem deleteClient_quiet (id : Int) (w : World) (hq : w.faults = []) (hpos : 0 < id) :
    ClientService.DeleteClient id w =
      match w.clientOf id with
      | none => (.error "client not found", w.log (Call.clientGetByID id))
      | some _ =>
        if (w.schedules.filter (fun r => r.ClientID == id)).length > 0 then
          (.error ("failed to delete client: " ++ ("cannot delete client: client has " ++
              toString (w.schedules.filter (fun r => r.ClientID == id)).length ++
              " associated schedules")),
            { w with trace := w.trace ++ [Call.clientGetByID id, Call.clientDelete id] })
        else
          (.ok (), { w with
            clients := w.clients.filter (fun c => !(c.ID == id)),
            trace := w.trace ++ [Call.clientGetByID id, Call.clientDelete id] }) := by
  unfold ClientService.DeleteClient clientRepository.GetByID World.clientOf
  rw [if_neg (not_le.2 hpos), nextFault_nil _ (by rw [faults_log]; exact hq)]
  simp only [World.log]
  cases hc : List.find? (fun c => c.ID == id) w.clients with
  | none => rfl
  | some c =>
    simp only []
    unfold clientRepository.Delete
    rw [nextFault_nil _ (by simpa [World.log] using hq)]
    simp only [World.log]
    by_cases hn : (w.schedules.filter (fun r => r.ClientID == id)).length > 0
    · rw [if_pos hn, if_pos hn]
      simp
    · rw [if_neg hn, if_neg hn]
      simp [World.nextFault, hq]

/-- C24, what the code does: for a client that exists and has at least one schedule, the
driver reporting no error, `DeleteClient` returns the error of the repository with the number
of schedules in it, wrapped, and deletes nothing; `deleteClient` compares that message with
`cannot delete client: client has associated schedules`, which it never equals, and answers
500, not 409. A positive id of no client is answered 404; an id that is not positive is
answered 500. -/
theorem C24_delete_client_answer (id : Int) (w : World) (hq : w.faults = []) :
    (∀ client, 0 < id → w.clientOf id = some client →
      0 < (w.schedules.filter (fun r => r.ClientID == id)).length →
      (ClientService.DeleteClient id w).1 =
        .error ("failed to delete client: " ++ ("cannot delete client: client has " ++
          toString (w.schedules.filter (fun r => r.ClientID == id)).length ++
          " associated schedules")) ∧
      (ClientService.DeleteClient id w).2.clients = w.clients ∧
      (ClientService.DeleteClient id w).2.schedules = w.schedules ∧
      (Handler.deleteClient (.ok id) w).1.Code = 500 ∧
      (Handler.deleteClient (.ok id) w).1.Error = some "Failed to delete client") ∧
    (0 < id → w.clientOf id = none → (Handler.deleteClient (.ok id) w).1.Code = 404) ∧
    (id ≤ 0 → (Handler.deleteClient (.ok id) w).1.Code = 500) := by
  refine ⟨fun client hpos hc hn => ?_, fun hpos hc => ?_, fun hneg => ?_⟩
  · have hd := deleteClient_quiet id w hq hpos
    rw [hc] at hd
    simp only [gt_iff_lt, if_pos hn] at hd
    unfold Handler.deleteClient
    simp only []
    rw [hd]
    simp only []
    rw [if_neg (append_ne _ _ _ 1 (by decide) (by decide)),
      if_neg (append_ne _ _ _ 1 (by decide) (by decide))]
    exact ⟨trivial, trivial, trivial, rfl, rfl⟩
  · have hd := deleteClient_quiet id w hq hpos
    rw [hc] at hd
    unfold Handler.deleteClient
    simp only []
    rw [hd]
    rfl
  · unfold Handler.deleteClient ClientService.DeleteClient
    simp only []
    rw [if_pos hneg]
    simp only []
    rw [if_neg (append_ne _ _ _ 1 (by decide) (by decide)),
      if_neg (append_ne _ _ _ 1 (by decide) (by decide))]
    rfl

/-- C24 on the sample database: client 101 has schedule 1; deleting it is answered 500 and
the client stays; client 7 does not exist and is answered 404. -/
theorem C24_delete_client_answer_witness :
    (Handler.deleteClient (.ok 101) clientWorld).1 =
      Handler.errorResponse 500 "Failed to delete client"
        "failed to delete client: cannot delete client: client has 1 associated schedules" ∧
    (Handler.deleteClient (.ok 101) clientWorld).2.clients = [sampleClient] ∧
    (Handler.deleteClient (.ok 7) clientWorld).1.Code = 404 :=
  ⟨by decide,
   ((C24_delete_client_answer 101 clientWorld rfl).1 sampleClient (by decide) (by decide)
      (by decide)).2.1,
   (C24_delete_client_answer 7 clientWorld rfl).2.1 (by decide) (by decide)⟩

/-! ## Start on a completed visit -/

/-- C25, what the code does: `StartVisit` reads neither the status of the schedule nor that
of the visit. A Start at a time that is not too early on a schedule that has a visit row,
the driver reporting no error, returns no error whatever the two statuses, `completed`
included; it overwrites the start time and start location of the visit and sets the visit to
`in_progress`, its end time, end location and notes staying as they were, and sets the
schedule to `in_progress`. -/
theorem C25_start_on_completed (w : World) (now : Time) (scheduleID : Int)
    (req : VisitStartRequest) (row : ScheduleRow) (visit : Visit)
    (hq : w.faults = []) (hs : w.scheduleOf scheduleID = some row)
    (hv : w.visitOf scheduleID = some visit) (ht : ¬ now < row.StartTime - 30 * Minute) :
    (ScheduleService.StartVisit now scheduleID req w).1 = .ok () ∧
    (ScheduleService.StartVisit now scheduleID req w).2.visitOf scheduleID = some
      { visit with StartTime := some now, StartLatitude := some req.Latitude,
                   StartLongitude := some req.Longitude, Status := "in_progress",
                   UpdatedAt := now } ∧
    (ScheduleService.StartVisit now scheduleID req w).2.scheduleOf scheduleID =
      some { row with Status := "in_progress", UpdatedAt := now } := by
  have hsub : row.StartTime + (-30) * Minute = row.StartTime - 30 * Minute := by ring
  have hstart := startVisit_quiet now scheduleID req w hq
  rw [hs] at hstart
  simp only [hsub] at hstart
  rw [if_neg ht, hv] at hstart
  simp only [] at hstart
  rw [hstart]
  exact ⟨rfl,
    visitOf_after_update w now scheduleID visit (visit.started now req.Latitude req.Longitude)
      _ hv rfl rfl,
    scheduleOf_after_update w now scheduleID row "in_progress" _ hs rfl⟩

/-- C25 on the sample database after its visit was completed: a Start at minute 700 succeeds;
the visit is `in_progress` again, started at minute 700 and still ended at minute 660. -/
theorem C25_start_on_completed_witness :
    completedWorld.statusOf 1 = some "completed" ∧
    (completedWorld.visitOf 1).map (fun v => v.Status) = some "completed" ∧
    (ScheduleService.StartVisit (700 * Minute) 1 ⟨40, -74⟩ completedWorld).1 = .ok () ∧
    (ScheduleService.StartVisit (700 * Minute) 1 ⟨40, -74⟩ completedWorld).2.visitOf 1 = some
      { sampleVisit with StartTime := some (700 * Minute), EndTime := some (660 * Minute),
                         StartLatitude := some 40, StartLongitude := some (-74),
                         EndLatitude := some 40, EndLongitude := some (-74),
                         Status := "in_progress", Notes := "done",
                         UpdatedAt := 700 * Minute } ∧
    (ScheduleService.StartVisit (700 * Minute) 1 ⟨40, -74⟩ completedWorld).2.scheduleOf 1 =
      some { sampleSchedule with Status := "in_progress", UpdatedAt := 700 * Minute } :=
  ⟨by decide, by decide,
    C25_start_on_completed completedWorld (700 * Minute) 1 ⟨40, -74⟩
      { sampleSchedule with Status := "completed" }
      { sampleVisit with StartTime := some (590 * Minute), EndTime := some (660 * Minute),
                         StartLatitude := some 40, StartLongitude := some (-74),
                         EndLatitude := some 40, EndLongitude := some (-74),
                         Status := "completed", Notes := "done" }
      rfl (by decide) (by decide) (by decide)⟩

/-! ## Cancel twice -/

/-- C26 as stated fails: on the sample database, whose schedule 1 is `scheduled`, a Cancel at
minute 500 succeeds and so does a second one at minute 510, but the second leaves the
schedule row with `updated_at` at minute 510 where the first left minute 500. -/
theorem C26_second_cancel_restamps :
    (ScheduleService.CancelVisit (500 * Minute) 1 sampleWorld).1 = .ok () ∧
    (ScheduleService.CancelVisit (510 * Minute) 1
      (ScheduleService.CancelVisit (500 * Minute) 1 sampleWorld).2).1 = .ok () ∧
    (ScheduleService.CancelVisit (500 * Minute) 1 sampleWorld).2.scheduleOf 1 =
      some { sampleSchedule with UpdatedAt := 500 * Minute } ∧
    (ScheduleService.CancelVisit (510 * Minute) 1
      (ScheduleService.CancelVisit (500 * Minute) 1 sampleWorld).2).2.scheduleOf 1 =
      some { sampleSchedule with UpdatedAt := 510 * Minute } ∧
    (ScheduleService.CancelVisit (510 * Minute) 1
      (ScheduleService.CancelVisit (500 * Minute) 1 sampleWorld).2).2.schedules ≠
      (ScheduleService.CancelVisit (500 * Minute) 1 sampleWorld).2.schedules := by
  decide

theorem second_cancel (w w1 : World) (now1 now2 : Time) (scheduleID : Int) (row : ScheduleRow)
    (hs : w.scheduleOf scheduleID = some row) (hq1 : w1.faults = [])
    (hss : w1.schedules = w.schedules.map
      (scheduleRepository.updateRow now1 { scanSchedule row with Status := "scheduled" })) :
    ScheduleService.CancelVisit now2 scheduleID w1 =
      (.ok (), { w1 with
        schedules := w1.schedules.map
          (fun r => if r.ID == scheduleID then { r with UpdatedAt := now2 } else r),
        trace := w1.trace ++ [Call.scheduleGetByID scheduleID,
          Call.scheduleUpdate
            { scanSchedule { row with Status := "scheduled", UpdatedAt := now1 } with
              Status := "scheduled" }],
        rewritten := row.ID :: w1.rewritten }) := by
  have hid := scheduleOf_id w scheduleID row hs
  have hs1 : w1.scheduleOf scheduleID =
      some { row with Status := "scheduled", UpdatedAt := now1 } :=
    scheduleOf_after_update w now1 scheduleID row "scheduled" w1.schedules hs hss
  rw [cancelVisit_quiet now2 scheduleID w1 hq1, hs1]
  simp only []
  rw [if_neg (by simp), if_neg (by decide)]
  congr 2
  rw [hss, List.map_map, List.map_map]
  apply List.map_congr_left
  intro r0 _
  by_cases h : r0.ID = scheduleID
  · simp [scheduleRepository.updateRow, scanSchedule, h, hid]
  · have h2 : ¬ r0.ID = row.ID := by rw [hid]; exact h
    simp [scheduleRepository.updateRow, scanSchedule, h, h2]

/-- C26, amended: when no persistence call fails and `CancelVisit` succeeds, a second
`CancelVisit` succeeds as well and leaves the visits, the tasks and the schedule rows as the
first call left them, but for the `updated_at` of the schedule, which it sets to its own
current time; it makes no call on the visit. -/
theorem C26_cancel_twice (w w1 w2 : World) (now1 now2 : Time) (scheduleID : Int)
    (hq : w.faults = [])
    (hok : (ScheduleService.CancelVisit now1 scheduleID w).1 = .ok ())
    (h1 : w1 = (ScheduleService.CancelVisit now1 scheduleID w).2)
    (h2 : w2 = (ScheduleService.CancelVisit now2 scheduleID w1).2) :
    (ScheduleService.CancelVisit now2 scheduleID w1).1 = .ok () ∧
    w2.visits = w1.visits ∧ w2.tasks = w1.tasks ∧ w2.clients = w1.clients ∧
    w2.schedules = w1.schedules.map
      (fun r => if r.ID == scheduleID then { r with UpdatedAt := now2 } else r) ∧
    w2.statusOf scheduleID = some "scheduled" ∧ w1.statusOf scheduleID = some "scheduled" ∧
    (w2.callsSince w1).filter Call.onVisit = [] := by
  have hc := cancelVisit_quiet now1 scheduleID w hq
  cases hs : w.scheduleOf scheduleID with
  | none =>
    rw [hs] at hc
    rw [hc] at hok
    cases hok
  | some row =>
    rw [hs] at hc
    simp only [] at hc
    have hw1 : w1.faults = [] ∧ w1.schedules = w.schedules.map
        (scheduleRepository.updateRow now1 { scanSchedule row with Status := "scheduled" }) := by
      by_cases hbad : row.Status ≠ "scheduled" ∧ row.Status ≠ "in_progress"
      · rw [if_pos hbad] at hc
        rw [hc] at hok
        cases hok
      · rw [if_neg hbad] at hc
        by_cases hin : row.Status = "in_progress"
        · rw [if_pos hin] at hc
          cases hv : w.visitOf scheduleID with
          | none =>
            rw [hv] at hc
            rw [hc] at hok
            cases hok
          | some visit =>
            rw [hv] at hc
            simp only [] at hc
            by_cases hvs : visit.Status ≠ "in_progress"
            · rw [if_pos hvs] at hc
              rw [hc] at hok
              cases hok
            · rw [if_neg hvs] at hc
              rw [h1, hc]
              exact ⟨hq, rfl⟩
        · rw [if_neg hin] at hc
          rw [h1, hc]
          exact ⟨hq, rfl⟩
    have hsec := second_cancel w w1 now1 now2 scheduleID row hs hw1.1 hw1.2
    have hs1 : w1.scheduleOf scheduleID =
        some { row with Status := "scheduled", UpdatedAt := now1 } :=
      scheduleOf_after_update w now1 scheduleID row "scheduled" w1.schedules hs hw1.2
    have hw2 := h2
    rw [hsec] at hw2
    simp only [] at hw2
    have e1 := congrArg World.visits hw2
    have e2 := congrArg World.tasks hw2
    have e3 := congrArg World.clients hw2
    have e4 := congrArg World.schedules hw2
    have e5 := congrArg World.trace hw2
    refine ⟨congrArg Prod.fst hsec, e1, e2, e3, e4, ?_, ?_, ?_⟩
    · unfold World.statusOf World.scheduleOf
      rw [hw2]
      simp only []
      rw [List.find?_map]
      have hfun : ((fun r : ScheduleRow => r.ID == scheduleID) ∘
          fun r => if r.ID == scheduleID then { r with UpdatedAt := now2 } else r) =
          fun r => r.ID == scheduleID := by
        funext r
        simp only [Function.comp]
        split <;> rfl
      rw [hfun]
      unfold World.scheduleOf at hs1
      rw [hs1]
      simp
      split <;> rfl
    · unfold World.statusOf
      rw [hs1]
      rfl
    · rw [callsSince_append w1 w2 _ e5]
      rfl

/-- C26, amended, on the sample database after a Start at minute 590: a Cancel at minute 600
and a second one at minute 610 both succeed; the second leaves the visit as the first did. -/
theorem C26_cancel_twice_witness :
    (ScheduleService.CancelVisit (610 * Minute) 1
      (ScheduleService.CancelVisit (600 * Minute) 1 startedWorld).2).1 = .ok () ∧
    (ScheduleService.CancelVisit (610 * Minute) 1
      (ScheduleService.CancelVisit (600 * Minute) 1 startedWorld).2).2.visits =
      (ScheduleService.CancelVisit (600 * Minute) 1 startedWorld).2.visits :=
  have h := C26_cancel_twice startedWorld _ _ (600 * Minute) (610 * Minute) 1 rfl (by decide)
    rfl rfl
  ⟨h.1, h.2.1⟩

/-! ## The derived status and the persisted one -/

/-- C27: the status `updateScheduleStatus` sets is a function of `now`, the end time and the
attached visit alone: two schedules that agree on these get the same status whatever their
persisted statuses, and replacing the persisted status changes nothing in the result. The
status set is one of `scheduled`, `in_progress`, `completed` and `missed`; no other field
changes; and applying the function twice at the same `now` is applying it once. -/
theorem C27_derived_status_independent (now : Time) (s1 s2 : Schedule)
    (he : s1.EndTime = s2.EndTime) (hv : s1.Visit = s2.Visit) :
    (ScheduleService.updateScheduleStatus now s1).Status =
      (ScheduleService.updateScheduleStatus now s2).Status ∧
    (∀ status, ScheduleService.updateScheduleStatus now { s1 with Status := status } =
      ScheduleService.updateScheduleStatus now s1) ∧
    (ScheduleService.updateScheduleStatus now s1).Status ∈
      ["scheduled", "in_progress", "completed", "missed"] ∧
    ScheduleService.updateScheduleStatus now s1 =
      { s1 with Status := (ScheduleService.updateScheduleStatus now s1).Status } ∧
    ScheduleService.updateScheduleStatus now (ScheduleService.updateScheduleStatus now s1) =
      ScheduleService.updateScheduleStatus now s1 := by
  refine ⟨?_, fun status => ?_, ?_, ?_, ?_⟩
  · rw [updateScheduleStatus_eq, updateScheduleStatus_eq, he, hv]
  · rw [updateScheduleStatus_eq, updateScheduleStatus_eq]
  · rw [updateScheduleStatus_eq]
    show derivedStatus now s1.EndTime s1.Visit ∈ _
    unfold derivedStatus
    cases s1.Visit with
    | none => simp only []; split <;> simp
    | some v =>
      simp only []
      split
      · simp
      · split
        · simp
        · split <;> simp
  · rw [updateScheduleStatus_eq]
  · rw [updateScheduleStatus_eq, updateScheduleStatus_eq]

/-- C27 on the sample schedule at minute 800 with no visit attached: persisted as `scheduled`
or as `completed`, it is derived `missed`. -/
theorem C27_derived_status_independent_witness :
    (ScheduleService.updateScheduleStatus (800 * Minute) (scanSchedule sampleSchedule)).Status =
      (ScheduleService.updateScheduleStatus (800 * Minute)
        { scanSchedule sampleSchedule with Status := "completed" }).Status ∧
    (ScheduleService.updateScheduleStatus (800 * Minute)
        { scanSchedule sampleSchedule with Status := "completed" }).Status = "missed" :=
  ⟨(C27_derived_status_independent (800 * Minute) (scanSchedule sampleSchedule)
      { scanSchedule sampleSchedule with Status := "completed" } rfl rfl).1, by decide⟩

/-! ## Start and its two writes -/

/-- C28: when the schedule lookup of `StartVisit` finds the schedule, the time is admitted,
`visitRepo.StartVisit` succeeds and `scheduleRepo.Update` fails, `StartVisit` returns the
error of the update, wrapped; the visit row stays written, `in_progress` with the new start
time and location, and the schedule rows are as they were: nothing is rolled back. When the
lookup finds no schedule, or the time is too early, `StartVisit` returns its error after the
lookup, with no other repository call and no table changed. -/
theorem C28_start_not_atomic (w w1 w2 w3 : World) (now : Time) (scheduleID : Int)
    (req : VisitStartRequest) :
    (∀ schedule e,
      scheduleRepository.GetByID scheduleID w = (.ok (some schedule), w1) →
      ¬ now < schedule.StartTime - 30 * Minute →
      visitRepository.StartVisit now scheduleID req.Latitude req.Longitude w1 = (.ok (), w2) →
      scheduleRepository.Update now { schedule with Status := "in_progress" } w2 =
        (.error e, w3) →
      ScheduleService.StartVisit now scheduleID req w =
        (.error ("failed to update schedule status: " ++ e), w3) ∧
      (∃ visit, w.visitOf scheduleID = some visit ∧
        w3.visitOf scheduleID = some
          { visit with StartTime := some now, StartLatitude := some req.Latitude,
                       StartLongitude := some req.Longitude, Status := "in_progress",
                       UpdatedAt := now }) ∧
      w3.schedules = w.schedules) ∧
    (scheduleRepository.GetByID scheduleID w = (.ok none, w1) →
      ScheduleService.StartVisit now scheduleID req w = (.error "schedule not found", w1) ∧
      w1.callsSince w = [Call.scheduleGetByID scheduleID] ∧
      w1.schedules = w.schedules ∧ w1.visits = w.visits ∧ w1.tasks = w.tasks) ∧
    (∀ schedule,
      scheduleRepository.GetByID scheduleID w = (.ok (some schedule), w1) →
      now < schedule.StartTime - 30 * Minute →
      ScheduleService.StartVisit now scheduleID req w =
        (.error "cannot start visit more than 30 minutes before scheduled time", w1) ∧
      w1.callsSince w = [Call.scheduleGetByID scheduleID] ∧
      w1.schedules = w.schedules ∧ w1.visits = w.visits ∧ w1.tasks = w.tasks) := by
  obtain ⟨g1, g2, g3, g4, -, -⟩ := scheduleGetByID_spec scheduleID w
  refine ⟨fun schedule e hg ht hv hu => ?_, fun hg => ?_, fun schedule hg ht => ?_⟩
  · have hsub : schedule.StartTime + (-30) * Minute = schedule.StartTime - 30 * Minute := by
      ring
    rw [hg] at g1 g2 g3
    simp only [] at g1 g2 g3
    refine ⟨?_, ?_, ?_⟩
    · unfold ScheduleService.StartVisit
      rw [hg]
      simp only [hsub]
      rw [if_neg ht, hv]
      simp only []
      rw [hu]
    · obtain ⟨-, -, v3, -⟩ := visitStartVisit_spec now scheduleID req.Latitude req.Longitude w1
      rw [hv] at v3
      obtain ⟨visit, hvis, hvisits⟩ := v3 rfl
      have hvis0 : w.visitOf scheduleID = some visit := by
        unfold World.visitOf at hvis ⊢
        rw [← g2]
        exact hvis
      obtain ⟨u1, -, -, -, -, -⟩ :=
        scheduleUpdate_spec now { schedule with Status := "in_progress" } w2
      rw [hu] at u1
      simp only [] at u1 hvisits
      refine ⟨visit, hvis0, ?_⟩
      unfold World.visitOf
      rw [u1]
      exact visitOf_after_update w1 now scheduleID visit
        (visit.started now req.Latitude req.Longitude) w2.visits hvis rfl hvisits
    · obtain ⟨v1, -, -, -⟩ := visitStartVisit_spec now scheduleID req.Latitude req.Longitude w1
      obtain ⟨-, -, -, -, u5, -⟩ :=
        scheduleUpdate_spec now { schedule with Status := "in_progress" } w2
      rw [hv] at v1
      rw [hu] at u5
      simp only [] at v1 u5
      rw [u5 ⟨e, rfl⟩, v1, g1]
  · rw [hg] at g1 g2 g3 g4
    simp only [] at g1 g2 g3 g4
    refine ⟨?_, callsSince_append w w1 _ g4, g1, g2, g3⟩
    unfold ScheduleService.StartVisit
    rw [hg]
  · have hsub : schedule.StartTime + (-30) * Minute = schedule.StartTime - 30 * Minute := by
      ring
    rw [hg] at g1 g2 g3 g4
    simp only [] at g1 g2 g3 g4
    refine ⟨?_, callsSince_append w w1 _ g4, g1, g2, g3⟩
    unfold ScheduleService.StartVisit
    rw [hg]
    simp only [hsub]
    rw [if_pos ht]

/-- C28 on the sample database with a driver that reports `database is locked` on the fourth
statement, the schedule update of a Start at minute 590: Start fails, the visit is started
and the schedule rows are as before. -/
theorem C28_start_not_atomic_witness :
    ScheduleService.StartVisit (590 * Minute) 1 ⟨40, -74⟩ lockedWorld =
      (.error "failed to update schedule status: failed to update schedule: database is locked",
        (scheduleRepository.Update (590 * Minute)
          { scanSchedule sampleSchedule with Status := "in_progress" }
          (visitRepository.StartVisit (590 * Minute) 1 40 (-74)
            (scheduleRepository.GetByID 1 lockedWorld).2).2).2) ∧
    (∃ visit, lockedWorld.visitOf 1 = some visit ∧
      (scheduleRepository.Update (590 * Minute)
          { scanSchedule sampleSchedule with Status := "in_progress" }
          (visitRepository.StartVisit (590 * Minute) 1 40 (-74)
            (scheduleRepository.GetByID 1 lockedWorld).2).2).2.visitOf 1 = some
        { visit with StartTime := some (590 * Minute), StartLatitude := some 40,
                     StartLongitude := some (-74), Status := "in_progress",
                     UpdatedAt := 590 * Minute }) ∧
    (scheduleRepository.Update (590 * Minute)
        { scanSchedule sampleSchedule with Status := "in_progress" }
        (visitRepository.StartVisit (590 * Minute) 1 40 (-74)
          (scheduleRepository.GetByID 1 lockedWorld).2).2).2.schedules =
      lockedWorld.schedules :=
  (C28_start_not_atomic lockedWorld (scheduleRepository.GetByID 1 lockedWorld).2
    (visitRepository.StartVisit (590 * Minute) 1 40 (-74)
      (scheduleRepository.GetByID 1 lockedWorld).2).2
    (scheduleRepository.Update (590 * Minute)
      { scanSchedule sampleSchedule with Status := "in_progress" }
      (visitRepository.StartVisit (590 * Minute) 1 40 (-74)
        (scheduleRepository.GetByID 1 lockedWorld).2).2).2
    (590 * Minute) 1 ⟨40, -74⟩).1
    (scanSchedule sampleSchedule) "failed to update schedule: database is locked"
    (by decide) (by decide) (by decide) (by decide)

/-! ## The statement of `visitRepository.Create` -/

/-- C29, what the code does: the `INSERT` of `visitRepository.Create` names 9 columns, has 8
placeholders in its `VALUES` list and is given 9 arguments, so it is refused whatever the
visit and whatever the database; a Start on a schedule that has no visit row, which asks
`Create` for the row, therefore fails, and no visit row is written. -/
theorem C29_create_insert_malformed :
    visitRepository.createColumns.length = 9 ∧ visitRepository.createPlaceholders = 8 ∧
    visitRepository.createArgs = 9 ∧
    (∀ now visit w, ∃ e w1, visitRepository.Create now visit w = (.error e, w1) ∧
      w1.visits = w.visits) ∧
    bareWorld.visitOf 1 = none ∧
    ScheduleService.StartVisit (590 * Minute) 1 ⟨40, -74⟩ bareWorld =
      (.error "failed to start visit: failed to create visit: 8 values for 9 columns",
        { bareWorld with
            trace := [Call.scheduleGetByID 1, Call.visitStartVisit 1 40 (-74),
              Call.visitGetByScheduleID 1,
              Call.visitCreate
                { ScheduleID := 1, StartTime := some (590 * Minute), StartLatitude := some 40,
                  StartLongitude := some (-74), Status := "in_progress" }] }) := by
  refine ⟨rfl, rfl, rfl, fun now visit w => ⟨_, _, visitCreate_spec now visit w, rfl⟩,
    by decide, by decide⟩

/-! ## The substring functions of `task_repository.go` -/

theorem take_drop_infix {α : Type} (s sub : List α) (i : Nat)
    (h : (s.drop i).take sub.length = sub) : sub <:+: s := by
  refine ⟨s.take i, (s.drop i).drop sub.length, ?_⟩
  have e1 : (s.drop i).take sub.length ++ (s.drop i).drop sub.length = s.drop i :=
    List.take_append_drop _ _
  rw [h] at e1
  rw [List.append_assoc, e1, List.take_append_drop]

theorem containsSubstring_iff {α : Type} [DecidableEq α] (s sub : List α) :
    containsSubstring s sub = true ↔ sub <:+: s := by
  unfold containsSubstring
  by_cases h0 : sub.length = 0
  · rw [if_pos h0]
    have : sub = [] := List.length_eq_zero.1 h0
    subst this
    simp
  · rw [if_neg h0]
    by_cases hl : sub.length > s.length
    · rw [if_pos hl]
      constructor
      · intro h
        cases h
      · intro h
        have := h.length_le
        omega
    · rw [if_neg hl]
      simp only [List.any_eq_true, List.mem_range, decide_eq_true_eq]
      constructor
      · rintro ⟨i, -, hi⟩
        exact take_drop_infix s sub i hi
      · rintro ⟨pre, post, rfl⟩
        refine ⟨pre.length, ?_, ?_⟩
        · simp only [List.length_append]
          omega
        · simp [List.append_assoc]

theorem containsErrorSubstring_iff {α : Type} [DecidableEq α] (s sub : List α) :
    containsErrorSubstring s sub = true ↔ sub <:+: s := by
  unfold containsErrorSubstring
  simp only [Bool.and_eq_true, Bool.or_eq_true, decide_eq_true_eq, containsSubstring_iff]
  constructor
  · rintro ⟨-, h | ⟨-, (h | h) | h⟩⟩
    · rw [h]
    · exact (List.prefix_iff_eq_take.2 h.symm).isInfix
    · exact (List.suffix_iff_eq_drop.2 h.symm).isInfix
    · exact h
  · intro h
    have hle := h.length_le
    refine ⟨hle, ?_⟩
    by_cases heq : s = sub
    · exact Or.inl heq
    · refine Or.inr ⟨?_, Or.inr h⟩
      rcases Nat.lt_or_ge sub.length s.length with hlt | hge
      · exact hlt
      · exact absurd (h.eq_of_length (Nat.le_antisymm hle hge)).symm heq

theorem goSlice_eq {α : Type} (s : List α) (lo hi : Nat) (h1 : lo ≤ hi) (h2 : hi ≤ s.length) :
    goSlice s lo hi = some ((s.drop lo).take (hi - lo)) := by
  unfold goSlice
  rw [if_pos ⟨by omega, by omega, by omega⟩]
  congr 2
  omega

theorem scan_eq {α : Type} [DecidableEq α] (s sub : List α) :
    ∀ idx : List Nat, (∀ i ∈ idx, i + sub.length ≤ s.length) →
      containsSubstring.scan s sub idx =
        some (idx.any (fun i => decide ((s.drop i).take sub.length = sub))) := by
  intro idx
  induction idx with
  | nil => intro _; rfl
  | cons i rest ih =>
    intro h
    have hi := h i (List.mem_cons_self _ _)
    have hs : goSlice s (i : Int) ((i : Int) + sub.length) =
        some ((s.drop i).take sub.length) := by
      have := goSlice_eq s i (i + sub.length) (by omega) hi
      simpa using this
    simp only [containsSubstring.scan, hs, List.any_cons]
    by_cases he : (s.drop i).take sub.length = sub
    · simp [he]
    · rw [if_neg he, ih (fun j hj => h j (List.mem_cons_of_mem _ hj))]
      simp [he]

theorem containsSubstring_checked {α : Type} [DecidableEq α] (s sub : List α) :
    containsSubstring.checked s sub = some (containsSubstring s sub) := by
  unfold containsSubstring.checked containsSubstring
  by_cases h0 : sub.length = 0
  · rw [if_pos h0, if_pos h0]
  · rw [if_neg h0, if_neg h0]
    by_cases hl : sub.length > s.length
    · rw [if_pos hl, if_pos hl]
    · rw [if_neg hl, if_neg hl]
      have hr : ((s.length : Int) - sub.length + 1).toNat = s.length - sub.length + 1 := by
        omega
      rw [hr]
      apply scan_eq
      intro i hi
      have := List.mem_range.1 hi
      omega

theorem containsErrorSubstring_checked {α : Type} [DecidableEq α] (s sub : List α) :
    containsErrorSubstring.checked s sub = some (containsErrorSubstring s sub) := by
  unfold containsErrorSubstring.checked containsErrorSubstring
  by_cases h1 : s.length ≥ sub.length
  · rw [if_neg (not_not.2 h1)]
    by_cases h2 : s = sub
    · rw [if_pos h2]
      simp [h1, h2]
    · rw [if_neg h2]
      by_cases h3 : s.length > sub.length
      · rw [if_neg (not_not.2 h3)]
        have hp : goSlice s 0 (sub.length : Int) = some (s.take sub.length) := by
          have := goSlice_eq s 0 sub.length (by omega) h1
          simpa using this
        have hq : goSlice s ((s.length : Int) - sub.length) (s.length : Int) =
            some (s.drop (s.length - sub.length)) := by
          have := goSlice_eq s (s.length - sub.length) s.length (by omega) (le_refl _)
          have hc : ((s.length - sub.length : Nat) : Int) = (s.length : Int) - sub.length := by
            omega
          rw [hc] at this
          rw [this]
          congr 1
          apply List.take_of_length_le
          simp
        simp only [hp, hq, containsSubstring_checked]
        by_cases h4 : s.take sub.length = sub
        · simp [h1, h3, h4]
        · by_cases h5 : s.drop (s.length - sub.length) = sub
          · simp [h1, h3, h4, h5]
          · simp [h1, h2, h3, h4, h5]
      · rw [if_pos h3]
        simp [h1, h2, h3]
  · rw [if_pos h1]
    simp [h1]


/-- C30: `containsSubstring` and `containsErrorSubstring` answer true exactly when the second
string occurs in the first as a contiguous run of elements, so the shortcuts of
`containsErrorSubstring` for equality, prefix and suffix never change the answer; run with
every slice expression checked against the length of the string, both return that same
answer, no slice being out of range. So `isDatabaseLockedError` is true exactly of an error
that is not `nil` and whose message contains `database is locked`, `SQLITE_BUSY` or `busy`,
letter case respected. -/
theorem C30_substring_functions {α : Type} [DecidableEq α] (s sub : List α) :
    (containsSubstring s sub = true ↔ sub <:+: s) ∧
    (containsErrorSubstring s sub = true ↔ sub <:+: s) ∧
    containsSubstring.checked s sub = some (containsSubstring s sub) ∧
    containsErrorSubstring.checked s sub = some (containsErrorSubstring s sub) ∧
    (∀ err, isDatabaseLockedError err = true ↔
      ∃ msg, err = some msg ∧
        ("database is locked".data <:+: msg.data ∨ "SQLITE_BUSY".data <:+: msg.data ∨
          "busy".data <:+: msg.data)) := by
  refine ⟨containsSubstring_iff s sub, containsErrorSubstring_iff s sub,
    containsSubstring_checked s sub, containsErrorSubstring_checked s sub, fun err => ?_⟩
  cases err with
  | none =>
    constructor
    · intro h
      cases h
    · rintro ⟨msg, h, -⟩
      cases h
  | some msg =>
    unfold isDatabaseLockedError
    simp only [Bool.or_eq_true, containsErrorSubstring_iff, Option.some.injEq]
    constructor
    · intro h
      exact ⟨msg, rfl, by tauto⟩
    · rintro ⟨m, rfl, h⟩
      tauto

/-- C30 on three messages: `SQLITE_BUSY` inside a longer message and `busy` at its end are
found; `Busy` with a capital is not. -/
theorem C30_substring_functions_witness :
    isDatabaseLockedError (some "exec failed: SQLITE_BUSY (5)") = true ∧
    isDatabaseLockedError (some "resource busy") = true ∧
    ¬ isDatabaseLockedError (some "Busy") = true ∧
    containsErrorSubstring.checked "busy".data "database is locked".data = some false :=
  ⟨((C30_substring_functions ([] : List Char) []).2.2.2.2 _).2
      ⟨_, rfl, Or.inr (Or.inl (by decide))⟩,
   ((C30_substring_functions ([] : List Char) []).2.2.2.2 _).2
      ⟨_, rfl, Or.inr (Or.inr (by decide))⟩,
   fun h => by
     obtain ⟨msg, hm, hc⟩ := ((C30_substring_functions ([] : List Char) []).2.2.2.2 _).1 h
     cases hm
     revert hc
     decide,
   by rw [(C30_substring_functions "busy".data "database is locked".data).2.2.2.1]; decide⟩

end Caregiver
